import Mathlib

/-!
# UsbGpib: the GPIB bus driver `SW/TestAndMeasurement/gpib.c`

A shallow embedding of the driver and proofs about it.

* The AVR registers and the file's `static` variables are the fields of `State`.
* What the driver cannot decide is the environment: the levels read from the
  input registers `PINB`, `PINC`, `PIND`, `PINF` (`Env`) and the answers of a
  caller-supplied timeout function (`gpibtimeout_t.caller`).  Both are
  arbitrary functions of everything that has happened so far (`State.trace`),
  so a theorem quantified over them holds for every peer on the bus and every
  timeout function.
* The busy-wait loops take a bound on their number of iterations (`fuel`) and
  return `none` when it is exhausted; `Returns` says that a call returns.
* `_delay_us` / `_delay_ms` change nothing that is modelled and are omitted.
-/

namespace UsbGpib

/-! ## Data model -/

/-- What a run of the driver leaves in `State.trace`, oldest first.  The
trace is a record kept beside the registers; the driver never reads it. -/
inductive Event where
  /-- One call of the timeout function `ptimeoutfunc()` and its answer. -/
  | poll (timedout : Bool)
  /-- The statement `DDRD = dat` of `gpib_tx`: a byte is put on the data bus.
  The flag is whether the controller drives ATN low at that moment. -/
  | drive (dat : Nat) (atn : Bool)
  /-- The statement `DAV_LOW` of `gpib_tx`: the byte on the bus is declared
  valid.  Recorded with the contents of `DDRD` and whether the controller
  drives ATN and EOI low at that moment. -/
  | valid (dat : Nat) (atn : Bool) (eoi : Bool)
  /-- The statement `DDRD = 0x00` of `gpib_tx`: the data bus is released.
  The flag is whether the controller still drives ATN low at that moment. -/
  | release (atn : Bool)
  /-- The statements `c = ~PIND; eoi = (EOI_STATE == 0)` of `gpib_readdat`: a
  byte is taken from the bus, with the sampled end-or-identify level. -/
  | accept (c : Nat) (eoi : Bool)
  deriving DecidableEq, Repr

/-- The registers of the microcontroller the driver writes, the `static`
variables of `gpib.c`, and the trace. All registers and counters are 8 bit
wide except `timeout_val` (16 bit). -/
structure State where
  DDRB : Nat
  DDRC : Nat
  DDRD : Nat
  DDRE : Nat
  DDRF : Nat
  PORTB : Nat
  PORTC : Nat
  PORTD : Nat
  PORTE : Nat
  PORTF : Nat
  TCCR0B : Nat
  TIMSK0 : Nat
  timer0_100mscounter : Nat
  timer0_div : Nat
  s_device_state : Nat
  s_gpib_disconnect_counter : Nat
  s_gpib_transaction_active : Bool
  s_terminator : Nat
  timeout_val : Nat
  trace : List Event
  deriving DecidableEq, Repr

/-- The levels on the input registers. A GPIB line is low when anybody on the
bus pulls it low, so what is read depends on the peer; it is given here as a
function of the trace at the moment of the read. -/
structure Env where
  PINB : List Event → Nat
  PINC : List Event → Nat
  PIND : List Event → Nat
  PINF : List Event → Nat

/-- The type `gpibtimeout_t` of gpib.h, a `bool (*)(void)`: either the address
of `is_timedout` of this file, or a function of the caller, whose answer may
depend on everything that has happened so far. -/
inductive gpibtimeout_t where
  | is_timedout
  | caller (answer : List Event → Bool)

def GPIB_DEVICE_CONNECTSTATE_UNKNOWN : Nat := 0
def GPIB_DEVICE_CONNECTSTATE_DISCONNECTED : Nat := 1
def GPIB_DEVICE_CONNECTSTATE_CONNECTED : Nat := 2

/-- Bit number of the overflow interrupt enable in `TIMSK0` (from avr/io.h). -/
def TOIE0 : Nat := 0

/-- The operand `~m` of `REG &= ~m` on an 8 bit register. -/
def cpl (m : Nat) : Nat := 0xFF - m % 256

/-! ## Line macros -/

def ATN_LOW (s : State) : State := { s with DDRF := s.DDRF ||| (1 <<< 6) }
def ATN_HIGH (s : State) : State := { s with DDRF := s.DDRF &&& cpl (1 <<< 6) }
def NDAC_LOW (s : State) : State := { s with DDRC := s.DDRC ||| (1 <<< 7) }
def NDAC_HIGH (s : State) : State := { s with DDRC := s.DDRC &&& cpl (1 <<< 7) }
def NRFD_LOW (s : State) : State := { s with DDRC := s.DDRC ||| (1 <<< 6) }
def NRFD_HIGH (s : State) : State := { s with DDRC := s.DDRC &&& cpl (1 <<< 6) }
def DAV_LOW (s : State) : State := { s with DDRB := s.DDRB ||| (1 <<< 6) }
def DAV_HIGH (s : State) : State := { s with DDRB := s.DDRB &&& cpl (1 <<< 6) }
def EOI_LOW (s : State) : State := { s with DDRB := s.DDRB ||| (1 <<< 4) }
def EOI_HIGH (s : State) : State := { s with DDRB := s.DDRB &&& cpl (1 <<< 4) }
def REN_LOW (s : State) : State := { s with DDRB := s.DDRB ||| (1 <<< 5) }
def REN_HIGH (s : State) : State := { s with DDRB := s.DDRB &&& cpl (1 <<< 5) }
def IFC_LOW (s : State) : State := { s with DDRE := s.DDRE ||| (1 <<< 2) }
def IFC_HIGH (s : State) : State := { s with DDRE := s.DDRE &&& cpl (1 <<< 2) }

def DAV_STATE (env : Env) (s : State) : Nat := env.PINB s.trace &&& (1 <<< 6)
def NDAC_STATE (env : Env) (s : State) : Nat := env.PINC s.trace &&& (1 <<< 7)
def NRFD_STATE (env : Env) (s : State) : Nat := env.PINC s.trace &&& (1 <<< 6)
def ATN_STATE (env : Env) (s : State) : Nat := env.PINF s.trace &&& (1 <<< 6)
def EOI_STATE (env : Env) (s : State) : Nat := env.PINB s.trace &&& (1 <<< 4)

/-! ## What the controller does to a line

A line is asserted by the controller when its direction bit is set (the pin
then drives the low level of its port latch) and released when it is clear. -/

def dav_asserted (s : State) : Bool := s.DDRB &&& (1 <<< 6) != 0
def nrfd_asserted (s : State) : Bool := s.DDRC &&& (1 <<< 6) != 0
def ndac_asserted (s : State) : Bool := s.DDRC &&& (1 <<< 7) != 0
def atn_asserted (s : State) : Bool := s.DDRF &&& (1 <<< 6) != 0
def eoi_asserted (s : State) : Bool := s.DDRB &&& (1 <<< 4) != 0
def ren_asserted (s : State) : Bool := s.DDRB &&& (1 <<< 5) != 0
def ifc_asserted (s : State) : Bool := s.DDRE &&& (1 <<< 2) != 0

/-- The data bus is released: no pin of port D is an output. -/
def bus_released (s : State) : Bool := s.DDRD == 0

/-- Record an event. -/
def State.log (s : State) (e : Event) : State := { s with trace := s.trace ++ [e] }

/-! ## Timer and initialisation -/

def timer_init (s : State) : State :=
  { s with
    TCCR0B := 5
    TIMSK0 := s.TIMSK0 ||| (1 <<< TOIE0)
    timer0_div := 0
    timer0_100mscounter := 0 }

/-- The interrupt routine `ISR (TIMER0_OVF_vect)`. It runs between two
statements of the main program; `pinf` is the value it reads from `PINF`. -/
def TIMER0_OVF_vect (pinf : Nat) (s : State) : State :=
  let s := { s with timer0_div := (s.timer0_div + 1) % 256 }
  if s.timer0_div ≥ 6 then
    let s := { s with
      timer0_100mscounter := (s.timer0_100mscounter + 1) % 256
      timer0_div := 0 }
    if !s.s_gpib_transaction_active then
      if pinf &&& (1 <<< 6) == 0 then
        if s.s_gpib_disconnect_counter == 2 then
          { s with s_device_state := GPIB_DEVICE_CONNECTSTATE_DISCONNECTED }
        else
          { s with s_gpib_disconnect_counter := (s.s_gpib_disconnect_counter + 1) % 256 }
      else
        { s with
          s_gpib_disconnect_counter := 0
          s_device_state := GPIB_DEVICE_CONNECTSTATE_CONNECTED }
    else s
  else s

def gpib_interface_clear (s : State) : State :=
  let s := IFC_LOW s
  let s := IFC_HIGH s
  { s with s_gpib_transaction_active := false }

def gpib_init (s : State) : State :=
  let s := { s with DDRD := 0x00 }
  let s := { s with PORTD := 0x00 }
  let s := { s with PORTB := s.PORTB &&& cpl ((1 <<< 4) ||| (1 <<< 5) ||| (1 <<< 6)) }
  let s := { s with DDRB := s.DDRB &&& cpl ((1 <<< 4) ||| (1 <<< 5) ||| (1 <<< 6)) }
  let s := { s with PORTC := s.PORTC &&& cpl ((1 <<< 6) ||| (1 <<< 7)) }
  let s := { s with DDRC := s.DDRC &&& cpl ((1 <<< 6) ||| (1 <<< 7)) }
  let s := { s with PORTE := s.PORTE &&& cpl (1 <<< 2) }
  let s := { s with DDRE := s.DDRE &&& cpl (1 <<< 2) }
  let s := { s with PORTF := s.PORTF &&& cpl ((1 <<< 6) ||| (1 <<< 7)) }
  let s := { s with DDRF := s.DDRF &&& cpl ((1 <<< 6) ||| (1 <<< 7)) }
  let s := { s with DDRB := s.DDRB ||| (1 <<< 5) }
  let s := { s with s_gpib_transaction_active := false }
  let s := { s with s_gpib_disconnect_counter := 0 }
  let s := gpib_interface_clear s
  timer_init s

def gpib_recover (s : State) : State := gpib_init s

def gpib_is_connected (s : State) : Bool :=
  s.s_device_state == GPIB_DEVICE_CONNECTSTATE_CONNECTED

def gpib_ren (enable : Bool) (s : State) : State :=
  if enable then REN_LOW s else REN_HIGH s

/-- The registers and variables at power-up: the registers read zero and the
variables have their static initialisers. -/
def power_up : State :=
  { DDRB := 0, DDRC := 0, DDRD := 0, DDRE := 0, DDRF := 0
    PORTB := 0, PORTC := 0, PORTD := 0, PORTE := 0, PORTF := 0
    TCCR0B := 0, TIMSK0 := 0
    timer0_100mscounter := 0
    timer0_div := 0
    s_device_state := GPIB_DEVICE_CONNECTSTATE_UNKNOWN
    s_gpib_disconnect_counter := 0
    s_gpib_transaction_active := false
    s_terminator := 0
    timeout_val := 0
    trace := [] }

/-! ## Timeout functions -/

def timeout_start (timeout : Nat) (s : State) : State :=
  { s with timeout_val := timeout % 65536 }

def is_timedout (s : State) : Bool × State :=
  if s.timeout_val == 0 then (true, s)
  else (false, { s with timeout_val := s.timeout_val - 1 })

/-- The call `ptimeoutfunc()`, recorded in the trace. -/
def gpibtimeout_t.call (ptimeoutfunc : gpibtimeout_t) (s : State) : Bool × State :=
  match ptimeoutfunc with
  | .is_timedout =>
    ((UsbGpib.is_timedout s).1,
      (UsbGpib.is_timedout s).2.log (Event.poll (UsbGpib.is_timedout s).1))
  | .caller answer => (answer s.trace, s.log (Event.poll (answer s.trace)))

/-- The loop `do { timedout = ptimeoutfunc(); } while (busy && !timedout);`.
The line is read in every iteration, after the timeout function has been
called. Returns `none` when `fuel` iterations were not enough. -/
def wait_while (busy : State → Bool) (ptimeoutfunc : gpibtimeout_t) :
    Nat → State → Option (Bool × State)
  | 0, _ => none
  | fuel + 1, s =>
    let r := ptimeoutfunc.call s
    if busy r.2 && !r.1 then wait_while busy ptimeoutfunc fuel r.2 else some r

/-! ## Source handshake -/

/-- The end of `gpib_tx`, from `DDRD = 0x00` on. -/
def gpib_tx_finish (timedout : Bool) (s : State) : Bool × State :=
  let s := ({ s with DDRD := 0x00 }).log (Event.release (atn_asserted s))
  let s := ATN_HIGH s
  let s := if timedout then gpib_recover s else s
  (timedout, s)

/-- The start of `gpib_tx`, up to the first wait loop. -/
def gpib_tx_begin (dat : Nat) (iscommand : Bool) (s : State) : State :=
  let s := DAV_HIGH s
  let s := NRFD_HIGH s
  let s := NDAC_HIGH s
  let s := if iscommand then ATN_LOW s else ATN_HIGH s
  ({ s with DDRD := dat }).log (Event.drive dat (atn_asserted s))

/-- The statement `DAV_LOW` of `gpib_tx`, recorded in the trace. -/
def gpib_tx_valid (s : State) : State :=
  (DAV_LOW s).log (Event.valid s.DDRD (atn_asserted s) (eoi_asserted s))

def gpib_tx (env : Env) (dat : Nat) (iscommand : Bool) (ptimeoutfunc : gpibtimeout_t)
    (fuel : Nat) (s : State) : Option (Bool × State) :=
  match wait_while (fun s => NRFD_STATE env s == 0) ptimeoutfunc fuel
      (gpib_tx_begin dat iscommand s) with
  | none => none
  | some (timedout, s) =>
    if !timedout then
      match wait_while (fun s => NDAC_STATE env s == 0) ptimeoutfunc fuel (gpib_tx_valid s) with
      | none => none
      | some (timedout, s) => some (gpib_tx_finish timedout (DAV_HIGH s))
    else
      some (gpib_tx_finish timedout s)

def gpib_dat (env : Env) (dat : Nat) (ptimeoutfunc : gpibtimeout_t)
    (fuel : Nat) (s : State) : Option (Bool × State) :=
  gpib_tx env dat false ptimeoutfunc fuel s

/-! ## Command bytes -/

def gpib_cmd_LAG (env : Env) (addr : Nat) (ptimeoutfunc : gpibtimeout_t)
    (fuel : Nat) (s : State) : Option (Bool × State) :=
  match gpib_tx env ((addr &&& 0x1f) ||| 0x20) true ptimeoutfunc fuel s with
  | none => none
  | some (result, s) =>
    if addr &&& 0xe0 != 0 then
      gpib_tx env 0x60 true ptimeoutfunc fuel s
    else
      some (result, s)

def gpib_cmd_SECADDR (env : Env) (addr : Nat) (ptimeoutfunc : gpibtimeout_t)
    (fuel : Nat) (s : State) : Option (Bool × State) :=
  gpib_tx env (addr ||| 0x60) true ptimeoutfunc fuel s

def gpib_cmd_TAG (env : Env) (addr : Nat) (ptimeoutfunc : gpibtimeout_t)
    (fuel : Nat) (s : State) : Option (Bool × State) :=
  match gpib_tx env ((addr &&& 0x1f) ||| 0x40) true ptimeoutfunc fuel s with
  | none => none
  | some (result, s) =>
    if addr &&& 0xe0 != 0 then
      gpib_tx env 0x60 true ptimeoutfunc fuel s
    else
      some (result, s)

def gpib_cmd_UNL (env : Env) (ptimeoutfunc : gpibtimeout_t)
    (fuel : Nat) (s : State) : Option (Bool × State) :=
  gpib_tx env 0x3F true ptimeoutfunc fuel s

def gpib_cmd_UNT (env : Env) (ptimeoutfunc : gpibtimeout_t)
    (fuel : Nat) (s : State) : Option (Bool × State) :=
  gpib_tx env 0x5F true ptimeoutfunc fuel s

def gpib_cmd_LLO (env : Env) (ptimeoutfunc : gpibtimeout_t)
    (fuel : Nat) (s : State) : Option (Bool × State) :=
  gpib_tx env 0x11 true ptimeoutfunc fuel s

def gpib_cmd_GTL (env : Env) (ptimeoutfunc : gpibtimeout_t)
    (fuel : Nat) (s : State) : Option (Bool × State) :=
  gpib_tx env 0x01 true ptimeoutfunc fuel s

def gpib_cmd_SPE (env : Env) (ptimeoutfunc : gpibtimeout_t)
    (fuel : Nat) (s : State) : Option (Bool × State) :=
  gpib_tx env 0x18 true ptimeoutfunc fuel s

def gpib_cmd_SPD (env : Env) (ptimeoutfunc : gpibtimeout_t)
    (fuel : Nat) (s : State) : Option (Bool × State) :=
  gpib_tx env 0x19 true ptimeoutfunc fuel s

def gpib_cmd_GET (env : Env) (ptimeoutfunc : gpibtimeout_t)
    (fuel : Nat) (s : State) : Option (Bool × State) :=
  gpib_tx env 0x08 true ptimeoutfunc fuel s

/-- The statement `if (!timedout) timedout = f(...);`. -/
def unless_timedout (timedout : Bool) (f : State → Option (Bool × State)) (s : State) :
    Option (Bool × State) :=
  if !timedout then f s else some (timedout, s)

/-! ## Acceptor handshake -/

/-- What `gpib_readdat` hands back: the return value and the two flags it
stores through its pointer arguments. -/
structure ReadResult where
  c : Nat
  eoi : Bool
  timedout : Bool
  deriving DecidableEq, Repr

/-- The end of `gpib_readdat`, from `if (s_terminator == '\0')` on. -/
def gpib_readdat_finish (c : Nat) (eoi : Bool) (timedout : Bool) (s : State) :
    ReadResult × State :=
  let pEoi := if s.s_terminator == 0 then eoi else (eoi || c == s.s_terminator)
  let s := if timedout then gpib_recover s else s
  ({ c := c, eoi := pEoi, timedout := timedout }, s)

def gpib_readdat (env : Env) (ptimeoutfunc : gpibtimeout_t)
    (fuel : Nat) (s : State) : Option (ReadResult × State) :=
  let s := NDAC_LOW s
  let s := NRFD_HIGH s
  match wait_while (fun s => DAV_STATE env s != 0) ptimeoutfunc fuel s with
  | none => none
  | some (timedout, s) =>
    if !timedout then
      let s := NRFD_LOW s
      let c := 255 - env.PIND s.trace % 256
      let eoi := EOI_STATE env s == 0
      let s := s.log (Event.accept c eoi)
      let s := NDAC_HIGH s
      match wait_while (fun s => DAV_STATE env s == 0) ptimeoutfunc fuel s with
      | none => none
      | some (timedout, s) => some (gpib_readdat_finish c eoi timedout s)
    else
      some (gpib_readdat_finish 0 false timedout s)

/-! ## Public operations -/

def gpib_readStatusByte (env : Env) (addr : Nat) (ptimeoutfunc : gpibtimeout_t)
    (fuel : Nat) (s : State) : Option (Nat × State) :=
  match unless_timedout false (gpib_cmd_SPE env ptimeoutfunc fuel) s with
  | none => none
  | some (timedout, s) =>
  match unless_timedout timedout (gpib_cmd_TAG env addr ptimeoutfunc fuel) s with
  | none => none
  | some (timedout, s) =>
  let s := ATN_HIGH s
  let s := NDAC_LOW s
  match (if !timedout then
          (gpib_readdat env ptimeoutfunc fuel s).map (fun r => (r.1.c, r.1.timedout, r.2))
         else some (0, timedout, s)) with
  | none => none
  | some (status, timedout, s) =>
  match unless_timedout timedout (gpib_cmd_UNT env ptimeoutfunc fuel) s with
  | none => none
  | some (timedout, s) =>
  match unless_timedout timedout (gpib_cmd_SPD env ptimeoutfunc fuel) s with
  | none => none
  | some (timedout, s) =>
  let s := if timedout then gpib_recover s else s
  some (status, s)

def gpib_localLockout (env : Env) (ptimeoutfunc : gpibtimeout_t)
    (fuel : Nat) (s : State) : Option (Bool × State) :=
  match gpib_cmd_LLO env ptimeoutfunc fuel s with
  | none => none
  | some (timedout, s) =>
  let s := if timedout then gpib_recover s else s
  some (timedout, s)

/-- The source function is declared `bool` but has no `return` statement: the
value its caller receives is not determined by the source, so only the
effect on the state is modelled and the last value of the local `timedout`
is not handed back. -/
def gpib_gotoLocal (env : Env) (addr : Nat) (ptimeoutfunc : gpibtimeout_t)
    (fuel : Nat) (s : State) : Option State :=
  match gpib_cmd_LAG env addr ptimeoutfunc fuel s with
  | none => none
  | some (timedout, s) =>
  match unless_timedout timedout (gpib_cmd_GTL env ptimeoutfunc fuel) s with
  | none => none
  | some (timedout, s) =>
  match unless_timedout timedout (gpib_cmd_UNL env ptimeoutfunc fuel) s with
  | none => none
  | some (timedout, s) =>
  let s := if timedout then gpib_recover s else s
  some s

def gpib_trigger (env : Env) (addr : Nat) (ptimeoutfunc : gpibtimeout_t)
    (fuel : Nat) (s : State) : Option (Bool × State) :=
  match gpib_cmd_LAG env addr ptimeoutfunc fuel s with
  | none => none
  | some (timedout, s) =>
  match unless_timedout timedout (gpib_cmd_GET env ptimeoutfunc fuel) s with
  | none => none
  | some (timedout, s) =>
  match unless_timedout timedout (gpib_cmd_UNL env ptimeoutfunc fuel) s with
  | none => none
  | some (timedout, s) =>
  let s := if timedout then gpib_recover s else s
  some (timedout, s)

def gpib_untalk_unlisten (env : Env) (ptimeoutfunc : gpibtimeout_t)
    (fuel : Nat) (s : State) : Option (Bool × State) :=
  match gpib_cmd_UNL env ptimeoutfunc fuel s with
  | none => none
  | some (timedout, s) =>
  match unless_timedout timedout (gpib_cmd_UNT env ptimeoutfunc fuel) s with
  | none => none
  | some (timedout, s) =>
  let s := if timedout then gpib_recover s else s
  let s := { s with s_gpib_transaction_active := false }
  some (timedout, s)

def gpib_make_talker (env : Env) (addr : Nat) (ptimeoutfunc : gpibtimeout_t)
    (fuel : Nat) (s : State) : Option (Bool × State) :=
  let s := { s with s_gpib_transaction_active := true }
  match gpib_cmd_UNL env ptimeoutfunc fuel s with
  | none => none
  | some (timedout, s) =>
  match unless_timedout timedout (gpib_cmd_TAG env addr ptimeoutfunc fuel) s with
  | none => none
  | some (timedout, s) =>
  let s := ATN_HIGH s
  let s := NDAC_LOW s
  let s := if timedout then gpib_recover s else s
  some (timedout, s)

def gpib_make_listener (env : Env) (addr : Nat) (ptimeoutfunc : gpibtimeout_t)
    (fuel : Nat) (s : State) : Option (Bool × State) :=
  let s := { s with s_gpib_transaction_active := true }
  match gpib_cmd_UNT env ptimeoutfunc fuel s with
  | none => none
  | some (timedout, s) =>
  match unless_timedout timedout (gpib_cmd_UNL env ptimeoutfunc fuel) s with
  | none => none
  | some (timedout, s) =>
  match unless_timedout timedout (gpib_cmd_LAG env addr ptimeoutfunc fuel) s with
  | none => none
  | some (timedout, s) =>
  let s := ATN_HIGH s
  let s := if timedout then gpib_recover s else s
  some (timedout, s)

def gpib_writedat (env : Env) (dat : Nat) (Eoi : Bool) (ptimeoutfunc : gpibtimeout_t)
    (fuel : Nat) (s : State) : Option (Bool × State) :=
  let s := if Eoi then EOI_LOW s else s
  match gpib_dat env dat ptimeoutfunc fuel s with
  | none => none
  | some (timedout, s) =>
  let s := EOI_HIGH s
  some (timedout, s)

/-- The argument is the character code; `'\n'` is 10 and `'\r'` is 13. -/
def gpib_set_readtermination (terminator : Nat) (s : State) : State :=
  if terminator == 10 then { s with s_terminator := 10 }
  else if terminator == 13 then { s with s_terminator := 13 }
  else { s with s_terminator := 0 }

/-! ## Address discovery -/

/-- The `for` loop of `gpib_search` with `n` candidates left: the next value
of `addr` is `n - 1`, and `n = 0` is the exit with `addr = -1`. Returns the
value of `addr` after the loop, `foundaddr`, and the state; `foundaddr` is
still 255 when no candidate was found. -/
def gpib_search_scan (env : Env) (fuel : Nat) : Nat → State → Option (Int × Nat × State)
  | 0, s => some (-1, 255, s)
  | addr + 1, s =>
    if addr &&& 0x1f == 0x1f then
      gpib_search_scan env fuel addr s
    else
      let s := timeout_start 500 s
      match gpib_cmd_LAG env addr .is_timedout fuel s with
      | none => none
      | some (_, s) =>
        let s := ATN_HIGH s
        if NDAC_STATE env s == 0 && ATN_STATE env s != 0 then
          some (addr, addr, s)
        else
          gpib_search_scan env fuel addr s

/-- The expression `addr & m` for the `int8_t` variable `addr` and a mask `m`
below 256: `addr` is promoted to `int` with its sign, so the result is the low
eight bits of `addr` in two's complement, and-ed with `m`. -/
def int8_and (addr : Int) (m : Nat) : Nat := (addr % 256).toNat &&& m

/-- After an exhausted loop `addr` is -1, so `addr & 0x20` is 0x20 and
`addr & 0x1f` is 0x1f. -/
def gpib_search (env : Env) (fuel : Nat) (s : State) : Option (Nat × State) :=
  let s := timeout_start 500 s
  match gpib_tx env 0x3F true .is_timedout fuel s with
  | none => none
  | some (_, s) =>
  match gpib_search_scan env fuel (0x3e + 1) s with
  | none => none
  | some (addr, foundaddr, s) =>
  let s := timeout_start 500 s
  match gpib_tx env 0x3F true .is_timedout fuel s with
  | none => none
  | some (_, s) =>
  if int8_and addr 0x20 != 0 then
    match gpib_cmd_LAG env (int8_and addr 0x1f) .is_timedout fuel s with
    | none => none
    | some (_, s) =>
    let s := ATN_HIGH s
    let foundaddr :=
      if NDAC_STATE env s == 0 && ATN_STATE env s != 0 then int8_and addr 0x1f
      else foundaddr
    let s := timeout_start 500 s
    match gpib_tx env 0x3F true .is_timedout fuel s with
    | none => none
    | some (_, s) => some (foundaddr, s)
  else
    some (foundaddr, s)

/-! ## Running a call to its end -/

/-- The call `f` returns `r`: every large enough bound on the iterations of
its wait loops gives the result `r`. -/
def Returns {α : Type} (f : Nat → Option α) (r : α) : Prop :=
  ∃ n, ∀ fuel, n ≤ fuel → f fuel = some r

/-- A timeout function that cannot be polled forever: from every point of a
run, polling it again and again with nothing else happening makes it answer
"timed out" after finitely many polls. `is_timedout` counts down and is such
a function whatever `timeout_val` is. -/
def gpibtimeout_t.Elapses : gpibtimeout_t → Prop
  | .is_timedout => True
  | .caller answer =>
    ∀ h : List Event, ∃ n, answer (h ++ List.replicate n (Event.poll false)) = true

/-- The bytes put on the data bus by `gpib_tx` in a trace, oldest first, each
with the flag whether the controller drove ATN low when it put the byte on
the bus. -/
def busBytes : List Event → List (Nat × Bool)
  | [] => []
  | Event.drive dat atn :: es => (dat, atn) :: busBytes es
  | _ :: es => busBytes es

/-- The number of calls of the timeout function in a trace. -/
def pollCount : List Event → Nat
  | [] => 0
  | Event.poll _ :: es => pollCount es + 1
  | _ :: es => pollCount es

/-- The number of times `gpib_tx` asserted data-valid in a trace. -/
def validCount : List Event → Nat
  | [] => 0
  | Event.valid _ _ _ :: es => validCount es + 1
  | _ :: es => validCount es

/-- Every event of `gpib_tx` in the list that records the attention line
(a byte put on the bus, data-valid asserted, the bus released) records it as
`atn`. -/
def atnHeld (atn : Bool) : List Event → Bool
  | [] => true
  | Event.drive _ a :: es => (a == atn) && atnHeld atn es
  | Event.valid _ a _ :: es => (a == atn) && atnHeld atn es
  | Event.release a :: es => (a == atn) && atnHeld atn es
  | _ :: es => atnHeld atn es

/-- The controller releases the handshake lines, attention and the data bus. -/
def lines_idle (s : State) : Prop :=
  dav_asserted s = false ∧ nrfd_asserted s = false ∧ ndac_asserted s = false ∧
  atn_asserted s = false ∧ bus_released s = true

/-- The idle state Recovery establishes: the handshake lines, attention,
end-or-identify and the data bus released, no transaction active, the
disconnect counter zero. -/
def Recovered (s : State) : Prop :=
  lines_idle s ∧ eoi_asserted s = false ∧
  s.s_gpib_transaction_active = false ∧ s.s_gpib_disconnect_counter = 0

instance (s : State) : Decidable (lines_idle s) := by
  unfold lines_idle
  exact inferInstance

instance (s : State) : Decidable (Recovered s) := by
  unfold Recovered
  exact inferInstance

/-- The events one call of `gpib_tx` adds to the trace when its first wait
times out after `k` polls that did not. -/
def txTimedOut (dat : Nat) (atn : Bool) (k : Nat) : List Event :=
  Event.drive dat atn ::
    (List.replicate k (Event.poll false) ++ [Event.poll true, Event.release atn])

/-- The events one call of `gpib_tx` adds to the trace when its first wait
ends without a timeout after `k1 + 1` polls; the second wait ends after
`k2 + 1` polls, the last with the answer `t`. -/
def txValid (dat : Nat) (atn eoi : Bool) (k1 k2 : Nat) (t : Bool) : List Event :=
  Event.drive dat atn ::
    (List.replicate k1 (Event.poll false) ++
      Event.poll false :: Event.valid dat atn eoi ::
        (List.replicate k2 (Event.poll false) ++ [Event.poll t, Event.release atn]))

/-- Whenever the call `f`, started in the state `s`, returns, the events it
has added to the trace satisfy `Q`. -/
def Adds (f : Nat → Option (Bool × State)) (s : State) (Q : List Event → Prop) : Prop :=
  ∀ fuel t s', f fuel = some (t, s') → ∃ l, s'.trace = s.trace ++ l ∧ Q l

/-- The call `f` returns. -/
def Terminates {α : Type} (f : Nat → Option α) : Prop := ∃ r, Returns f r

/-! ## Sample environments -/

/-- A bus on which every line reads high: the peer is always ready for data
and has always accepted it. -/
def env_high : Env :=
  { PINB := fun _ => 0xFF, PINC := fun _ => 0xFF, PIND := fun _ => 0xFF, PINF := fun _ => 0xFF }

/-- A bus on which every line reads low: the peer never releases
not-ready-for-data. -/
def env_low : Env :=
  { PINB := fun _ => 0, PINC := fun _ => 0, PIND := fun _ => 0, PINF := fun _ => 0 }

/-- A timeout function of the caller that never answers "timed out". -/
def never_timedout : gpibtimeout_t := .caller (fun _ => false)

/-- A timeout function of the caller that answers "timed out" as soon as the
trace holds two polls, so from its third poll on. -/
def third_poll_timedout : gpibtimeout_t := .caller (fun h => decide (2 ≤ pollCount h))

/-- Whether a trace holds an `accept` event. -/
def accepted : List Event → Bool
  | [] => false
  | Event.accept _ _ :: _ => true
  | _ :: es => accepted es

/-- A talker that offers the byte 0x0A (the data lines are active low, so
`PIND` reads `~0x0A = 0xF5`) with end-or-identify not asserted: data-valid
reads low until the byte has been taken and high afterwards; every other
line reads high. -/
def env_linefeed : Env :=
  { PINB := fun h => if accepted h then 0xFF else 0xBF
    PINC := fun _ => 0xFF
    PIND := fun _ => 0xF5
    PINF := fun _ => 0xFF }

/-- The interrupt routine run once for every element of the list, which
holds the values read from `PINF`, oldest first. -/
def run_ticks : List Nat → State → State
  | [], s => s
  | pinf :: rest, s => run_ticks rest (TIMER0_OVF_vect pinf s)

/-- The interrupt completes a 100 ms epoch: its increment takes `timer0_div`
to 6 or more. -/
def epoch_tick (s : State) : Bool := decide (6 ≤ (s.timer0_div + 1) % 256)

/-- A state one interrupt before the end of an epoch, with no transaction
active, the connection state Disconnected and the hysteresis counter at 2. -/
def sample_disconnected : State :=
  { power_up with
    timer0_div := 5
    s_gpib_disconnect_counter := 2
    s_device_state := GPIB_DEVICE_CONNECTSTATE_DISCONNECTED }

/-- A state one interrupt before the end of an epoch, with a transaction
active and the hysteresis counter at 1. -/
def sample_active : State :=
  { power_up with
    timer0_div := 5
    s_gpib_transaction_active := true
    s_gpib_disconnect_counter := 1 }

/-- The byte of the first `accept` event of a trace: the byte `gpib_readdat`
has taken from the bus, if it has taken one. -/
def acceptedByte : List Event → Option Nat
  | [] => none
  | Event.accept c _ :: _ => some c
  | _ :: es => acceptedByte es

/-- Whether a call of the timeout function in the trace answered "timed out".
A wait loop ends with a timeout exactly when its last poll answers so, so
this says whether one of the handshake waits in the trace has timed out. -/
def anyTimedOut : List Event → Bool
  | [] => false
  | Event.poll t :: es => t || anyTimedOut es
  | _ :: es => anyTimedOut es

/-- The events one call of `gpib_readdat` adds to the trace when its wait for
data-valid times out after `k` polls that did not. -/
def rdTimedOut (k : Nat) : List Event :=
  List.replicate k (Event.poll false) ++ [Event.poll true]

/-- The events one call of `gpib_readdat` adds to the trace when it has seen
data-valid after `k1 + 1` polls and taken the byte `c`; its second wait ends
after `k2 + 1` polls, the last with the answer `t`. -/
def rdAccepted (c : Nat) (eoi : Bool) (k1 k2 : Nat) (t : Bool) : List Event :=
  List.replicate k1 (Event.poll false) ++
    Event.poll false :: Event.accept c eoi ::
      (List.replicate k2 (Event.poll false) ++ [Event.poll t])

/-- A timeout function of the caller that answers "timed out" at one poll
only: the one made when the trace holds `k` polls. -/
def timedout_at (k : Nat) : gpibtimeout_t := .caller (fun h => pollCount h == k)

/-- The test `(NDAC_STATE == 0) && (ATN_STATE != 0)` of `gpib_search`, for
the lines as they read when the trace is `h`: not-data-accepted reads
asserted and attention reads released. -/
def accept_signature (env : Env) (h : List Event) : Bool :=
  (env.PINC h &&& (1 <<< 7) == 0) && (env.PINF h &&& (1 <<< 6) != 0)

/-- The trace is as `gpib_tx` leaves it after a command byte: its last event
is the release of the data bus with attention still asserted. `gpib_search`
samples the lines at such traces only. -/
def settled (h : List Event) : Bool := h.getLast? == some (Event.release true)

/-- The last byte put on the bus in a trace. -/
def lastByte (h : List Event) : Option (Nat × Bool) := (busBytes h).getLast?

/-- The bytes `gpib_cmd_LAG(addr)` puts on the bus. -/
def lag_bytes (addr : Nat) : List (Nat × Bool) :=
  ((addr &&& 0x1f) ||| 0x20, true) :: (if addr &&& 0xe0 != 0 then [(0x60, true)] else [])

/-- The bytes the `for` loop of `gpib_search` puts on the bus when it runs
through its last `n` candidates, `n - 1` down to 0, without finding one. -/
def scan_bytes : Nat → List (Nat × Bool)
  | 0 => []
  | addr + 1 => (if addr &&& 0x1f == 0x1f then [] else lag_bytes addr) ++ scan_bytes addr

/-- A device with the primary address `a` and no secondary address that does
not handshake: not-data-accepted reads low exactly when the last byte on the
bus is the listen address of `a`; every other line reads high. -/
def env_listener (a : Nat) : Env :=
  { PINB := fun _ => 0xFF
    PINC := fun h => if lastByte h == some (0x20 ||| a, true) then 0x7F else 0xFF
    PIND := fun _ => 0xFF
    PINF := fun _ => 0xFF }

/-- A bus on which not-data-accepted reads low only after the byte 0x3F has
been put on the bus twice in a row and the bus has been released; every
other line reads high, so every byte is handshaken at once. During the scan
of `gpib_search` no two bytes in a row are 0x3F. -/
def env_late : Env :=
  { PINB := fun _ => 0xFF
    PINC := fun h =>
      if settled h && ((busBytes h).reverse.take 2 == [(0x3F, true), (0x3F, true)]) then 0x7F
      else 0xFF
    PIND := fun _ => 0xFF
    PINF := fun _ => 0xFF }

/-- A device with the primary address `a` that takes no notice of a secondary
address and handshakes every byte: after a command byte not-data-accepted
reads low when the last byte on the bus is the listen address of `a`, or the
byte 0x60 right after it; every other line reads high. -/
def env_primary_only (a : Nat) : Env :=
  { PINB := fun _ => 0xFF
    PINC := fun h =>
      if settled h && (lastByte h == some (0x20 ||| a, true) ||
          (busBytes h).reverse.take 2 == [(0x60, true), (0x20 ||| a, true)]) then 0x7F
      else 0xFF
    PIND := fun _ => 0xFF
    PINF := fun _ => 0xFF }

/-- A device with the primary address `a` that needs the secondary address 0
and handshakes every byte: after a command byte not-data-accepted reads low
when the last two bytes on the bus are the listen address of `a` and 0x60;
every other line reads high. -/
def env_secondary (a : Nat) : Env :=
  { PINB := fun _ => 0xFF
    PINC := fun h =>
      if settled h && ((busBytes h).reverse.take 2 == [(0x60, true), (0x20 ||| a, true)]) then 0x7F
      else 0xFF
    PIND := fun _ => 0xFF
    PINF := fun _ => 0xFF }

/-- The bytes put on the bus after the first poll of a trace that answered
"timed out": what an operation still sends once one of its waits has timed
out. -/
def bytesAfterTimeout : List Event → List (Nat × Bool)
  | [] => []
  | Event.poll true :: es => busBytes es
  | _ :: es => bytesAfterTimeout es

/-- A sequence of command bytes sent the way the composite operations of the
file send theirs: `timedout` starts as given, and each byte is sent by
`if (!timedout) timedout = gpib_tx(byte, true, ptimeoutfunc);`. Used to state
what the composite operations do; it is not a function of the source. -/
def send_steps (env : Env) (ptimeoutfunc : gpibtimeout_t) (fuel : Nat) :
    List Nat → Bool → State → Option (Bool × State)
  | [], timedout, s => some (timedout, s)
  | dat :: rest, timedout, s =>
    match unless_timedout timedout (gpib_tx env dat true ptimeoutfunc fuel) s with
    | none => none
    | some (timedout, s) => send_steps env ptimeoutfunc fuel rest timedout s

/-! ## Bit arithmetic -/

theorem and_and_eq_zero (r a b : Nat) (h : a &&& b = 0) : r &&& a &&& b = 0 := by
  rw [Nat.and_assoc, h, Nat.and_zero]

theorem and_and_keep (r a b : Nat) (h : a &&& b = b) : r &&& a &&& b = r &&& b := by
  rw [Nat.and_assoc, h]

theorem or_and_keep (r a b : Nat) (h : a &&& b = 0) : (r ||| a) &&& b = r &&& b := by
  rw [Nat.and_distrib_right, h, Nat.or_zero]

theorem or_and_ne_zero (r a b : Nat) (h : a &&& b ≠ 0) : ((r ||| a) &&& b = 0) = False := by
  rw [Nat.and_distrib_right, eq_iff_iff, iff_false]
  intro h0
  apply h
  apply Nat.eq_of_testBit_eq
  intro i
  have := congrArg (fun x => x.testBit i) h0
  simp only [Nat.testBit_or, Nat.zero_testBit, Bool.or_eq_false_iff] at this
  simp [this.2]

/-! ## Wait loops -/

/-- A call of the timeout function changes the trace and `timeout_val` only,
and adds one `poll` event with its answer. -/
theorem call_spec (p : gpibtimeout_t) (s : State) :
    (p.call s).2 = { s with trace := s.trace ++ [Event.poll (p.call s).1],
                            timeout_val := (p.call s).2.timeout_val } := by
  cases p with
  | is_timedout =>
    simp only [gpibtimeout_t.call, is_timedout, State.log]
    split <;> rfl
  | caller a => rfl

/-- The state after a wait loop: the trace has grown by polls answering "not
timed out" and a last poll with the answer the loop hands back; nothing but
the trace and `timeout_val` has changed. -/
theorem wait_while_spec (busy : State → Bool) (p : gpibtimeout_t) :
    ∀ (fuel : Nat) (s : State) (t : Bool) (s' : State),
      wait_while busy p fuel s = some (t, s') →
      ∃ k tv, s' = { s with
                  trace := s.trace ++ (List.replicate k (Event.poll false) ++ [Event.poll t])
                  timeout_val := tv } := by
  intro fuel
  induction fuel with
  | zero => intro s t s' h; simp [wait_while] at h
  | succ n ih =>
    intro s t s' h
    rw [wait_while] at h
    split at h
    · rename_i hc
      simp only [Bool.and_eq_true, Bool.not_eq_true'] at hc
      obtain ⟨k, tv, hk⟩ := ih _ _ _ h
      refine ⟨k + 1, tv, ?_⟩
      rw [hk, call_spec p s, hc.2]
      simp [List.replicate_succ]
    · simp only [Option.some.injEq] at h
      refine ⟨0, s'.timeout_val, ?_⟩
      have hc := call_spec p s
      rw [h] at hc
      simpa using hc

/-! ## Initialisation and the source handshake -/

theorem gpib_init_recovered (s : State) : Recovered (gpib_init s) := by
  simp (disch := decide) [Recovered, lines_idle, gpib_init, gpib_interface_clear, timer_init,
    IFC_LOW, IFC_HIGH, dav_asserted, nrfd_asserted, ndac_asserted, atn_asserted, eoi_asserted,
    bus_released, cpl, and_and_eq_zero, or_and_keep]

theorem gpib_init_frame (s : State) :
    (gpib_init s).trace = s.trace ∧ (gpib_init s).s_terminator = s.s_terminator ∧
    (gpib_init s).s_device_state = s.s_device_state ∧
    (gpib_init s).timeout_val = s.timeout_val := by
  simp [gpib_init, gpib_interface_clear, timer_init, IFC_LOW, IFC_HIGH]

/-- Everything the later proofs use about one call of `gpib_tx`. -/
theorem gpib_tx_spec (env : Env) (dat : Nat) (iscommand : Bool) (p : gpibtimeout_t)
    (fuel : Nat) (s : State) (t : Bool) (s' : State)
    (h : gpib_tx env dat iscommand p fuel s = some (t, s')) :
    (∃ l, s'.trace = s.trace ++ l ∧
      ((t = true ∧ ∃ k, l = txTimedOut dat iscommand k) ∨
       (∃ k1 k2, l = txValid dat iscommand (eoi_asserted s) k1 k2 t))) ∧
    lines_idle s' ∧
    s'.s_terminator = s.s_terminator ∧ s'.s_device_state = s.s_device_state ∧
    (t = true → Recovered s') ∧
    (t = false → s'.s_gpib_transaction_active = s.s_gpib_transaction_active ∧
      s'.s_gpib_disconnect_counter = s.s_gpib_disconnect_counter ∧
      eoi_asserted s' = eoi_asserted s ∧ ren_asserted s' = ren_asserted s) := by
  unfold gpib_tx at h
  split at h
  · exact absurd h (by simp)
  · rename_i t1 s1 h1
    obtain ⟨k1, tv1, rfl⟩ := wait_while_spec _ _ _ _ _ _ h1
    cases t1 with
    | true =>
      simp only [Bool.not_true, Bool.false_eq_true, if_false, Option.some.injEq,
        gpib_tx_finish, if_true, Prod.mk.injEq] at h
      obtain ⟨rfl, rfl⟩ := h
      refine ⟨⟨_, ?_, Or.inl ⟨rfl, k1, rfl⟩⟩, (gpib_init_recovered _).1, ?_, ?_,
        fun _ => gpib_init_recovered _, fun h => absurd h (by simp)⟩
      · rw [gpib_recover, (gpib_init_frame _).1]
        cases iscommand <;>
          simp (disch := decide) [gpib_tx_begin, gpib_tx_valid, State.log, ATN_HIGH, ATN_LOW, DAV_HIGH, NRFD_HIGH, NDAC_HIGH,
            txTimedOut, atn_asserted, cpl, and_and_eq_zero, or_and_ne_zero]
      · rw [gpib_recover, (gpib_init_frame _).2.1]
        cases iscommand <;> rfl
      · rw [gpib_recover, (gpib_init_frame _).2.2.1]
        cases iscommand <;> rfl
    | false =>
      simp only [Bool.not_false, if_true] at h
      split at h
      · exact absurd h (by simp)
      · rename_i t2 s2 h2
        obtain ⟨k2, tv2, rfl⟩ := wait_while_spec _ _ _ _ _ _ h2
        simp only [Option.some.injEq, gpib_tx_finish, Prod.mk.injEq] at h
        obtain ⟨rfl, rfl⟩ := h
        cases t2 with
        | true =>
          simp only [if_true]
          refine ⟨⟨_, ?_, Or.inr ⟨k1, k2, rfl⟩⟩, (gpib_init_recovered _).1, ?_, ?_,
            fun _ => gpib_init_recovered _, fun h => absurd h (by simp)⟩
          · rw [gpib_recover, (gpib_init_frame _).1]
            cases iscommand <;>
              simp (disch := decide) [gpib_tx_begin, gpib_tx_valid, State.log, ATN_HIGH, ATN_LOW, DAV_HIGH, DAV_LOW, NRFD_HIGH,
                NDAC_HIGH, txValid, atn_asserted, eoi_asserted, cpl, and_and_eq_zero,
                and_and_keep, or_and_ne_zero]
          · rw [gpib_recover, (gpib_init_frame _).2.1]
            cases iscommand <;> rfl
          · rw [gpib_recover, (gpib_init_frame _).2.2.1]
            cases iscommand <;> rfl
        | false =>
          simp only [Bool.false_eq_true, if_false]
          refine ⟨⟨_, ?_, Or.inr ⟨k1, k2, rfl⟩⟩, ?_, ?_, ?_,
            fun h => absurd h (by simp), fun _ => ⟨?_, ?_, ?_, ?_⟩⟩
          · cases iscommand <;>
              simp (disch := decide) [gpib_tx_begin, gpib_tx_valid, State.log, ATN_HIGH, ATN_LOW, DAV_HIGH, DAV_LOW, NRFD_HIGH,
                NDAC_HIGH, txValid, atn_asserted, eoi_asserted, cpl, and_and_eq_zero,
                and_and_keep, or_and_ne_zero]
          · cases iscommand <;>
              simp (disch := decide) [lines_idle, gpib_tx_begin, gpib_tx_valid, State.log, ATN_HIGH, ATN_LOW, DAV_HIGH, DAV_LOW,
                NRFD_HIGH, NDAC_HIGH, dav_asserted, nrfd_asserted, ndac_asserted, atn_asserted,
                bus_released, cpl, and_and_eq_zero, and_and_keep, or_and_keep, or_and_ne_zero]
          · cases iscommand <;> rfl
          · cases iscommand <;> rfl
          · cases iscommand <;> rfl
          · cases iscommand <;> rfl
          · cases iscommand <;>
              simp (disch := decide) [gpib_tx_begin, gpib_tx_valid, State.log, ATN_HIGH, ATN_LOW, DAV_HIGH, DAV_LOW,
                NRFD_HIGH, NDAC_HIGH, eoi_asserted, cpl, and_and_eq_zero, and_and_keep,
                or_and_keep, or_and_ne_zero]
          · cases iscommand <;>
              simp (disch := decide) [gpib_tx_begin, gpib_tx_valid, State.log, ATN_HIGH, ATN_LOW, DAV_HIGH, DAV_LOW,
                NRFD_HIGH, NDAC_HIGH, ren_asserted, cpl, and_and_eq_zero, and_and_keep,
                or_and_keep, or_and_ne_zero]

/-! ## Calls return -/

theorem wait_while_stop (busy : State → Bool) (p : gpibtimeout_t) (s : State)
    (h : (busy (p.call s).2 && !(p.call s).1) = false) :
    Returns (fun fuel => wait_while busy p fuel s) (p.call s) := by
  refine ⟨1, fun fuel hf => ?_⟩
  obtain ⟨n, rfl⟩ : ∃ n, fuel = n + 1 := ⟨fuel - 1, by omega⟩
  simp [wait_while, h]

theorem wait_while_continue (busy : State → Bool) (p : gpibtimeout_t) (s : State)
    (r : Bool × State)
    (h : (busy (p.call s).2 && !(p.call s).1) = true)
    (hr : Returns (fun fuel => wait_while busy p fuel (p.call s).2) r) :
    Returns (fun fuel => wait_while busy p fuel s) r := by
  obtain ⟨n, hn⟩ := hr
  refine ⟨n + 1, fun fuel hf => ?_⟩
  obtain ⟨m, rfl⟩ : ∃ m, fuel = m + 1 := ⟨fuel - 1, by omega⟩
  simp only [wait_while, h, if_true]
  exact hn m (by omega)

theorem wait_while_returns_is_timedout (busy : State → Bool) :
    ∀ (n : Nat) (s : State), s.timeout_val = n →
      ∃ r, Returns (fun fuel => wait_while busy .is_timedout fuel s) r := by
  intro n
  induction n with
  | zero =>
    intro s hs
    refine ⟨_, wait_while_stop busy _ s ?_⟩
    simp [gpibtimeout_t.call, is_timedout, hs]
  | succ n ih =>
    intro s hs
    cases hb : (busy (gpibtimeout_t.is_timedout.call s).2 &&
        !(gpibtimeout_t.is_timedout.call s).1) with
    | false => exact ⟨_, wait_while_stop busy _ s hb⟩
    | true =>
      obtain ⟨r, hr⟩ := ih (gpibtimeout_t.is_timedout.call s).2
        (by simp [gpibtimeout_t.call, is_timedout, hs, State.log])
      exact ⟨r, wait_while_continue busy _ s r hb hr⟩

theorem wait_while_returns_caller (busy : State → Bool) (a : List Event → Bool) :
    ∀ (n : Nat) (s : State), a (s.trace ++ List.replicate n (Event.poll false)) = true →
      ∃ r, Returns (fun fuel => wait_while busy (.caller a) fuel s) r := by
  intro n
  induction n with
  | zero =>
    intro s hs
    refine ⟨_, wait_while_stop busy _ s ?_⟩
    simp only [List.replicate_zero, List.append_nil] at hs
    simp [gpibtimeout_t.call, hs]
  | succ n ih =>
    intro s hs
    cases hb : (busy ((gpibtimeout_t.caller a).call s).2 &&
        !((gpibtimeout_t.caller a).call s).1) with
    | false => exact ⟨_, wait_while_stop busy _ s hb⟩
    | true =>
      have ha : a s.trace = false := by
        have h2 := hb
        simp only [Bool.and_eq_true, Bool.not_eq_true'] at h2
        exact h2.2
      obtain ⟨r, hr⟩ := ih ((gpibtimeout_t.caller a).call s).2
        (by simpa [gpibtimeout_t.call, State.log, ha, List.replicate_succ] using hs)
      exact ⟨r, wait_while_continue busy _ s r hb hr⟩

/-- A wait loop polling a timeout function that cannot be polled forever
comes to an end. -/
theorem wait_while_returns (busy : State → Bool) (p : gpibtimeout_t) (hp : p.Elapses)
    (s : State) : ∃ r, Returns (fun fuel => wait_while busy p fuel s) r := by
  cases p with
  | is_timedout => exact wait_while_returns_is_timedout busy _ s rfl
  | caller a =>
    obtain ⟨n, hn⟩ := hp s.trace
    exact wait_while_returns_caller busy a n s hn

theorem Returns.unique {α : Type} {f : Nat → Option α} {r r' : α}
    (h : Returns f r) (h' : Returns f r') : r = r' := by
  obtain ⟨n, hn⟩ := h
  obtain ⟨m, hm⟩ := h'
  have h1 := hn (max n m) (le_max_left _ _)
  have h2 := hm (max n m) (le_max_right _ _)
  rw [h1] at h2
  exact Option.some.inj h2

theorem gpib_tx_returns (env : Env) (dat : Nat) (iscommand : Bool) (p : gpibtimeout_t)
    (hp : p.Elapses) (s : State) :
    ∃ r, Returns (fun fuel => gpib_tx env dat iscommand p fuel s) r := by
  obtain ⟨⟨t1, s1⟩, n1, h1⟩ := wait_while_returns (fun s => NRFD_STATE env s == 0) p hp
    (gpib_tx_begin dat iscommand s)
  cases t1 with
  | true =>
    refine ⟨gpib_tx_finish true s1, n1, fun fuel hf => ?_⟩
    have h := h1 fuel hf
    simp only at h
    simp [gpib_tx, h]
  | false =>
    obtain ⟨⟨t2, s2⟩, n2, h2⟩ := wait_while_returns (fun s => NDAC_STATE env s == 0) p hp
      (gpib_tx_valid s1)
    refine ⟨gpib_tx_finish t2 (DAV_HIGH s2), max n1 n2, fun fuel hf => ?_⟩
    have h := h1 fuel (le_trans (le_max_left _ _) hf)
    have h' := h2 fuel (le_trans (le_max_right _ _) hf)
    simp only at h h'
    simp [gpib_tx, h, h']

/-! ## What a call of `gpib_tx` leaves in the trace -/

theorem busBytes_polls (k : Nat) (l : List Event) :
    busBytes (List.replicate k (Event.poll false) ++ l) = busBytes l := by
  induction k with
  | zero => rfl
  | succ k ih => simpa [List.replicate_succ, busBytes] using ih

theorem atnHeld_polls (atn : Bool) (k : Nat) (l : List Event) :
    atnHeld atn (List.replicate k (Event.poll false) ++ l) = atnHeld atn l := by
  induction k with
  | zero => rfl
  | succ k ih => simpa [List.replicate_succ, atnHeld] using ih

theorem pollCount_polls (k : Nat) (l : List Event) :
    pollCount (List.replicate k (Event.poll false) ++ l) = pollCount l + k := by
  induction k with
  | zero => rfl
  | succ k ih => simp [List.replicate_succ, pollCount, ih]; omega

theorem validCount_polls (k : Nat) (l : List Event) :
    validCount (List.replicate k (Event.poll false) ++ l) = validCount l := by
  induction k with
  | zero => rfl
  | succ k ih => simpa [List.replicate_succ, validCount] using ih

theorem busBytes_append (l l' : List Event) :
    busBytes (l ++ l') = busBytes l ++ busBytes l' := by
  induction l with
  | nil => rfl
  | cons e l ih => cases e <;> simp [busBytes, ih]

theorem atnHeld_append (atn : Bool) (l l' : List Event) :
    atnHeld atn (l ++ l') = (atnHeld atn l && atnHeld atn l') := by
  induction l with
  | nil => rfl
  | cons e l ih => cases e <;> simp [atnHeld, ih, Bool.and_assoc]

theorem pollCount_append (l l' : List Event) :
    pollCount (l ++ l') = pollCount l + pollCount l' := by
  induction l with
  | nil => simp [pollCount]
  | cons e l ih => cases e <;> simp [pollCount, ih]; omega

theorem validCount_append (l l' : List Event) :
    validCount (l ++ l') = validCount l + validCount l' := by
  induction l with
  | nil => simp [validCount]
  | cons e l ih => cases e <;> simp [validCount, ih]; omega

theorem busBytes_txTimedOut (dat : Nat) (atn : Bool) (k : Nat) :
    busBytes (txTimedOut dat atn k) = [(dat, atn)] := by
  simp [txTimedOut, busBytes, busBytes_polls]

theorem busBytes_txValid (dat : Nat) (atn eoi : Bool) (k1 k2 : Nat) (t : Bool) :
    busBytes (txValid dat atn eoi k1 k2 t) = [(dat, atn)] := by
  simp [txValid, busBytes, busBytes_polls]

theorem atnHeld_txTimedOut (dat : Nat) (atn : Bool) (k : Nat) :
    atnHeld atn (txTimedOut dat atn k) = true := by
  simp [txTimedOut, atnHeld, atnHeld_polls]

theorem atnHeld_txValid (dat : Nat) (atn eoi : Bool) (k1 k2 : Nat) (t : Bool) :
    atnHeld atn (txValid dat atn eoi k1 k2 t) = true := by
  simp [txValid, atnHeld, atnHeld_polls]

/-- One call of `gpib_tx` puts exactly its byte on the bus, with attention as
its flag `iscommand` says, and holds attention so until the bus is released. -/
theorem gpib_tx_trace (env : Env) (dat : Nat) (iscommand : Bool) (p : gpibtimeout_t)
    (fuel : Nat) (s : State) (t : Bool) (s' : State)
    (h : gpib_tx env dat iscommand p fuel s = some (t, s')) :
    ∃ l, s'.trace = s.trace ++ l ∧ busBytes l = [(dat, iscommand)] ∧
      atnHeld iscommand l = true := by
  obtain ⟨⟨l, hl, hs⟩, -⟩ := gpib_tx_spec env dat iscommand p fuel s t s' h
  refine ⟨l, hl, ?_⟩
  rcases hs with ⟨-, k, rfl⟩ | ⟨k1, k2, rfl⟩
  · exact ⟨busBytes_txTimedOut _ _ _, atnHeld_txTimedOut _ _ _⟩
  · exact ⟨busBytes_txValid _ _ _ _ _ _, atnHeld_txValid _ _ _ _ _ _⟩

/-- The bytes `gpib_cmd_LAG` and `gpib_cmd_TAG` put on the bus, for the
primary address byte `prim`. -/
theorem addr_trace (env : Env) (prim addr : Nat) (p : gpibtimeout_t)
    (fuel : Nat) (s : State) (t : Bool) (s' : State)
    (h : (match gpib_tx env prim true p fuel s with
          | none => none
          | some (result, s) =>
            if addr &&& 0xe0 != 0 then gpib_tx env 0x60 true p fuel s
            else some (result, s)) = some (t, s')) :
    ∃ l, s'.trace = s.trace ++ l ∧
      busBytes l = (prim, true) :: (if addr &&& 0xe0 != 0 then [(0x60, true)] else []) ∧
      atnHeld true l = true := by
  split at h
  · exact absurd h (by simp)
  · rename_i t1 s1 h1
    obtain ⟨l1, hl1, hb1, ha1⟩ := gpib_tx_trace _ _ _ _ _ _ _ _ h1
    split at h
    · rename_i hsec
      obtain ⟨l2, hl2, hb2, ha2⟩ := gpib_tx_trace _ _ _ _ _ _ _ _ h
      refine ⟨l1 ++ l2, ?_, ?_, ?_⟩
      · rw [hl2, hl1, List.append_assoc]
      · rw [busBytes_append, hb1, hb2, if_pos hsec]; rfl
      · rw [atnHeld_append, ha1, ha2]; rfl
    · rename_i hsec
      simp only [Option.some.injEq, Prod.mk.injEq] at h
      obtain ⟨-, rfl⟩ := h
      exact ⟨l1, hl1, by rw [hb1, if_neg hsec], ha1⟩

theorem addr_returns (env : Env) (prim addr : Nat) (p : gpibtimeout_t) (hp : p.Elapses)
    (s : State) :
    ∃ r, Returns (fun fuel =>
      match gpib_tx env prim true p fuel s with
      | none => none
      | some (result, s) =>
        if addr &&& 0xe0 != 0 then gpib_tx env 0x60 true p fuel s
        else some (result, s)) r := by
  obtain ⟨⟨t1, s1⟩, n1, h1⟩ := gpib_tx_returns env prim true p hp s
  by_cases hsec : (addr &&& 0xe0 != 0) = true
  · obtain ⟨r2, n2, h2⟩ := gpib_tx_returns env 0x60 true p hp s1
    refine ⟨r2, max n1 n2, fun fuel hf => ?_⟩
    have h := h1 fuel (le_trans (le_max_left _ _) hf)
    have h' := h2 fuel (le_trans (le_max_right _ _) hf)
    simp only at h h'
    simp only [h, hsec, if_true, h']
  · refine ⟨(t1, s1), n1, fun fuel hf => ?_⟩
    have h := h1 fuel hf
    simp only at h
    simp only [h, hsec, if_false, Bool.false_eq_true]

/-! ## Claims C1 to C3: the command bytes -/

theorem fixed_adds (env : Env) (dat : Nat) (p : gpibtimeout_t) (s : State) :
    Adds (fun fuel => gpib_tx env dat true p fuel s) s
      (fun l => busBytes l = [(dat, true)] ∧ atnHeld true l = true) :=
  fun fuel t s' h => gpib_tx_trace env dat true p fuel s t s' h

/-- C1: the first byte `gpib_cmd_LAG` puts on the bus is `0x20 | (addr & 0x1F)`,
the first byte of `gpib_cmd_TAG` is `0x40 | (addr & 0x1F)`, and the fixed
commands put exactly one byte on the bus: UNL 0x3F, UNT 0x5F, LLO 0x11,
GTL 0x01, SPE 0x18, SPD 0x19, GET 0x08. Every one of these bytes goes out with
attention asserted, from the moment it is put on the bus until the bus is
released. With a timeout function that cannot be polled forever each of the
calls returns. -/
theorem command_bytes_with_attention (env : Env) (p : gpibtimeout_t) (s : State) (addr : Nat) :
    Adds (fun fuel => gpib_cmd_LAG env addr p fuel s) s
      (fun l => (busBytes l).head? = some (0x20 ||| (addr &&& 0x1F), true) ∧
        (∀ b ∈ busBytes l, b.2 = true) ∧ atnHeld true l = true) ∧
    Adds (fun fuel => gpib_cmd_TAG env addr p fuel s) s
      (fun l => (busBytes l).head? = some (0x40 ||| (addr &&& 0x1F), true) ∧
        (∀ b ∈ busBytes l, b.2 = true) ∧ atnHeld true l = true) ∧
    Adds (fun fuel => gpib_cmd_UNL env p fuel s) s
      (fun l => busBytes l = [(0x3F, true)] ∧ atnHeld true l = true) ∧
    Adds (fun fuel => gpib_cmd_UNT env p fuel s) s
      (fun l => busBytes l = [(0x5F, true)] ∧ atnHeld true l = true) ∧
    Adds (fun fuel => gpib_cmd_LLO env p fuel s) s
      (fun l => busBytes l = [(0x11, true)] ∧ atnHeld true l = true) ∧
    Adds (fun fuel => gpib_cmd_GTL env p fuel s) s
      (fun l => busBytes l = [(0x01, true)] ∧ atnHeld true l = true) ∧
    Adds (fun fuel => gpib_cmd_SPE env p fuel s) s
      (fun l => busBytes l = [(0x18, true)] ∧ atnHeld true l = true) ∧
    Adds (fun fuel => gpib_cmd_SPD env p fuel s) s
      (fun l => busBytes l = [(0x19, true)] ∧ atnHeld true l = true) ∧
    Adds (fun fuel => gpib_cmd_GET env p fuel s) s
      (fun l => busBytes l = [(0x08, true)] ∧ atnHeld true l = true) ∧
    (p.Elapses →
      Terminates (fun fuel => gpib_cmd_LAG env addr p fuel s) ∧
      Terminates (fun fuel => gpib_cmd_TAG env addr p fuel s) ∧
      Terminates (fun fuel => gpib_cmd_UNL env p fuel s) ∧
      Terminates (fun fuel => gpib_cmd_UNT env p fuel s) ∧
      Terminates (fun fuel => gpib_cmd_LLO env p fuel s) ∧
      Terminates (fun fuel => gpib_cmd_GTL env p fuel s) ∧
      Terminates (fun fuel => gpib_cmd_SPE env p fuel s) ∧
      Terminates (fun fuel => gpib_cmd_SPD env p fuel s) ∧
      Terminates (fun fuel => gpib_cmd_GET env p fuel s)) := by
  refine ⟨?_, ?_, fixed_adds _ _ _ _, fixed_adds _ _ _ _, fixed_adds _ _ _ _, fixed_adds _ _ _ _,
    fixed_adds _ _ _ _, fixed_adds _ _ _ _, fixed_adds _ _ _ _, fun hp => ⟨?_, ?_,
    gpib_tx_returns _ _ _ _ hp _, gpib_tx_returns _ _ _ _ hp _, gpib_tx_returns _ _ _ _ hp _,
    gpib_tx_returns _ _ _ _ hp _, gpib_tx_returns _ _ _ _ hp _, gpib_tx_returns _ _ _ _ hp _,
    gpib_tx_returns _ _ _ _ hp _⟩⟩
  · intro fuel t s' h
    obtain ⟨l, hl, hb, ha⟩ := addr_trace env _ addr p fuel s t s' h
    refine ⟨l, hl, ?_, ?_, ha⟩
    · rw [hb, Nat.lor_comm]; rfl
    · rw [hb]
      intro b hmem
      split at hmem <;> simp at hmem <;> rcases hmem with rfl | rfl <;> rfl
  · intro fuel t s' h
    obtain ⟨l, hl, hb, ha⟩ := addr_trace env _ addr p fuel s t s' h
    refine ⟨l, hl, ?_, ?_, ha⟩
    · rw [hb, Nat.lor_comm]; rfl
    · rw [hb]
      intro b hmem
      split at hmem <;> simp at hmem <;> rcases hmem with rfl | rfl <;> rfl
  · exact addr_returns env _ addr p hp s
  · exact addr_returns env _ addr p hp s

theorem command_bytes_with_attention_witness :
    gpibtimeout_t.Elapses gpibtimeout_t.is_timedout ∧
    Terminates (fun fuel => gpib_cmd_LAG env_low 5 gpibtimeout_t.is_timedout fuel power_up) ∧
    Terminates (fun fuel => gpib_cmd_TAG env_low 5 gpibtimeout_t.is_timedout fuel power_up) ∧
    Terminates (fun fuel => gpib_cmd_UNL env_low gpibtimeout_t.is_timedout fuel power_up) ∧
    Terminates (fun fuel => gpib_cmd_UNT env_low gpibtimeout_t.is_timedout fuel power_up) ∧
    Terminates (fun fuel => gpib_cmd_LLO env_low gpibtimeout_t.is_timedout fuel power_up) ∧
    Terminates (fun fuel => gpib_cmd_GTL env_low gpibtimeout_t.is_timedout fuel power_up) ∧
    Terminates (fun fuel => gpib_cmd_SPE env_low gpibtimeout_t.is_timedout fuel power_up) ∧
    Terminates (fun fuel => gpib_cmd_SPD env_low gpibtimeout_t.is_timedout fuel power_up) ∧
    Terminates (fun fuel => gpib_cmd_GET env_low gpibtimeout_t.is_timedout fuel power_up) :=
  ⟨trivial,
    (command_bytes_with_attention env_low gpibtimeout_t.is_timedout power_up
      5).2.2.2.2.2.2.2.2.2 trivial⟩

theorem third_poll_timedout_elapses : third_poll_timedout.Elapses := by
  intro h
  refine ⟨2, ?_⟩
  have hp : pollCount (h ++ List.replicate 2 (Event.poll false)) = pollCount h + 2 := by
    rw [pollCount_append]; rfl
  show decide (2 ≤ pollCount (h ++ List.replicate 2 (Event.poll false))) = true
  rw [hp]
  simp

/-- C2: `gpib_cmd_LAG` and `gpib_cmd_TAG` put exactly two command bytes on the
bus, the primary address byte and one more, when `addr & 0xE0` is not zero,
and exactly one command byte, the primary address byte, when it is zero;
whatever the timeout function answers and whatever the peer does. With a
timeout function that cannot be polled forever both calls return. -/
theorem address_byte_count (env : Env) (p : gpibtimeout_t) (s : State) (addr : Nat) :
    Adds (fun fuel => gpib_cmd_LAG env addr p fuel s) s
      (fun l =>
        (addr &&& 0xE0 ≠ 0 →
          ∃ extra, busBytes l = [(0x20 ||| (addr &&& 0x1F), true), (extra, true)]) ∧
        (addr &&& 0xE0 = 0 → busBytes l = [(0x20 ||| (addr &&& 0x1F), true)])) ∧
    Adds (fun fuel => gpib_cmd_TAG env addr p fuel s) s
      (fun l =>
        (addr &&& 0xE0 ≠ 0 →
          ∃ extra, busBytes l = [(0x40 ||| (addr &&& 0x1F), true), (extra, true)]) ∧
        (addr &&& 0xE0 = 0 → busBytes l = [(0x40 ||| (addr &&& 0x1F), true)])) ∧
    (p.Elapses →
      Terminates (fun fuel => gpib_cmd_LAG env addr p fuel s) ∧
      Terminates (fun fuel => gpib_cmd_TAG env addr p fuel s)) := by
  refine ⟨?_, ?_, fun hp => ⟨addr_returns env _ addr p hp s, addr_returns env _ addr p hp s⟩⟩
  · intro fuel t s' h
    obtain ⟨l, hl, hb, -⟩ := addr_trace env _ addr p fuel s t s' h
    refine ⟨l, hl, fun hsec => ⟨0x60, ?_⟩, fun hsec => ?_⟩
    · rw [hb, Nat.lor_comm]; simp [hsec]
    · rw [hb, Nat.lor_comm]; simp [hsec]
  · intro fuel t s' h
    obtain ⟨l, hl, hb, -⟩ := addr_trace env _ addr p fuel s t s' h
    refine ⟨l, hl, fun hsec => ⟨0x60, ?_⟩, fun hsec => ?_⟩
    · rw [hb, Nat.lor_comm]; simp [hsec]
    · rw [hb, Nat.lor_comm]; simp [hsec]

theorem address_byte_count_witness :
    third_poll_timedout.Elapses ∧
    Terminates (fun fuel => gpib_cmd_LAG env_low 0x25 third_poll_timedout fuel power_up) ∧
    Terminates (fun fuel => gpib_cmd_TAG env_low 0x25 third_poll_timedout fuel power_up) :=
  ⟨third_poll_timedout_elapses,
    (address_byte_count env_low third_poll_timedout power_up 0x25).2.2
      third_poll_timedout_elapses⟩

/-- C3, as the code has it: when `addr & 0xE0` is not zero, the byte that
`gpib_cmd_LAG` and `gpib_cmd_TAG` put on the bus right after the primary
address byte is always 0x60, the secondary address group byte of secondary
address 0, whatever the bits of `addr` above the low five are. -/
theorem secondary_byte_is_SA0 (env : Env) (p : gpibtimeout_t) (s : State) (addr : Nat)
    (hsec : addr &&& 0xE0 ≠ 0) :
    Adds (fun fuel => gpib_cmd_LAG env addr p fuel s) s
      (fun l => busBytes l = [(0x20 ||| (addr &&& 0x1F), true), (0x60, true)]) ∧
    Adds (fun fuel => gpib_cmd_TAG env addr p fuel s) s
      (fun l => busBytes l = [(0x40 ||| (addr &&& 0x1F), true), (0x60, true)]) ∧
    (p.Elapses →
      Terminates (fun fuel => gpib_cmd_LAG env addr p fuel s) ∧
      Terminates (fun fuel => gpib_cmd_TAG env addr p fuel s)) := by
  refine ⟨?_, ?_, fun hp => ⟨addr_returns env _ addr p hp s, addr_returns env _ addr p hp s⟩⟩
  · intro fuel t s' h
    obtain ⟨l, hl, hb, -⟩ := addr_trace env _ addr p fuel s t s' h
    refine ⟨l, hl, ?_⟩
    show busBytes l = _
    rw [hb, Nat.lor_comm]; simp [hsec]
  · intro fuel t s' h
    obtain ⟨l, hl, hb, -⟩ := addr_trace env _ addr p fuel s t s' h
    refine ⟨l, hl, ?_⟩
    show busBytes l = _
    rw [hb, Nat.lor_comm]; simp [hsec]

theorem secondary_byte_is_SA0_witness :
    0x41 &&& 0xE0 ≠ 0 ∧ third_poll_timedout.Elapses ∧
    Adds (fun fuel => gpib_cmd_LAG env_high 0x41 third_poll_timedout fuel power_up) power_up
      (fun l => busBytes l = [(0x20 ||| (0x41 &&& 0x1F), true), (0x60, true)]) ∧
    Adds (fun fuel => gpib_cmd_TAG env_high 0x41 third_poll_timedout fuel power_up) power_up
      (fun l => busBytes l = [(0x40 ||| (0x41 &&& 0x1F), true), (0x60, true)]) ∧
    Terminates (fun fuel => gpib_cmd_LAG env_high 0x41 third_poll_timedout fuel power_up) ∧
    Terminates (fun fuel => gpib_cmd_TAG env_high 0x41 third_poll_timedout fuel power_up) :=
  ⟨by decide, third_poll_timedout_elapses,
    (secondary_byte_is_SA0 env_high third_poll_timedout power_up 0x41 (by decide)).1,
    (secondary_byte_is_SA0 env_high third_poll_timedout power_up 0x41 (by decide)).2.1,
    (secondary_byte_is_SA0 env_high third_poll_timedout power_up 0x41 (by decide)).2.2
      third_poll_timedout_elapses⟩

/-- C3 as stated fails: for `addr = 0x20` the secondary address in the bits
above the low five is `0x20 >> 5 = 1`, so the claim asks for the byte
`0x60 | 1 = 0x61` after the primary address byte 0x20; `gpib_cmd_LAG` and
`gpib_cmd_TAG` send 0x60. -/
theorem secondary_byte_counterexample :
    (gpib_cmd_LAG env_high 0x20 never_timedout 1 power_up).map (fun r => busBytes r.2.trace)
      = some [(0x20, true), (0x60, true)] ∧
    (gpib_cmd_TAG env_high 0x20 never_timedout 1 power_up).map (fun r => busBytes r.2.trace)
      = some [(0x40, true), (0x60, true)] ∧
    0x60 ||| ((0x20 >>> 5) &&& 0x1F) = 0x61 ∧ (0x60 : Nat) ≠ 0x61 := by
  decide

/-! ## Claims C4 and C5: one call of `gpib_tx` -/

theorem wait_while_first_poll (busy : State → Bool) (p : gpibtimeout_t) (s : State) (fuel : Nat)
    (hfuel : 1 ≤ fuel) (h : busy (p.call s).2 = false) :
    wait_while busy p fuel s = some (p.call s) := by
  obtain ⟨n, rfl⟩ : ∃ n, fuel = n + 1 := ⟨fuel - 1, by omega⟩
  simp [wait_while, h]

/-- C4: when the timeout function does not answer "timed out" at its first
two polls, the peer shows not-ready-for-data released when it is read after
the first poll and not-data-accepted released when it is read after the
second, `gpib_tx` returns false for every byte and both values of
`iscommand`; the byte has been declared valid once, and on return the
controller has released data-valid, not-ready-for-data, not-data-accepted,
attention and the data bus. -/
theorem gpib_tx_ready_peer (env : Env) (dat : Nat) (iscommand : Bool) (p : gpibtimeout_t)
    (s : State)
    (hpoll1 : (p.call (gpib_tx_begin dat iscommand s)).1 = false)
    (hnrfd : NRFD_STATE env (p.call (gpib_tx_begin dat iscommand s)).2 ≠ 0)
    (hpoll2 : (p.call (gpib_tx_valid (p.call (gpib_tx_begin dat iscommand s)).2)).1 = false)
    (hndac : NDAC_STATE env
      (p.call (gpib_tx_valid (p.call (gpib_tx_begin dat iscommand s)).2)).2 ≠ 0) :
    ∃ s', (∀ fuel, 1 ≤ fuel → gpib_tx env dat iscommand p fuel s = some (false, s')) ∧
      s'.trace = s.trace ++ txValid dat iscommand (eoi_asserted s) 0 0 false ∧
      dav_asserted s' = false ∧ nrfd_asserted s' = false ∧ ndac_asserted s' = false ∧
      atn_asserted s' = false ∧ bus_released s' = true := by
  have hrun : ∀ fuel, 1 ≤ fuel → gpib_tx env dat iscommand p fuel s = some (false,
      (gpib_tx_finish false (DAV_HIGH
        (p.call (gpib_tx_valid (p.call (gpib_tx_begin dat iscommand s)).2)).2)).2) := by
    intro fuel hfuel
    have h1 := wait_while_first_poll (fun s => NRFD_STATE env s == 0) p
      (gpib_tx_begin dat iscommand s) fuel hfuel (by simpa using hnrfd)
    have h2 := wait_while_first_poll (fun s => NDAC_STATE env s == 0) p
      (gpib_tx_valid (p.call (gpib_tx_begin dat iscommand s)).2) fuel hfuel (by simpa using hndac)
    have e1 : p.call (gpib_tx_begin dat iscommand s)
        = (false, (p.call (gpib_tx_begin dat iscommand s)).2) := by
      rw [← hpoll1]
    have e2 : p.call (gpib_tx_valid (p.call (gpib_tx_begin dat iscommand s)).2)
        = (false, (p.call (gpib_tx_valid (p.call (gpib_tx_begin dat iscommand s)).2)).2) := by
      rw [← hpoll2]
    rw [e1] at h1
    rw [e2] at h2
    simp only [gpib_tx, h1, Bool.not_false, if_true, h2]
    rfl
  refine ⟨_, hrun, ?_⟩
  obtain ⟨⟨l, hl, hs⟩, hidle, -⟩ := gpib_tx_spec env dat iscommand p 1 s false _ (hrun 1 le_rfl)
  refine ⟨?_, hidle⟩
  have hc1 := call_spec p (gpib_tx_begin dat iscommand s)
  have hc2 := call_spec p (gpib_tx_valid (p.call (gpib_tx_begin dat iscommand s)).2)
  rw [hpoll1] at hc1
  rw [hpoll2] at hc2
  simp only [gpib_tx_finish, Bool.false_eq_true, if_false, ATN_HIGH, State.log, DAV_HIGH]
  rw [hc2]
  simp only [gpib_tx_valid, State.log, DAV_LOW]
  rw [hc1]
  cases iscommand <;>
    simp (disch := decide) [gpib_tx_begin, State.log, ATN_HIGH, ATN_LOW, DAV_HIGH, NRFD_HIGH,
      NDAC_HIGH, txValid, atn_asserted, eoi_asserted, cpl, and_and_eq_zero, and_and_keep,
      or_and_ne_zero]

theorem gpib_tx_ready_peer_witness :
    (never_timedout.call (gpib_tx_begin 0x3F true power_up)).1 = false ∧
    NRFD_STATE env_high (never_timedout.call (gpib_tx_begin 0x3F true power_up)).2 ≠ 0 ∧
    (never_timedout.call
      (gpib_tx_valid (never_timedout.call (gpib_tx_begin 0x3F true power_up)).2)).1 = false ∧
    NDAC_STATE env_high (never_timedout.call
      (gpib_tx_valid (never_timedout.call (gpib_tx_begin 0x3F true power_up)).2)).2 ≠ 0 ∧
    ∃ s', (∀ fuel, 1 ≤ fuel → gpib_tx env_high 0x3F true never_timedout fuel power_up
        = some (false, s')) ∧
      s'.trace = power_up.trace ++ txValid 0x3F true (eoi_asserted power_up) 0 0 false ∧
      dav_asserted s' = false ∧ nrfd_asserted s' = false ∧ ndac_asserted s' = false ∧
      atn_asserted s' = false ∧ bus_released s' = true :=
  ⟨by decide, by decide, by decide, by decide,
    gpib_tx_ready_peer env_high 0x3F true never_timedout power_up
      (by decide) (by decide) (by decide) (by decide)⟩

/-- The countdown `is_timedout` against a line that stays busy: the wait
loop ends with the poll that finds `timeout_val` zero. -/
theorem wait_while_countdown (busy : State → Bool) (hbusy : ∀ s, busy s = true) :
    ∀ (n : Nat) (s : State) (fuel : Nat), s.timeout_val = n → n + 1 ≤ fuel →
      wait_while busy .is_timedout fuel s = some (true,
        { s with
          trace := s.trace ++ (List.replicate n (Event.poll false) ++ [Event.poll true])
          timeout_val := 0 }) := by
  intro n
  induction n with
  | zero =>
    intro s fuel hs hfuel
    obtain ⟨m, rfl⟩ : ∃ m, fuel = m + 1 := ⟨fuel - 1, by omega⟩
    simp only [wait_while, gpibtimeout_t.call, is_timedout, hs, beq_self_eq_true, if_true,
      Bool.not_true, Bool.and_false, Bool.false_eq_true, if_false, State.log,
      List.replicate_zero, List.nil_append]
  | succ n ih =>
    intro s fuel hs hfuel
    obtain ⟨m, rfl⟩ : ∃ m, fuel = m + 1 := ⟨fuel - 1, by omega⟩
    have hne : (s.timeout_val == 0) = false := by simp [hs]
    simp only [wait_while, gpibtimeout_t.call, is_timedout, hne, Bool.false_eq_true, if_false,
      hbusy, Bool.not_false, Bool.and_self, if_true]
    rw [ih _ m (by simp [State.log, hs]) (by omega)]
    simp [State.log, List.replicate_succ]

/-- C5, as the code has it: with the countdown armed by `timeout_start(n)` and
a peer that never releases not-ready-for-data, `gpib_tx` returns true after
exactly `n + 1` polls of `is_timedout` (`n` that answer "not timed out" and
the one that finds the counter at zero), never asserts data-valid, and
Recovery has left the handshake lines, attention, end-or-identify and the
data bus released. -/
theorem gpib_tx_countdown_timeout (env : Env) (dat : Nat) (iscommand : Bool) (s : State)
    (n : Nat) (hn : n < 65536) (hstuck : ∀ h, env.PINC h &&& (1 <<< 6) = 0) :
    ∃ s', (∀ fuel, n + 1 ≤ fuel →
        gpib_tx env dat iscommand .is_timedout fuel (timeout_start n s) = some (true, s')) ∧
      s'.trace = s.trace ++ txTimedOut dat iscommand n ∧
      pollCount (txTimedOut dat iscommand n) = n + 1 ∧
      validCount (txTimedOut dat iscommand n) = 0 ∧
      dav_asserted s' = false ∧ nrfd_asserted s' = false ∧ ndac_asserted s' = false ∧
      atn_asserted s' = false ∧ eoi_asserted s' = false ∧ bus_released s' = true := by
  have hrun : ∀ fuel, n + 1 ≤ fuel →
      gpib_tx env dat iscommand .is_timedout fuel (timeout_start n s) = some (true,
        (gpib_tx_finish true
          { gpib_tx_begin dat iscommand (timeout_start n s) with
            trace := (gpib_tx_begin dat iscommand (timeout_start n s)).trace ++
              (List.replicate n (Event.poll false) ++ [Event.poll true])
            timeout_val := 0 }).2) := by
    intro fuel hfuel
    have h1 := wait_while_countdown (fun s => NRFD_STATE env s == 0)
      (fun s => by simpa [NRFD_STATE] using hstuck s.trace) n (gpib_tx_begin dat iscommand (timeout_start n s))
      fuel (by cases iscommand <;>
        simp [gpib_tx_begin, timeout_start, State.log, ATN_LOW, ATN_HIGH, NDAC_HIGH, NRFD_HIGH,
          DAV_HIGH, Nat.mod_eq_of_lt hn]) hfuel
    simp only [gpib_tx, h1, Bool.not_true, Bool.false_eq_true, if_false]
    rfl
  refine ⟨_, hrun, ?_, ?_, ?_, ?_⟩
  · simp only [gpib_tx_finish, if_true, gpib_recover, (gpib_init_frame _).1]
    cases iscommand <;>
      simp (disch := decide) [gpib_tx_begin, timeout_start, State.log, ATN_HIGH, ATN_LOW,
        DAV_HIGH, NRFD_HIGH, NDAC_HIGH, txTimedOut, atn_asserted, cpl, and_and_eq_zero,
        or_and_ne_zero]
  · simp only [txTimedOut, pollCount, pollCount_polls]
    omega
  · simp [txTimedOut, validCount, validCount_polls]
  · obtain ⟨-, -, -, -, hrec, -⟩ := gpib_tx_spec env dat iscommand _ _ _ true _ (hrun _ le_rfl)
    obtain ⟨⟨h1, h2, h3, h4, h5⟩, h6, -⟩ := hrec rfl
    exact ⟨h1, h2, h3, h4, h6, h5⟩

theorem gpib_tx_countdown_timeout_witness :
    3 < 65536 ∧ (∀ h, env_low.PINC h &&& (1 <<< 6) = 0) ∧
    ∃ s', (∀ fuel, 3 + 1 ≤ fuel →
        gpib_tx env_low 0x3F true .is_timedout fuel (timeout_start 3 power_up) = some (true, s')) ∧
      s'.trace = power_up.trace ++ txTimedOut 0x3F true 3 ∧
      pollCount (txTimedOut 0x3F true 3) = 3 + 1 ∧
      validCount (txTimedOut 0x3F true 3) = 0 ∧
      dav_asserted s' = false ∧ nrfd_asserted s' = false ∧ ndac_asserted s' = false ∧
      atn_asserted s' = false ∧ eoi_asserted s' = false ∧ bus_released s' = true :=
  ⟨by decide, fun _ => Nat.zero_and _,
    gpib_tx_countdown_timeout env_low 0x3F true power_up 3 (by decide) (fun _ => Nat.zero_and _)⟩

/-- C5 as stated fails: armed with `timeout_start(0)` against a peer that
never releases not-ready-for-data, `gpib_tx` returns true after one poll of
`is_timedout`, not after none; armed with `timeout_start(2)` it returns after
three polls. -/
theorem gpib_tx_poll_count_counterexample :
    (gpib_tx env_low 0x3F true .is_timedout 1 (timeout_start 0 power_up)).map
      (fun r => (r.1, pollCount r.2.trace)) = some (true, 1) ∧
    (gpib_tx env_low 0x3F true .is_timedout 3 (timeout_start 2 power_up)).map
      (fun r => (r.1, pollCount r.2.trace)) = some (true, 3) ∧
    (1 : Nat) ≠ 0 ∧ (3 : Nat) ≠ 2 := by
  decide

/-! ## Claim C6: the end-of-transfer flag of `gpib_readdat` -/

theorem gpib_readdat_returns (env : Env) (p : gpibtimeout_t) (hp : p.Elapses) (s : State) :
    Terminates (fun fuel => gpib_readdat env p fuel s) := by
  obtain ⟨⟨t1, s1⟩, n1, h1⟩ := wait_while_returns (fun s => DAV_STATE env s != 0) p hp
    (NRFD_HIGH (NDAC_LOW s))
  cases t1 with
  | true =>
    refine ⟨gpib_readdat_finish 0 false true s1, n1, fun fuel hf => ?_⟩
    have h := h1 fuel hf
    simp only at h
    simp [gpib_readdat, h]
  | false =>
    obtain ⟨⟨t2, s2⟩, n2, h2⟩ := wait_while_returns (fun s => DAV_STATE env s == 0) p hp
      (NDAC_HIGH ((NRFD_LOW s1).log (Event.accept (255 - env.PIND (NRFD_LOW s1).trace % 256)
        (EOI_STATE env (NRFD_LOW s1) == 0))))
    refine ⟨gpib_readdat_finish (255 - env.PIND (NRFD_LOW s1).trace % 256)
      (EOI_STATE env (NRFD_LOW s1) == 0) t2 s2, max n1 n2, fun fuel hf => ?_⟩
    have h := h1 fuel (le_trans (le_max_left _ _) hf)
    have h' := h2 fuel (le_trans (le_max_right _ _) hf)
    simp only at h h'
    simp [gpib_readdat, h, h']

/-- C6: when `gpib_readdat` has seen data-valid asserted (its first wait ended
without a timeout, in the state `s1`), the byte `c` it returns is the
complement of what `PIND` reads then, and the end-of-transfer flag it stores
is true exactly when end-or-identify reads asserted then, or a read terminator
is configured (`s_terminator` is not `'\0'`) and `c` equals it. In particular
with the terminator line-feed the byte 0x0A with end-or-identify not asserted
gives true, and with no terminator it gives false. When no byte was received
the flag is false. With a timeout function that cannot be polled forever the
call returns. -/
theorem gpib_readdat_end_flag (env : Env) (p : gpibtimeout_t) (s : State) :
    (∀ fuel r s', gpib_readdat env p fuel s = some (r, s') →
      ∃ t1 s1, wait_while (fun s => DAV_STATE env s != 0) p fuel (NRFD_HIGH (NDAC_LOW s))
          = some (t1, s1) ∧
        (t1 = true → r.eoi = false) ∧
        (t1 = false →
          r.c = 255 - env.PIND s1.trace % 256 ∧
          (r.eoi = true ↔
            (EOI_STATE env s1 = 0 ∨ (s.s_terminator ≠ 0 ∧ r.c = s.s_terminator))) ∧
          (s.s_terminator = 10 → r.c = 0x0A → EOI_STATE env s1 ≠ 0 → r.eoi = true) ∧
          (s.s_terminator = 0 → r.c = 0x0A → EOI_STATE env s1 ≠ 0 → r.eoi = false))) ∧
    (p.Elapses → Terminates (fun fuel => gpib_readdat env p fuel s)) := by
  refine ⟨?_, fun hp => gpib_readdat_returns env p hp s⟩
  intro fuel r s' h
  unfold gpib_readdat at h
  simp only at h
  split at h
  · exact absurd h (by simp)
  · rename_i t1 s1 h1
    refine ⟨t1, s1, h1, ?_⟩
    obtain ⟨k1, tv1, rfl⟩ := wait_while_spec _ _ _ _ _ _ h1
    cases t1 with
    | true =>
      simp only [Bool.not_true, Bool.false_eq_true, if_false, Option.some.injEq,
        gpib_readdat_finish, Prod.mk.injEq] at h
      obtain ⟨rfl, -⟩ := h
      refine ⟨fun _ => ?_, fun h => absurd h (by simp)⟩
      by_cases hterm : s.s_terminator = 0
      · simp [NRFD_HIGH, NDAC_LOW, hterm]
      · simp [NRFD_HIGH, NDAC_LOW, hterm, Ne.symm hterm]
    | false =>
      simp only [Bool.not_false, if_true] at h
      split at h
      · exact absurd h (by simp)
      · rename_i t2 s2 h2
        obtain ⟨k2, tv2, rfl⟩ := wait_while_spec _ _ _ _ _ _ h2
        simp only [Option.some.injEq, gpib_readdat_finish, Prod.mk.injEq] at h
        obtain ⟨rfl, -⟩ := h
        refine ⟨fun h => absurd h (by simp), fun _ => ?_⟩
        by_cases hterm : s.s_terminator = 0
        · simp [NRFD_HIGH, NDAC_LOW, NDAC_HIGH, NRFD_LOW, State.log, EOI_STATE, hterm]
        · simp [NRFD_HIGH, NDAC_LOW, NDAC_HIGH, NRFD_LOW, State.log, EOI_STATE, hterm]
          intro h10 hc _
          right
          rw [h10, hc]

theorem gpib_readdat_end_flag_witness :
    (∃ r s', gpib_readdat env_linefeed never_timedout 1 (gpib_set_readtermination 10 power_up)
        = some (r, s') ∧ r = { c := 0x0A, eoi := true, timedout := false } ∧
      ∃ t1 s1, wait_while (fun s => DAV_STATE env_linefeed s != 0) never_timedout 1
          (NRFD_HIGH (NDAC_LOW (gpib_set_readtermination 10 power_up))) = some (t1, s1) ∧
        (t1 = true → r.eoi = false) ∧
        (t1 = false →
          r.c = 255 - env_linefeed.PIND s1.trace % 256 ∧
          (r.eoi = true ↔
            (EOI_STATE env_linefeed s1 = 0 ∨
              ((gpib_set_readtermination 10 power_up).s_terminator ≠ 0 ∧
                r.c = (gpib_set_readtermination 10 power_up).s_terminator))) ∧
          ((gpib_set_readtermination 10 power_up).s_terminator = 10 → r.c = 0x0A →
            EOI_STATE env_linefeed s1 ≠ 0 → r.eoi = true) ∧
          ((gpib_set_readtermination 10 power_up).s_terminator = 0 → r.c = 0x0A →
            EOI_STATE env_linefeed s1 ≠ 0 → r.eoi = false))) ∧
    (gpib_readdat env_linefeed never_timedout 1 (gpib_set_readtermination 0 power_up)).map
      (fun r => r.1) = some { c := 0x0A, eoi := false, timedout := false } ∧
    third_poll_timedout.Elapses ∧
    Terminates (fun fuel => gpib_readdat env_low third_poll_timedout fuel power_up) :=
  ⟨⟨_, _, rfl, rfl,
      (gpib_readdat_end_flag env_linefeed never_timedout
        (gpib_set_readtermination 10 power_up)).1 1 _ _ rfl⟩,
    by decide, third_poll_timedout_elapses,
    (gpib_readdat_end_flag env_low third_poll_timedout power_up).2 third_poll_timedout_elapses⟩

/-! ## Claims C7 to C9: the connection monitor -/

/-- An epoch tick that samples attention low never sets the state to
Connected: the state is Connected afterwards only if it was before. -/
theorem idle_tick_not_connected (pinf : Nat) (s : State) (hatn : pinf &&& (1 <<< 6) = 0)
    (h : (TIMER0_OVF_vect pinf s).s_device_state = GPIB_DEVICE_CONNECTSTATE_CONNECTED) :
    s.s_device_state = GPIB_DEVICE_CONNECTSTATE_CONNECTED := by
  unfold TIMER0_OVF_vect at h
  simp only [hatn, beq_self_eq_true, if_true] at h
  split at h
  · split at h
    · split at h
      · simp [GPIB_DEVICE_CONNECTSTATE_DISCONNECTED, GPIB_DEVICE_CONNECTSTATE_CONNECTED] at h
      · exact h
    · exact h
  · exact h

/-- C7, the code at the failing input: from the state after initialisation,
two idle epochs (twelve timer interrupts that read attention low) leave the
connection state Unknown with the hysteresis counter at 2; the state becomes
Disconnected with the third idle epoch only. -/
theorem two_idle_epochs_still_unknown :
    (gpib_init power_up).s_gpib_disconnect_counter = 0 ∧
    (gpib_init power_up).s_gpib_transaction_active = false ∧
    (run_ticks (List.replicate 12 0) (gpib_init power_up)).timer0_100mscounter = 2 ∧
    (run_ticks (List.replicate 12 0) (gpib_init power_up)).s_device_state
      = GPIB_DEVICE_CONNECTSTATE_UNKNOWN ∧
    (run_ticks (List.replicate 12 0) (gpib_init power_up)).s_gpib_disconnect_counter = 2 ∧
    (run_ticks (List.replicate 18 0) (gpib_init power_up)).timer0_100mscounter = 3 ∧
    (run_ticks (List.replicate 18 0) (gpib_init power_up)).s_device_state
      = GPIB_DEVICE_CONNECTSTATE_DISCONNECTED := by
  decide

/-- C8: whatever the connection state and the hysteresis counter are, with no
transaction active one epoch tick that samples attention high sets the
counter to 0 and the state to Connected, and `gpib_is_connected` returns true
afterwards. -/
theorem epoch_tick_connects (pinf : Nat) (s : State) (hepoch : epoch_tick s = true)
    (hidle : s.s_gpib_transaction_active = false) (hatn : pinf &&& (1 <<< 6) ≠ 0) :
    (TIMER0_OVF_vect pinf s).s_gpib_disconnect_counter = 0 ∧
    (TIMER0_OVF_vect pinf s).s_device_state = GPIB_DEVICE_CONNECTSTATE_CONNECTED ∧
    gpib_is_connected (TIMER0_OVF_vect pinf s) = true := by
  have hatn' : (pinf &&& 64 == 0) = false := by simpa using hatn
  have hep : (s.timer0_div + 1) % 256 ≥ 6 := by simpa [epoch_tick] using hepoch
  simp [TIMER0_OVF_vect, hep, hidle, hatn', gpib_is_connected]

theorem epoch_tick_connects_witness :
    epoch_tick sample_disconnected = true ∧
    sample_disconnected.s_gpib_transaction_active = false ∧
    0x40 &&& (1 <<< 6) ≠ 0 ∧
    (TIMER0_OVF_vect 0x40 sample_disconnected).s_gpib_disconnect_counter = 0 ∧
    (TIMER0_OVF_vect 0x40 sample_disconnected).s_device_state
      = GPIB_DEVICE_CONNECTSTATE_CONNECTED ∧
    gpib_is_connected (TIMER0_OVF_vect 0x40 sample_disconnected) = true :=
  ⟨by decide, rfl, by decide,
    epoch_tick_connects 0x40 sample_disconnected (by decide) rfl (by decide)⟩

/-- C9: while a transaction is active a timer interrupt leaves the connection
state and the hysteresis counter as they are, whatever attention reads and
whether or not the interrupt completes an epoch; and in every state it leaves
the transaction flag, every direction and port register (so every bus line
output), the read terminator and the trace as they are. -/
theorem tick_frame (pinf : Nat) (s : State) :
    (s.s_gpib_transaction_active = true →
      (TIMER0_OVF_vect pinf s).s_device_state = s.s_device_state ∧
      (TIMER0_OVF_vect pinf s).s_gpib_disconnect_counter = s.s_gpib_disconnect_counter) ∧
    (TIMER0_OVF_vect pinf s).s_gpib_transaction_active = s.s_gpib_transaction_active ∧
    (TIMER0_OVF_vect pinf s).DDRB = s.DDRB ∧ (TIMER0_OVF_vect pinf s).DDRC = s.DDRC ∧
    (TIMER0_OVF_vect pinf s).DDRD = s.DDRD ∧ (TIMER0_OVF_vect pinf s).DDRE = s.DDRE ∧
    (TIMER0_OVF_vect pinf s).DDRF = s.DDRF ∧
    (TIMER0_OVF_vect pinf s).PORTB = s.PORTB ∧ (TIMER0_OVF_vect pinf s).PORTC = s.PORTC ∧
    (TIMER0_OVF_vect pinf s).PORTD = s.PORTD ∧ (TIMER0_OVF_vect pinf s).PORTE = s.PORTE ∧
    (TIMER0_OVF_vect pinf s).PORTF = s.PORTF ∧
    (TIMER0_OVF_vect pinf s).s_terminator = s.s_terminator ∧
    (TIMER0_OVF_vect pinf s).trace = s.trace := by
  refine ⟨fun hact => ?_, ?_⟩
  · unfold TIMER0_OVF_vect
    simp only [hact, Bool.not_true, Bool.false_eq_true, if_false]
    split <;> exact ⟨rfl, rfl⟩
  · unfold TIMER0_OVF_vect
    simp only
    split
    · split
      · split
        · split <;> simp
        · simp
      · simp
    · simp

theorem tick_frame_witness :
    sample_active.s_gpib_transaction_active = true ∧
    epoch_tick sample_active = true ∧
    (TIMER0_OVF_vect 0 sample_active).s_device_state = sample_active.s_device_state ∧
    (TIMER0_OVF_vect 0 sample_active).s_gpib_disconnect_counter
      = sample_active.s_gpib_disconnect_counter :=
  ⟨rfl, by decide, (tick_frame 0 sample_active).1 rfl⟩

/-! ## Claim C10: `gpib_make_listener` followed by `gpib_untalk_unlisten` -/

theorem unless_timedout_returns (t : Bool) (f : Nat → State → Option (Bool × State))
    (hf : ∀ s, ∃ r, Returns (fun fuel => f fuel s) r) (s : State) :
    ∃ r, Returns (fun fuel => unless_timedout t (f fuel) s) r := by
  cases t with
  | false =>
    obtain ⟨r, n, hr⟩ := hf s
    exact ⟨r, n, fun fuel hfuel => by simpa [unless_timedout] using hr fuel hfuel⟩
  | true => exact ⟨(true, s), 0, fun fuel _ => by simp [unless_timedout]⟩

/-- After `if (!timedout) timedout = gpib_tx(...)` the controller has released
the handshake lines when it had before. -/
theorem unless_timedout_tx_idle (env : Env) (dat : Nat) (p : gpibtimeout_t) (fuel : Nat)
    (t : Bool) (s : State) (t' : Bool) (s' : State) (hidle : lines_idle s)
    (h : unless_timedout t (gpib_tx env dat true p fuel) s = some (t', s')) :
    lines_idle s' := by
  cases t with
  | false =>
    simp only [unless_timedout, Bool.not_false, if_true] at h
    exact (gpib_tx_spec env dat true p fuel s t' s' h).2.1
  | true =>
    simp only [unless_timedout, Bool.not_true, Bool.false_eq_true, if_false,
      Option.some.injEq, Prod.mk.injEq] at h
    rw [← h.2]
    exact hidle

theorem gpib_untalk_unlisten_spec (env : Env) (p : gpibtimeout_t) (fuel : Nat) (s : State)
    (t : Bool) (s' : State) (h : gpib_untalk_unlisten env p fuel s = some (t, s')) :
    s'.s_gpib_transaction_active = false ∧ lines_idle s' := by
  unfold gpib_untalk_unlisten at h
  split at h
  · exact absurd h (by simp)
  · rename_i t1 s1 h1
    have hidle1 : lines_idle s1 := (gpib_tx_spec env 0x3F true p fuel s t1 s1 h1).2.1
    split at h
    · exact absurd h (by simp)
    · rename_i t2 s2 h2
      have hidle2 : lines_idle s2 := unless_timedout_tx_idle env 0x5F p fuel t1 s1 t2 s2 hidle1 h2
      simp only [Option.some.injEq, Prod.mk.injEq] at h
      obtain ⟨-, rfl⟩ := h
      refine ⟨rfl, ?_⟩
      cases t2 with
      | true => exact (gpib_init_recovered s2).1
      | false => exact hidle2

theorem gpib_untalk_unlisten_returns (env : Env) (p : gpibtimeout_t) (hp : p.Elapses)
    (s : State) : ∃ r, Returns (fun fuel => gpib_untalk_unlisten env p fuel s) r := by
  obtain ⟨⟨t1, s1⟩, n1, h1⟩ := gpib_tx_returns env 0x3F true p hp s
  obtain ⟨⟨t2, s2⟩, n2, h2⟩ := unless_timedout_returns t1 (gpib_cmd_UNT env p)
    (fun s => gpib_tx_returns env 0x5F true p hp s) s1
  refine ⟨(t2, { (if t2 then gpib_recover s2 else s2) with s_gpib_transaction_active := false }),
    max n1 n2, fun fuel hf => ?_⟩
  have h := h1 fuel (le_trans (le_max_left _ _) hf)
  have h' := h2 fuel (le_trans (le_max_right _ _) hf)
  simp only at h h'
  simp only [gpib_untalk_unlisten, gpib_cmd_UNL, h, h']

theorem gpib_make_listener_returns (env : Env) (addr : Nat) (p : gpibtimeout_t) (hp : p.Elapses)
    (s : State) : ∃ r, Returns (fun fuel => gpib_make_listener env addr p fuel s) r := by
  obtain ⟨⟨t1, s1⟩, n1, h1⟩ := gpib_tx_returns env 0x5F true p hp
    { s with s_gpib_transaction_active := true }
  obtain ⟨⟨t2, s2⟩, n2, h2⟩ := unless_timedout_returns t1 (gpib_cmd_UNL env p)
    (fun s => gpib_tx_returns env 0x3F true p hp s) s1
  obtain ⟨⟨t3, s3⟩, n3, h3⟩ := unless_timedout_returns t2 (gpib_cmd_LAG env addr p)
    (fun s => addr_returns env _ addr p hp s) s2
  refine ⟨(t3, if t3 then gpib_recover (ATN_HIGH s3) else ATN_HIGH s3),
    max n1 (max n2 n3), fun fuel hf => ?_⟩
  have h := h1 fuel (le_trans (le_max_left _ _) hf)
  have h' := h2 fuel (le_trans (le_trans (le_max_left _ _) (le_max_right _ _)) hf)
  have h'' := h3 fuel (le_trans (le_trans (le_max_right _ _) (le_max_right _ _)) hf)
  simp only at h h' h''
  simp only [gpib_make_listener, gpib_cmd_UNT, h, h', h'']

/-- C10: for every address, every timeout function and every peer, whether or
not a step times out: when `gpib_make_listener(addr)` and then
`gpib_untalk_unlisten` have returned, no transaction is active and the
controller has released data-valid, not-ready-for-data and not-data-accepted.
With a timeout function that cannot be polled forever both calls return. -/
theorem listener_then_untalk_unlisten (env : Env) (p : gpibtimeout_t) (s : State) (addr : Nat) :
    (∀ fuel1 fuel2 t1 s1 t2 s2,
      gpib_make_listener env addr p fuel1 s = some (t1, s1) →
      gpib_untalk_unlisten env p fuel2 s1 = some (t2, s2) →
      s2.s_gpib_transaction_active = false ∧
      dav_asserted s2 = false ∧ nrfd_asserted s2 = false ∧ ndac_asserted s2 = false) ∧
    (p.Elapses →
      ∃ r1 r2, Returns (fun fuel => gpib_make_listener env addr p fuel s) r1 ∧
        Returns (fun fuel => gpib_untalk_unlisten env p fuel r1.2) r2) := by
  refine ⟨fun fuel1 fuel2 t1 s1 t2 s2 _ h2 => ?_, fun hp => ?_⟩
  · obtain ⟨hact, hdav, hnrfd, hndac, -⟩ := gpib_untalk_unlisten_spec env p fuel2 s1 t2 s2 h2
    exact ⟨hact, hdav, hnrfd, hndac⟩
  · obtain ⟨r1, hr1⟩ := gpib_make_listener_returns env addr p hp s
    obtain ⟨r2, hr2⟩ := gpib_untalk_unlisten_returns env p hp r1.2
    exact ⟨r1, r2, hr1, hr2⟩

theorem listener_then_untalk_unlisten_witness :
    (∃ s1 s2, gpib_make_listener env_high 12 never_timedout 1 power_up = some (false, s1) ∧
      gpib_untalk_unlisten env_high never_timedout 1 s1 = some (false, s2) ∧
      s2.s_gpib_transaction_active = false ∧
      dav_asserted s2 = false ∧ nrfd_asserted s2 = false ∧ ndac_asserted s2 = false) ∧
    third_poll_timedout.Elapses ∧
    (∃ r1 r2, Returns (fun fuel => gpib_make_listener env_low 12 third_poll_timedout fuel
        power_up) r1 ∧
      Returns (fun fuel => gpib_untalk_unlisten env_low third_poll_timedout fuel r1.2) r2) :=
  ⟨⟨_, _, rfl, rfl,
      (listener_then_untalk_unlisten env_high never_timedout power_up 12).1 1 1 _ _ _ _ rfl rfl⟩,
    third_poll_timedout_elapses,
    (listener_then_untalk_unlisten env_low third_poll_timedout power_up 12).2
      third_poll_timedout_elapses⟩

/-! ## Claim C18: the read terminator -/

/-- C18: after `gpib_set_readtermination(t)` the stored read terminator is `t`
when `t` is line-feed (10) or carriage-return (13) and none (`'\0'`) for every
other `t`; so it is always one of none, line-feed, carriage-return, and a
second call with the same `t` changes nothing. Nothing but the terminator is
changed. -/
theorem set_readtermination_stores (t : Nat) (s : State) :
    (gpib_set_readtermination t s).s_terminator = (if t = 10 ∨ t = 13 then t else 0) ∧
    ((gpib_set_readtermination t s).s_terminator = 0 ∨
      (gpib_set_readtermination t s).s_terminator = 10 ∨
      (gpib_set_readtermination t s).s_terminator = 13) ∧
    gpib_set_readtermination t (gpib_set_readtermination t s) = gpib_set_readtermination t s ∧
    gpib_set_readtermination t s
      = { s with s_terminator := (gpib_set_readtermination t s).s_terminator } := by
  unfold gpib_set_readtermination
  by_cases h10 : t = 10
  · subst h10; simp
  · by_cases h13 : t = 13
    · subst h13; simp
    · simp [h10, h13]

/-! ## Claim C20: `gpib_writedat` -/

theorem valid_mem_txTimedOut (d : Nat) (a e : Bool) (dat : Nat) (atn : Bool) (k : Nat) :
    Event.valid d a e ∉ txTimedOut dat atn k := by
  simp [txTimedOut, List.mem_replicate]

theorem valid_mem_txValid (d : Nat) (a e : Bool) (dat : Nat) (atn eoi : Bool) (k1 k2 : Nat)
    (t : Bool) (h : Event.valid d a e ∈ txValid dat atn eoi k1 k2 t) :
    d = dat ∧ a = atn ∧ e = eoi := by
  simpa [txValid, List.mem_replicate] using h

theorem gpib_writedat_returns (env : Env) (dat : Nat) (Eoi : Bool) (p : gpibtimeout_t)
    (hp : p.Elapses) (s : State) :
    Terminates (fun fuel => gpib_writedat env dat Eoi p fuel s) := by
  obtain ⟨⟨t, s1⟩, n, h⟩ := gpib_tx_returns env dat false p hp (if Eoi then EOI_LOW s else s)
  refine ⟨(t, EOI_HIGH s1), n, fun fuel hf => ?_⟩
  have h1 := h fuel hf
  simp only at h1
  simp only [gpib_writedat, gpib_dat, h1]

/-- C20: with end-or-identify released on entry, `gpib_writedat` puts exactly
the byte `dat` on the bus, with attention released from the moment the byte is
put on the bus until the bus is released; whenever data-valid is asserted
end-or-identify is asserted at that moment exactly when `Eoi` is true;
end-or-identify is released on return in every case; and the flag returned is
the one the underlying `gpib_tx` returns. With a timeout function that cannot
be polled forever the call returns. -/
theorem writedat_sends_data_byte (env : Env) (dat : Nat) (Eoi : Bool) (p : gpibtimeout_t)
    (s : State) (heoi : eoi_asserted s = false) :
    (∀ fuel t s', gpib_writedat env dat Eoi p fuel s = some (t, s') →
      (∃ s'', gpib_tx env dat false p fuel (if Eoi then EOI_LOW s else s) = some (t, s'')) ∧
      eoi_asserted s' = false ∧
      ∃ l, s'.trace = s.trace ++ l ∧ busBytes l = [(dat, false)] ∧ atnHeld false l = true ∧
        (∀ d a e, Event.valid d a e ∈ l → d = dat ∧ a = false ∧ e = Eoi)) ∧
    (p.Elapses → Terminates (fun fuel => gpib_writedat env dat Eoi p fuel s)) := by
  refine ⟨?_, fun hp => gpib_writedat_returns env dat Eoi p hp s⟩
  intro fuel t s' h
  unfold gpib_writedat gpib_dat at h
  simp only at h
  split at h
  · exact absurd h (by simp)
  · rename_i t1 s1 h1
    simp only [Option.some.injEq, Prod.mk.injEq] at h
    obtain ⟨rfl, rfl⟩ := h
    have heoi' : eoi_asserted (if Eoi then EOI_LOW s else s) = Eoi := by
      cases Eoi with
      | true =>
        have hne : (s.DDRB ||| 16) &&& 16 ≠ 0 := by
          have := or_and_ne_zero s.DDRB 16 16 (by decide)
          simpa using this
        simp [eoi_asserted, EOI_LOW, hne]
      | false => simpa using heoi
    obtain ⟨⟨l, hl, hs⟩, -, -, -, -, -⟩ := gpib_tx_spec env dat false p fuel _ t1 s1 h1
    obtain ⟨l', hl', hb, ha⟩ := gpib_tx_trace env dat false p fuel _ t1 s1 h1
    have hll : l' = l := by
      rw [hl] at hl'
      exact (List.append_cancel_left hl').symm
    subst hll
    refine ⟨⟨s1, h1⟩, ?_, l', ?_, hb, ha, ?_⟩
    · simp (disch := decide) [eoi_asserted, EOI_HIGH, cpl, and_and_eq_zero]
    · rw [show (EOI_HIGH s1).trace = s1.trace from rfl, hl]
      cases Eoi <;> rfl
    · intro d a e hmem
      rcases hs with ⟨-, k, rfl⟩ | ⟨k1, k2, rfl⟩
      · exact absurd hmem (valid_mem_txTimedOut _ _ _ _ _ _)
      · have := valid_mem_txValid _ _ _ _ _ _ _ _ _ hmem
        rw [heoi'] at this
        exact this

theorem writedat_sends_data_byte_witness :
    eoi_asserted power_up = false ∧ third_poll_timedout.Elapses ∧
    (∃ s', gpib_writedat env_high 0x41 true never_timedout 1 power_up = some (false, s') ∧
      eoi_asserted s' = false ∧
      ∃ l, s'.trace = power_up.trace ++ l ∧ busBytes l = [(0x41, false)] ∧
        atnHeld false l = true ∧
        (∀ d a e, Event.valid d a e ∈ l → d = 0x41 ∧ a = false ∧ e = true)) ∧
    Terminates (fun fuel => gpib_writedat env_low 0x41 true third_poll_timedout fuel power_up) :=
  ⟨rfl, third_poll_timedout_elapses,
    ⟨_, rfl, ((writedat_sends_data_byte env_high 0x41 true never_timedout power_up rfl).1
      1 false _ rfl).2⟩,
    (writedat_sends_data_byte env_low 0x41 true third_poll_timedout power_up rfl).2
      third_poll_timedout_elapses⟩

/-! ## Claim C11: the value of `gpib_readStatusByte` -/

theorem acceptedByte_polls (k : Nat) (l : List Event) :
    acceptedByte (List.replicate k (Event.poll false) ++ l) = acceptedByte l := by
  induction k with
  | zero => rfl
  | succ k ih => simpa [List.replicate_succ, acceptedByte] using ih

theorem anyTimedOut_polls (k : Nat) (l : List Event) :
    anyTimedOut (List.replicate k (Event.poll false) ++ l) = anyTimedOut l := by
  induction k with
  | zero => rfl
  | succ k ih => simpa [List.replicate_succ, anyTimedOut] using ih

theorem acceptedByte_append (l l' : List Event) :
    acceptedByte (l ++ l') = (acceptedByte l).orElse (fun _ => acceptedByte l') := by
  induction l with
  | nil => rfl
  | cons e l ih => cases e <;> simp [acceptedByte, ih]

theorem anyTimedOut_append (l l' : List Event) :
    anyTimedOut (l ++ l') = (anyTimedOut l || anyTimedOut l') := by
  induction l with
  | nil => rfl
  | cons e l ih => cases e <;> simp [anyTimedOut, ih, Bool.or_assoc]

/-- One call of `gpib_tx` takes no byte from the bus, and one of its waits
has timed out exactly when it returns true. -/
theorem gpib_tx_flag (env : Env) (dat : Nat) (iscommand : Bool) (p : gpibtimeout_t)
    (fuel : Nat) (s : State) (t : Bool) (s' : State)
    (h : gpib_tx env dat iscommand p fuel s = some (t, s')) :
    ∃ l, s'.trace = s.trace ++ l ∧ busBytes l = [(dat, iscommand)] ∧
      acceptedByte l = none ∧ anyTimedOut l = t := by
  obtain ⟨⟨l, hl, hs⟩, -⟩ := gpib_tx_spec env dat iscommand p fuel s t s' h
  refine ⟨l, hl, ?_⟩
  rcases hs with ⟨rfl, k, rfl⟩ | ⟨k1, k2, rfl⟩
  · refine ⟨busBytes_txTimedOut _ _ _, ?_, ?_⟩
    · simp [txTimedOut, acceptedByte, acceptedByte_polls]
    · simp [txTimedOut, anyTimedOut, anyTimedOut_polls]
  · refine ⟨busBytes_txValid _ _ _ _ _ _, ?_, ?_⟩
    · simp [txValid, acceptedByte, acceptedByte_polls]
    · simp [txValid, anyTimedOut, anyTimedOut_polls]

/-- What a call of `gpib_readdat` leaves in the trace, and what it hands
back: either its first wait timed out, no byte was taken and it returns 0,
or it has taken the byte it returns. -/
theorem gpib_readdat_trace (env : Env) (p : gpibtimeout_t) (fuel : Nat) (s : State)
    (r : ReadResult) (s' : State) (h : gpib_readdat env p fuel s = some (r, s')) :
    ∃ l, s'.trace = s.trace ++ l ∧
      ((∃ k, l = rdTimedOut k ∧ r.c = 0 ∧ r.timedout = true) ∨
       (∃ e k1 k2, l = rdAccepted r.c e k1 k2 r.timedout)) := by
  unfold gpib_readdat at h
  simp only at h
  split at h
  · exact absurd h (by simp)
  · rename_i t1 s1 h1
    obtain ⟨k1, tv1, rfl⟩ := wait_while_spec _ _ _ _ _ _ h1
    cases t1 with
    | true =>
      simp only [Bool.not_true, Bool.false_eq_true, if_false, Option.some.injEq,
        gpib_readdat_finish, if_true, Prod.mk.injEq] at h
      obtain ⟨rfl, rfl⟩ := h
      refine ⟨rdTimedOut k1, ?_, Or.inl ⟨k1, rfl, rfl, rfl⟩⟩
      rw [gpib_recover, (gpib_init_frame _).1]
      rfl
    | false =>
      simp only [Bool.not_false, if_true] at h
      split at h
      · exact absurd h (by simp)
      · rename_i t2 s2 h2
        obtain ⟨k2, tv2, rfl⟩ := wait_while_spec _ _ _ _ _ _ h2
        simp only [Option.some.injEq, gpib_readdat_finish, Prod.mk.injEq] at h
        obtain ⟨rfl, rfl⟩ := h
        refine ⟨rdAccepted (255 - env.PIND (s.trace ++
            (List.replicate k1 (Event.poll false) ++ [Event.poll false])) % 256)
          (env.PINB (s.trace ++ (List.replicate k1 (Event.poll false) ++ [Event.poll false]))
            &&& (1 <<< 4) == 0) k1 k2 t2, ?_, Or.inr ⟨_, k1, k2, rfl⟩⟩
        cases t2 with
        | true =>
          simp only [if_true]
          rw [gpib_recover, (gpib_init_frame _).1]
          simp [rdAccepted, NDAC_HIGH, NRFD_LOW, NRFD_HIGH, NDAC_LOW, State.log, EOI_STATE]
        | false =>
          simp [rdAccepted, NDAC_HIGH, NRFD_LOW, NRFD_HIGH, NDAC_LOW, State.log, EOI_STATE]

/-- The statement `if (!timedout) timedout = gpib_tx(...)`: it takes no byte
from the bus, and the flag is true afterwards exactly when it was before or a
wait of this `gpib_tx` has timed out. -/
theorem unless_tx_flag (env : Env) (dat : Nat) (iscommand : Bool) (p : gpibtimeout_t)
    (fuel : Nat) (t : Bool) (s : State) (t' : Bool) (s' : State)
    (h : unless_timedout t (gpib_tx env dat iscommand p fuel) s = some (t', s')) :
    ∃ l, s'.trace = s.trace ++ l ∧ acceptedByte l = none ∧
      busBytes l = (if t then [] else [(dat, iscommand)]) ∧
      t' = (t || anyTimedOut l) := by
  cases t with
  | false =>
    simp only [unless_timedout, Bool.not_false, if_true] at h
    obtain ⟨l, hl, hb, ha, ht⟩ := gpib_tx_flag env dat iscommand p fuel s t' s' h
    exact ⟨l, hl, ha, by simpa using hb, by simp [ht]⟩
  | true =>
    simp only [unless_timedout, Bool.not_true, Bool.false_eq_true, if_false,
      Option.some.injEq, Prod.mk.injEq] at h
    obtain ⟨rfl, rfl⟩ := h
    exact ⟨[], by simp, rfl, rfl, rfl⟩

/-- The body of `gpib_cmd_LAG` and `gpib_cmd_TAG` takes no byte from the bus,
and returns false when none of its waits has timed out. -/
theorem addr_flag (env : Env) (prim addr : Nat) (p : gpibtimeout_t)
    (fuel : Nat) (s : State) (t : Bool) (s' : State)
    (h : (match gpib_tx env prim true p fuel s with
          | none => none
          | some (result, s) =>
            if addr &&& 0xe0 != 0 then gpib_tx env 0x60 true p fuel s
            else some (result, s)) = some (t, s')) :
    ∃ l, s'.trace = s.trace ++ l ∧ acceptedByte l = none ∧
      (anyTimedOut l = false → t = false) := by
  split at h
  · exact absurd h (by simp)
  · rename_i t1 s1 h1
    obtain ⟨l1, hl1, -, ha1, ht1⟩ := gpib_tx_flag _ _ _ _ _ _ _ _ h1
    split at h
    · obtain ⟨l2, hl2, -, ha2, ht2⟩ := gpib_tx_flag _ _ _ _ _ _ _ _ h
      refine ⟨l1 ++ l2, ?_, ?_, ?_⟩
      · rw [hl2, hl1, List.append_assoc]
      · rw [acceptedByte_append, ha1, ha2]; rfl
      · rw [anyTimedOut_append, ht2]
        intro hany
        simp only [Bool.or_eq_false_iff] at hany
        exact hany.2
    · simp only [Option.some.injEq, Prod.mk.injEq] at h
      obtain ⟨rfl, rfl⟩ := h
      exact ⟨l1, hl1, ha1, fun hany => by rw [← ht1, hany]⟩

theorem gpib_readStatusByte_returns (env : Env) (addr : Nat) (p : gpibtimeout_t)
    (hp : p.Elapses) (s : State) :
    Terminates (fun fuel => gpib_readStatusByte env addr p fuel s) := by
  obtain ⟨⟨t1, s1⟩, n1, h1⟩ := unless_timedout_returns false (gpib_cmd_SPE env p)
    (fun s => gpib_tx_returns env 0x18 true p hp s) s
  obtain ⟨⟨t2, s2⟩, n2, h2⟩ := unless_timedout_returns t1 (gpib_cmd_TAG env addr p)
    (fun s => addr_returns env _ addr p hp s) s1
  have h3 : ∃ r, Returns (fun fuel =>
      if !t2 then (gpib_readdat env p fuel (NDAC_LOW (ATN_HIGH s2))).map
          (fun r => (r.1.c, r.1.timedout, r.2))
      else some (0, t2, NDAC_LOW (ATN_HIGH s2))) r := by
    cases t2 with
    | false =>
      obtain ⟨r, n, hr⟩ := gpib_readdat_returns env p hp (NDAC_LOW (ATN_HIGH s2))
      exact ⟨(r.1.c, r.1.timedout, r.2), n, fun fuel hf => by simp [hr fuel hf]⟩
    | true => exact ⟨(0, true, NDAC_LOW (ATN_HIGH s2)), 0, fun fuel _ => by simp⟩
  obtain ⟨⟨status, t3, s3⟩, n3, h3⟩ := h3
  obtain ⟨⟨t4, s4⟩, n4, h4⟩ := unless_timedout_returns t3 (gpib_cmd_UNT env p)
    (fun s => gpib_tx_returns env 0x5F true p hp s) s3
  obtain ⟨⟨t5, s5⟩, n5, h5⟩ := unless_timedout_returns t4 (gpib_cmd_SPD env p)
    (fun s => gpib_tx_returns env 0x19 true p hp s) s4
  refine ⟨(status, if t5 then gpib_recover s5 else s5),
    max n1 (max n2 (max n3 (max n4 n5))), fun fuel hf => ?_⟩
  have e1 := h1 fuel (by omega)
  have e2 := h2 fuel (by omega)
  have e3 := h3 fuel (by omega)
  have e4 := h4 fuel (by omega)
  have e5 := h5 fuel (by omega)
  simp only at e1 e2 e3 e4 e5
  simp only [gpib_readStatusByte, e1, e2, e3, e4, e5]

/-- C11, as the code has it: `gpib_readStatusByte` returns the byte its
acceptor handshake has taken from the bus whenever it has taken one, also
when a wait after that (for data-valid to be released, in Un-Talk or in
Serial-Poll-Disable) times out, and returns 0 when no byte was taken (a
timeout was reported before the read, or the wait for data-valid timed out).
When no wait times out a byte is taken and returned. With a timeout function
that cannot be polled forever the call returns. -/
theorem readStatusByte_value (env : Env) (addr : Nat) (p : gpibtimeout_t) (s : State) :
    (∀ fuel status s', gpib_readStatusByte env addr p fuel s = some (status, s') →
      ∃ l, s'.trace = s.trace ++ l ∧
        (∀ c, acceptedByte l = some c → status = c) ∧
        (acceptedByte l = none → status = 0) ∧
        (anyTimedOut l = false → ∃ c, acceptedByte l = some c)) ∧
    (p.Elapses → Terminates (fun fuel => gpib_readStatusByte env addr p fuel s)) := by
  refine ⟨?_, fun hp => gpib_readStatusByte_returns env addr p hp s⟩
  intro fuel status s' h
  unfold gpib_readStatusByte at h
  split at h
  · exact absurd h (by simp)
  rename_i t1 s1 h1
  obtain ⟨l1, hl1, ha1, -, ht1⟩ := unless_tx_flag env 0x18 true p fuel false s t1 s1 h1
  split at h
  · exact absurd h (by simp)
  rename_i t2 s2 h2
  have h2' : ∃ l2, s2.trace = s1.trace ++ l2 ∧ acceptedByte l2 = none ∧
      (t1 = true → t2 = true) ∧ (t1 = false → anyTimedOut l2 = false → t2 = false) := by
    cases t1 with
    | false =>
      simp only [unless_timedout, Bool.not_false, if_true] at h2
      obtain ⟨l2, hl2, ha2, ht2⟩ := addr_flag env _ addr p fuel s1 t2 s2 h2
      exact ⟨l2, hl2, ha2, fun h => absurd h (by simp), fun _ => ht2⟩
    | true =>
      simp only [unless_timedout, Bool.not_true, Bool.false_eq_true, if_false,
        Option.some.injEq, Prod.mk.injEq] at h2
      obtain ⟨rfl, rfl⟩ := h2
      exact ⟨[], by simp, rfl, fun _ => rfl, fun h => absurd h (by simp)⟩
  obtain ⟨l2, hl2, ha2, ht2, ht2'⟩ := h2'
  simp only at h
  split at h
  · exact absurd h (by simp)
  rename_i status' t3 s3 h3
  have h3' : ∃ l3, s3.trace = s2.trace ++ l3 ∧
      (∀ c, acceptedByte l3 = some c → status' = c) ∧
      (acceptedByte l3 = none → status' = 0) ∧
      (t2 = false → anyTimedOut l3 = false → ∃ c, acceptedByte l3 = some c) := by
    cases t2 with
    | false =>
      simp only [Bool.not_false, if_true, Option.map_eq_some'] at h3
      obtain ⟨⟨r, s3'⟩, hr, heq⟩ := h3
      simp only [Prod.mk.injEq] at heq
      obtain ⟨rfl, rfl, rfl⟩ := heq
      obtain ⟨l3, hl3, hs⟩ := gpib_readdat_trace env p fuel _ r s3' hr
      refine ⟨l3, hl3, ?_⟩
      rcases hs with ⟨k, rfl, hc, -⟩ | ⟨e, k1, k2, rfl⟩
      · have hacc : acceptedByte (rdTimedOut k) = none := by
          simp [rdTimedOut, acceptedByte, acceptedByte_polls]
        have hany : anyTimedOut (rdTimedOut k) = true := by
          simp [rdTimedOut, anyTimedOut, anyTimedOut_polls]
        refine ⟨fun c h => ?_, fun _ => hc, fun _ h => ?_⟩
        · rw [hacc] at h; exact absurd h (by simp)
        · rw [hany] at h; exact absurd h (by simp)
      · have hacc : acceptedByte (rdAccepted r.c e k1 k2 r.timedout) = some r.c := by
          simp [rdAccepted, acceptedByte, acceptedByte_polls]
        refine ⟨fun c h => ?_, fun h => ?_, fun _ _ => ⟨r.c, hacc⟩⟩
        · rw [hacc] at h; exact Option.some.inj h
        · rw [hacc] at h; exact absurd h (by simp)
    | true =>
      simp only [Bool.not_true, Bool.false_eq_true, if_false, Option.some.injEq,
        Prod.mk.injEq] at h3
      obtain ⟨rfl, rfl, rfl⟩ := h3
      exact ⟨[], by simp [NDAC_LOW, ATN_HIGH], fun c h => absurd h (by simp [acceptedByte]),
        fun _ => rfl, fun h => absurd h (by simp)⟩
  obtain ⟨l3, hl3, hsome, hnone, hgot⟩ := h3'
  split at h
  · exact absurd h (by simp)
  rename_i t4 s4 h4
  obtain ⟨l4, hl4, ha4, -, -⟩ := unless_tx_flag env 0x5F true p fuel t3 s3 t4 s4 h4
  split at h
  · exact absurd h (by simp)
  rename_i t5 s5 h5
  obtain ⟨l5, hl5, ha5, -, -⟩ := unless_tx_flag env 0x19 true p fuel t4 s4 t5 s5 h5
  simp only [Option.some.injEq, Prod.mk.injEq] at h
  obtain ⟨rfl, rfl⟩ := h
  have hacc : acceptedByte (l1 ++ (l2 ++ (l3 ++ (l4 ++ l5)))) = acceptedByte l3 := by
    simp only [acceptedByte_append, ha1, ha2, ha4, ha5]
    cases acceptedByte l3 <;> rfl
  refine ⟨l1 ++ (l2 ++ (l3 ++ (l4 ++ l5))), ?_, ?_, ?_, ?_⟩
  · have htr : (if t5 = true then gpib_recover s5 else s5).trace = s5.trace := by
      cases t5
      · rfl
      · simp only [if_true]
        rw [gpib_recover, (gpib_init_frame _).1]
    rw [htr, hl5, hl4, hl3, hl2, hl1]
    simp [List.append_assoc]
  · rw [hacc]; exact hsome
  · rw [hacc]; exact hnone
  · intro hany
    rw [hacc]
    simp only [anyTimedOut_append, Bool.or_eq_false_iff] at hany
    obtain ⟨hany1, hany2, hany3, -⟩ := hany
    have e1 : t1 = false := by rw [ht1, hany1]; rfl
    exact hgot (ht2' e1 hany2) hany3

theorem readStatusByte_value_witness :
    (∃ s', gpib_readStatusByte env_linefeed 5 never_timedout 1 power_up = some (0x0A, s') ∧
      ∃ l, s'.trace = power_up.trace ++ l ∧
        (∀ c, acceptedByte l = some c → 0x0A = c) ∧
        (acceptedByte l = none → 0x0A = 0) ∧
        (anyTimedOut l = false → ∃ c, acceptedByte l = some c)) ∧
    third_poll_timedout.Elapses ∧
    Terminates (fun fuel => gpib_readStatusByte env_low 5 third_poll_timedout fuel power_up) :=
  ⟨⟨_, rfl, (readStatusByte_value env_linefeed 5 never_timedout power_up).1 1 0x0A _ rfl⟩,
    third_poll_timedout_elapses,
    (readStatusByte_value env_low 5 third_poll_timedout power_up).2 third_poll_timedout_elapses⟩

/-- C11 as stated fails: with a talker that offers the byte 0x0A and a timeout
function that answers "timed out" at the first poll of the Un-Talk step, the
Un-Talk step times out and `gpib_readStatusByte` returns 0x0A, not 0; the same
when the timeout comes in the read itself, after the byte has been taken. -/
theorem readStatusByte_counterexample :
    (gpib_readStatusByte env_linefeed 5 (timedout_at 6) 1 power_up).map
      (fun r => (r.1, anyTimedOut r.2.trace, busBytes r.2.trace))
      = some (0x0A, true, [(0x18, true), (0x45, true), (0x5F, true)]) ∧
    (gpib_readStatusByte env_linefeed 5 (timedout_at 5) 1 power_up).map
      (fun r => (r.1, anyTimedOut r.2.trace, busBytes r.2.trace))
      = some (0x0A, true, [(0x18, true), (0x45, true)]) ∧
    (0x0A : Nat) ≠ 0 := by
  decide

/-! ## Claims C13 to C16: a masked timeout of the primary address byte

`gpib_cmd_LAG` and `gpib_cmd_TAG` send the byte 0x60 whether or not the
primary address byte has timed out, and return the flag of the second
`gpib_tx` alone. The runs below all use an address with a bit above the low
five set, a peer that is always ready, and a timeout function that answers
"timed out" once, at the first poll for the primary address byte. -/

/-- C13, the code at the failing input: in `gpib_trigger(0x20)` the listen
address byte 0x20 times out at its first poll, and the operation goes on to
put 0x60, then Group-Execute-Trigger 0x08 and Un-Listen 0x3F on the bus. -/
theorem trigger_goes_on_after_timeout :
    (gpib_trigger env_high 0x20 (timedout_at 0) 1 power_up).map (fun r => r.2.trace)
      = some [Event.drive 0x20 true, Event.poll true, Event.release true,
          Event.drive 0x60 true, Event.poll false, Event.valid 0x60 true false,
          Event.poll false, Event.release true,
          Event.drive 0x08 true, Event.poll false, Event.valid 0x08 true false,
          Event.poll false, Event.release true,
          Event.drive 0x3F true, Event.poll false, Event.valid 0x3F true false,
          Event.poll false, Event.release true] := by
  decide

/-- C14, the code at the failing input: in `gpib_cmd_LAG(0x20)` and
`gpib_cmd_TAG(0x20)` the wait for the primary address byte times out, the
byte 0x60 is handshaken, and the flag returned is false; `gpib_make_listener`
and `gpib_trigger` hand the false flag on. -/
theorem address_timeout_masked :
    (gpib_cmd_LAG env_high 0x20 (timedout_at 0) 1 power_up).map (fun r => (r.1, r.2.trace))
      = some (false, [Event.drive 0x20 true, Event.poll true, Event.release true,
          Event.drive 0x60 true, Event.poll false, Event.valid 0x60 true false,
          Event.poll false, Event.release true]) ∧
    (gpib_cmd_TAG env_high 0x20 (timedout_at 0) 1 power_up).map (fun r => (r.1, r.2.trace))
      = some (false, [Event.drive 0x40 true, Event.poll true, Event.release true,
          Event.drive 0x60 true, Event.poll false, Event.valid 0x60 true false,
          Event.poll false, Event.release true]) ∧
    (gpib_make_listener env_high 0x20 (timedout_at 4) 1 power_up).map
      (fun r => (r.1, anyTimedOut r.2.trace)) = some (false, true) ∧
    (gpib_trigger env_high 0x20 (timedout_at 0) 1 power_up).map
      (fun r => (r.1, anyTimedOut r.2.trace)) = some (false, true) := by
  decide

/-- C15, the code at the failing input: in `gpib_make_talker(0x20)` the wait
for the talk address byte 0x40 times out, and on return the controller
asserts not-data-accepted. -/
theorem make_talker_not_idle_after_timeout :
    (gpib_make_talker env_high 0x20 (timedout_at 2) 1 power_up).map
      (fun r => (anyTimedOut r.2.trace, busBytes r.2.trace, ndac_asserted r.2))
      = some (true, [(0x3F, true), (0x40, true), (0x60, true)], true) := by
  decide

/-- C16, the code at the failing input: `gpib_make_talker(0x25)` and
`gpib_make_listener(0x2C)` return false with no transaction active, because
Recovery ran after the timeout of the primary address byte and cleared the
flag. -/
theorem returns_false_without_transaction :
    (gpib_make_talker env_high 0x25 (timedout_at 2) 1 power_up).map
      (fun r => (r.1, r.2.s_gpib_transaction_active)) = some (false, false) ∧
    (gpib_make_listener env_high 0x2C (timedout_at 4) 1 power_up).map
      (fun r => (r.1, r.2.s_gpib_transaction_active)) = some (false, false) := by
  decide

/-! ## Claim C19: `gpib_search` after an exhausted scan -/

set_option maxRecDepth 1000000 in
/-- C19, the code at the failing input: on the bus `env_late` the scan runs
through all candidates without an accept signature and ends with `addr = -1`
and `foundaddr = 255`; the lines show the signature after the probe that
follows, and `gpib_search` returns 31, which is neither 255 nor a scanned
candidate. -/
theorem search_returns_31_after_exhausted_scan :
    (match gpib_tx env_late 0x3F true .is_timedout 1 (timeout_start 500 power_up) with
      | some (_, s1) => (gpib_search_scan env_late 1 (0x3e + 1) s1).map (fun r => (r.1, r.2.1))
      | none => none) = some (-1, 255) ∧
    (gpib_search env_late 1 power_up).map (fun r => r.1) = some 31 ∧
    31 &&& 0x1f = 0x1f := by
  decide

/-! ## Address discovery: the scan -/

theorem int8_and_natCast (c m : Nat) (hc : c < 256) : int8_and (c : Int) m = c &&& m := by
  have h : ((c : Int) % 256).toNat = c := by
    rw [Int.emod_eq_of_lt (by omega) (by omega)]
    exact Int.toNat_natCast c
  rw [int8_and, h]

theorem int8_and_neg_one (m : Nat) : int8_and (-1) m = 255 &&& m := rfl

/-- The test of `gpib_search` on the lines is `accept_signature` at the trace
of the moment. -/
theorem accept_signature_eq (env : Env) (s : State) :
    (NDAC_STATE env s == 0 && ATN_STATE env s != 0) = accept_signature env s.trace := rfl

/-- How the `for` loop of `gpib_search` ends: with `addr = -1` and
`foundaddr = 255` when it has run through all candidates, or at a candidate
whose low five bits are not 0x1f and that has just shown the accept
signature, with `addr` and `foundaddr` both that candidate. -/
theorem gpib_search_scan_result (env : Env) (fuel : Nat) :
    ∀ (n : Nat) (s : State) (addr : Int) (found : Nat) (s' : State),
      gpib_search_scan env fuel n s = some (addr, found, s') →
      (addr = -1 ∧ found = 255) ∨
      (∃ c, c < n ∧ addr = (c : Int) ∧ found = c ∧ c &&& 0x1f ≠ 0x1f ∧
        accept_signature env s'.trace = true) := by
  intro n
  induction n with
  | zero =>
    intro s addr found s' h
    simp only [gpib_search_scan, Option.some.injEq, Prod.mk.injEq] at h
    exact Or.inl ⟨h.1.symm, h.2.1.symm⟩
  | succ n ih =>
    intro s addr found s' h
    rw [gpib_search_scan] at h
    split at h
    · rcases ih _ _ _ _ h with hex | ⟨c, hc, hrest⟩
      · exact Or.inl hex
      · exact Or.inr ⟨c, by omega, hrest⟩
    · rename_i hskip
      simp only at h
      split at h
      · exact absurd h (by simp)
      · rename_i t1 s1 h1
        split at h
        · rename_i hacc
          simp only [Option.some.injEq, Prod.mk.injEq] at h
          obtain ⟨rfl, rfl, rfl⟩ := h
          refine Or.inr ⟨n, by omega, rfl, rfl, ?_, ?_⟩
          · simpa using hskip
          · rw [← accept_signature_eq]; exact hacc
        · rcases ih _ _ _ _ h with hex | ⟨c, hc, hrest⟩
          · exact Or.inl hex
          · exact Or.inr ⟨c, by omega, hrest⟩

theorem gpib_search_scan_returns (env : Env) :
    ∀ (n : Nat) (s : State), ∃ r, Returns (fun fuel => gpib_search_scan env fuel n s) r := by
  intro n
  induction n with
  | zero => exact fun s => ⟨(-1, 255, s), 0, fun fuel _ => rfl⟩
  | succ n ih =>
    intro s
    by_cases hskip : (n &&& 0x1f == 0x1f) = true
    · obtain ⟨r, m, hr⟩ := ih s
      exact ⟨r, m, fun fuel hf => by
        show gpib_search_scan env fuel (n + 1) s = some r
        rw [gpib_search_scan]
        simp only [hskip, if_true]
        exact hr fuel hf⟩
    · obtain ⟨⟨t1, s1⟩, n1, h1⟩ := addr_returns env ((n &&& 0x1f) ||| 0x20) n
        .is_timedout trivial (timeout_start 500 s)
      by_cases hacc : (NDAC_STATE env (ATN_HIGH s1) == 0 && ATN_STATE env (ATN_HIGH s1) != 0) = true
      · refine ⟨((n : Int), n, ATN_HIGH s1), n1, fun fuel hf => ?_⟩
        have e1 := h1 fuel hf
        simp only at e1
        show gpib_search_scan env fuel (n + 1) s = some ((n : Int), n, ATN_HIGH s1)
        rw [gpib_search_scan]
        simp only [hskip, if_false, Bool.false_eq_true, gpib_cmd_LAG, e1, hacc, if_true]
      · obtain ⟨r, m, hr⟩ := ih (ATN_HIGH s1)
        refine ⟨r, max n1 m, fun fuel hf => ?_⟩
        have e1 := h1 fuel (by omega)
        have e2 := hr fuel (by omega)
        simp only at e1 e2
        show gpib_search_scan env fuel (n + 1) s = some r
        rw [gpib_search_scan]
        simp only [hskip, if_false, Bool.false_eq_true, gpib_cmd_LAG, e1, hacc, e2]

/-- Address discovery always returns: its timeout function is the countdown
`is_timedout`. -/
theorem gpib_search_returns (env : Env) (s : State) :
    Terminates (fun fuel => gpib_search env fuel s) := by
  obtain ⟨⟨t0, s1⟩, n0, h0⟩ := gpib_tx_returns env 0x3F true .is_timedout trivial
    (timeout_start 500 s)
  obtain ⟨⟨addr, found, s2⟩, n1, h1⟩ := gpib_search_scan_returns env (0x3e + 1) s1
  obtain ⟨⟨t2, s3⟩, n2, h2⟩ := gpib_tx_returns env 0x3F true .is_timedout trivial
    (timeout_start 500 s2)
  by_cases hre : (int8_and addr 0x20 != 0) = true
  · obtain ⟨⟨t3, s4⟩, n3, h3⟩ := addr_returns env ((int8_and addr 0x1f &&& 0x1f) ||| 0x20)
      (int8_and addr 0x1f) .is_timedout trivial s3
    obtain ⟨⟨t4, s5⟩, n4, h4⟩ := gpib_tx_returns env 0x3F true .is_timedout trivial
      (timeout_start 500 (ATN_HIGH s4))
    refine ⟨((if NDAC_STATE env (ATN_HIGH s4) == 0 && ATN_STATE env (ATN_HIGH s4) != 0
        then int8_and addr 0x1f else found), s5),
      max n0 (max n1 (max n2 (max n3 n4))), fun fuel hf => ?_⟩
    have e0 := h0 fuel (by omega)
    have e1 := h1 fuel (by omega)
    have e2 := h2 fuel (by omega)
    have e3 := h3 fuel (by omega)
    have e4 := h4 fuel (by omega)
    simp only at e0 e1 e2 e3 e4
    simp only [gpib_search, e0, e1, e2, hre, if_true, gpib_cmd_LAG, e3, e4]
  · refine ⟨(found, s3), max n0 (max n1 n2), fun fuel hf => ?_⟩
    have e0 := h0 fuel (by omega)
    have e1 := h1 fuel (by omega)
    have e2 := h2 fuel (by omega)
    simp only at e0 e1 e2
    simp only [gpib_search, e0, e1, e2, hre, if_false, Bool.false_eq_true]

/-! ## Claim C17: the probe of the primary address alone -/

theorem txTimedOut_getLast (dat : Nat) (atn : Bool) (k : Nat) :
    (txTimedOut dat atn k).getLast? = some (Event.release atn) := by
  have h : txTimedOut dat atn k
      = (Event.drive dat atn :: (List.replicate k (Event.poll false) ++ [Event.poll true]))
        ++ [Event.release atn] := by
    simp [txTimedOut]
  rw [h, List.getLast?_concat]

theorem txValid_getLast (dat : Nat) (atn eoi : Bool) (k1 k2 : Nat) (t : Bool) :
    (txValid dat atn eoi k1 k2 t).getLast? = some (Event.release atn) := by
  have h : txValid dat atn eoi k1 k2 t
      = (Event.drive dat atn :: (List.replicate k1 (Event.poll false) ++
          Event.poll false :: Event.valid dat atn eoi ::
            (List.replicate k2 (Event.poll false) ++ [Event.poll t])))
        ++ [Event.release atn] := by
    simp [txValid]
  rw [h, List.getLast?_concat]

/-- After a command byte the trace is settled and the byte is the last one on
the bus. -/
theorem gpib_tx_settled (env : Env) (dat : Nat) (p : gpibtimeout_t)
    (fuel : Nat) (s : State) (t : Bool) (s' : State)
    (h : gpib_tx env dat true p fuel s = some (t, s')) :
    ∃ l, s'.trace = s.trace ++ l ∧ busBytes l = [(dat, true)] ∧
      settled (s.trace ++ l) = true ∧ lastByte (s.trace ++ l) = some (dat, true) := by
  obtain ⟨⟨l, hl, hs⟩, -⟩ := gpib_tx_spec env dat true p fuel s t s' h
  have hb : busBytes l = [(dat, true)] := by
    rcases hs with ⟨-, k, rfl⟩ | ⟨k1, k2, rfl⟩
    · exact busBytes_txTimedOut _ _ _
    · exact busBytes_txValid _ _ _ _ _ _
  have hlast : l.getLast? = some (Event.release true) := by
    rcases hs with ⟨-, k, rfl⟩ | ⟨k1, k2, rfl⟩
    · exact txTimedOut_getLast _ _ _
    · exact txValid_getLast _ _ _ _ _ _
  have hne : l ≠ [] := by
    intro h0
    rw [h0] at hb
    exact absurd hb (by simp [busBytes])
  refine ⟨l, hl, hb, ?_, ?_⟩
  · simp [settled, List.getLast?_append_of_ne_nil _ hne, hlast]
  · simp [lastByte, busBytes_append, hb]

/-- After `gpib_cmd_LAG` the trace is settled and holds the bytes of the
listen address. -/
theorem gpib_cmd_LAG_settled (env : Env) (addr : Nat) (p : gpibtimeout_t)
    (fuel : Nat) (s : State) (t : Bool) (s' : State)
    (h : gpib_cmd_LAG env addr p fuel s = some (t, s')) :
    ∃ l, s'.trace = s.trace ++ l ∧ busBytes l = lag_bytes addr ∧
      settled (s.trace ++ l) = true := by
  unfold gpib_cmd_LAG at h
  split at h
  · exact absurd h (by simp)
  · rename_i t1 s1 h1
    obtain ⟨l1, hl1, hb1, hs1, -⟩ := gpib_tx_settled _ _ _ _ _ _ _ h1
    split at h
    · rename_i hsec
      obtain ⟨l2, hl2, hb2, hs2, -⟩ := gpib_tx_settled _ _ _ _ _ _ _ h
      refine ⟨l1 ++ l2, ?_, ?_, ?_⟩
      · rw [hl2, hl1, List.append_assoc]
      · rw [busBytes_append, hb1, hb2, lag_bytes, if_pos hsec]; rfl
      · rw [← List.append_assoc, ← hl1]; exact hs2
    · rename_i hsec
      simp only [Option.some.injEq, Prod.mk.injEq] at h
      obtain ⟨-, rfl⟩ := h
      exact ⟨l1, hl1, by rw [hb1, lag_bytes, if_neg hsec], hs1⟩

/-- C17: when the scan of `gpib_search` has stopped at the candidate `c` (it
has shown the accept signature; `c` is at most 0x3E and its low five bits are
not 0x1F), the controller sends Un-Listen; if `c` is 0x20 or more it then
addresses `c & 0x1F` alone as listener, and the result is `c & 0x1F` when the
lines show the accept signature after that and `c` otherwise; if `c` is below
0x20 nothing but the Un-Listen is sent and the result is `c`. The call
always returns. -/
theorem search_reprobe (env : Env) (s : State) :
    (∀ fuel res s', gpib_search env fuel s = some (res, s') →
      ∃ t0 s1 addr found s2,
        gpib_tx env 0x3F true .is_timedout fuel (timeout_start 500 s) = some (t0, s1) ∧
        gpib_search_scan env fuel (0x3e + 1) s1 = some (addr, found, s2) ∧
        ∀ c : Nat, addr = (c : Int) →
          c ≤ 0x3E ∧ c &&& 0x1F ≠ 0x1F ∧ accept_signature env s2.trace = true ∧
          (c < 0x20 →
            res = c ∧ ∃ l, s'.trace = s2.trace ++ l ∧ busBytes l = [(0x3F, true)]) ∧
          (0x20 ≤ c →
            ∃ l l', s'.trace = s2.trace ++ l ++ l' ∧
              busBytes l = [(0x3F, true), (0x20 ||| (c &&& 0x1F), true)] ∧
              settled (s2.trace ++ l) = true ∧
              busBytes l' = [(0x3F, true)] ∧
              res = if accept_signature env (s2.trace ++ l) then c &&& 0x1F else c)) ∧
    Terminates (fun fuel => gpib_search env fuel s) := by
  refine ⟨?_, gpib_search_returns env s⟩
  intro fuel res s' h
  unfold gpib_search at h
  simp only at h
  split at h
  · exact absurd h (by simp)
  rename_i t0 s1 h0
  split at h
  · exact absurd h (by simp)
  rename_i addr found s2 hscan
  refine ⟨t0, s1, addr, found, s2, h0, hscan, ?_⟩
  intro c hc
  subst hc
  rcases gpib_search_scan_result env fuel _ _ _ _ _ hscan with ⟨hneg, -⟩ | ⟨c', hc', hcc, hfound, hskip, hacc⟩
  · exact absurd hneg (by omega)
  have hceq : c = c' := by omega
  subst hceq
  refine ⟨by omega, hskip, hacc, ?_⟩
  split at h
  · exact absurd h (by simp)
  rename_i t2 s3 h2
  obtain ⟨l2, hl2, hb2, -, -⟩ := gpib_tx_settled _ _ _ _ _ _ _ h2
  have hl2' : s3.trace = s2.trace ++ l2 := hl2
  have h20 : int8_and (c : Int) 0x20 = c &&& 0x20 := int8_and_natCast c 0x20 (by omega)
  have h1f : int8_and (c : Int) 0x1f = c &&& 0x1f := int8_and_natCast c 0x1f (by omega)
  have hbit : ∀ c < 63, (c &&& 0x20 = 0 ↔ c < 0x20) ∧ (c &&& 0x1f) &&& 0x1f = c &&& 0x1f ∧
      (c &&& 0x1f) &&& 0xe0 = 0 := by decide
  obtain ⟨hb20, hb1f, hbe0⟩ := hbit c hc'
  rw [h20, h1f] at h
  constructor
  · intro hlt
    have hz : (c &&& 0x20 != 0) = false := by simp [hb20.mpr hlt]
    simp only [hz, Bool.false_eq_true, if_false, Option.some.injEq, Prod.mk.injEq] at h
    obtain ⟨hres, rfl⟩ := h
    exact ⟨by rw [← hres, hfound], l2, hl2', hb2⟩
  · intro hge
    have hz : (c &&& 0x20 != 0) = true := by
      have : ¬ (c &&& 0x20 = 0) := fun h0 => absurd (hb20.mp h0) (by omega)
      simpa using this
    simp only [hz, if_true] at h
    split at h
    · exact absurd h (by simp)
    rename_i t3 s4 h3
    obtain ⟨l3, hl3, hb3, hs3⟩ := gpib_cmd_LAG_settled _ _ _ _ _ _ _ h3
    split at h
    · exact absurd h (by simp)
    rename_i t4 s5 h4
    obtain ⟨l4, hl4, hb4, -, -⟩ := gpib_tx_settled _ _ _ _ _ _ _ h4
    simp only [Option.some.injEq, Prod.mk.injEq] at h
    obtain ⟨hres, rfl⟩ := h
    have hl4' : s5.trace = s4.trace ++ l4 := hl4
    refine ⟨l2 ++ l3, l4, ?_, ?_, ?_, hb4, ?_⟩
    · rw [hl4', hl3, hl2']
      simp only [List.append_assoc]
    · rw [busBytes_append, hb2, hb3, lag_bytes, hb1f]
      have : ((c &&& 0x1f) &&& 0xe0 != 0) = false := by simp [hbe0]
      rw [this, Nat.lor_comm]
      rfl
    · rw [← List.append_assoc, ← hl2']; exact hs3
    · have htr : (ATN_HIGH s4).trace = s2.trace ++ (l2 ++ l3) := by
        rw [show (ATN_HIGH s4).trace = s4.trace from rfl, hl3, hl2', List.append_assoc]
      rw [← hres, accept_signature_eq, htr, hfound]

set_option maxRecDepth 1000000 in
theorem search_reprobe_witness :
    ∃ s', gpib_search (env_primary_only 12) 1 power_up = some (12, s') ∧
      ∃ t0 s1 addr found s2,
        gpib_tx (env_primary_only 12) 0x3F true .is_timedout 1 (timeout_start 500 power_up)
          = some (t0, s1) ∧
        gpib_search_scan (env_primary_only 12) 1 (0x3e + 1) s1 = some (addr, found, s2) ∧
        ∀ c : Nat, addr = (c : Int) →
          c ≤ 0x3E ∧ c &&& 0x1F ≠ 0x1F ∧ accept_signature (env_primary_only 12) s2.trace = true ∧
          (c < 0x20 →
            12 = c ∧ ∃ l, s'.trace = s2.trace ++ l ∧ busBytes l = [(0x3F, true)]) ∧
          (0x20 ≤ c →
            ∃ l l', s'.trace = s2.trace ++ l ++ l' ∧
              busBytes l = [(0x3F, true), (0x20 ||| (c &&& 0x1F), true)] ∧
              settled (s2.trace ++ l) = true ∧
              busBytes l' = [(0x3F, true)] ∧
              12 = if accept_signature (env_primary_only 12) (s2.trace ++ l) then c &&& 0x1F
                else c) :=
  ⟨_, rfl, (search_reprobe (env_primary_only 12) power_up).1 1 12 _ rfl⟩

/-! ## Claim C12: what `gpib_search` finds -/

theorem lastByte_append (h l : List Event) (hne : busBytes l ≠ []) :
    lastByte (h ++ l) = (busBytes l).getLast? := by
  rw [lastByte, busBytes_append, List.getLast?_append_of_ne_nil _ hne]

set_option maxRecDepth 100000 in
/-- The last byte of the listen address of the candidate `n` is the listen
address byte of `a` only for `n = a`. -/
theorem lag_bytes_last (n a : Nat) (hn : n < 63) (ha : a < 31) :
    (lag_bytes n).getLast? = some (0x20 ||| a, true) ↔ n = a := by
  have h : ∀ n < 63, ∀ a < 31,
      ((lag_bytes n).getLast? = some (0x20 ||| a, true) ↔ n = a) := by decide
  exact h n hn a ha

theorem lag_bytes_ne_nil (n : Nat) : lag_bytes n ≠ [] := by simp [lag_bytes]

/-- The scan against a device that shows the accept signature exactly after
the listen address of `a`: it stops at `a` when `a` is among the candidates
left, and runs through otherwise. -/
theorem gpib_search_scan_finds (env : Env) (a : Nat) (ha : a ≤ 30)
    (hdev : ∀ h, settled h = true →
      (accept_signature env h = true ↔ lastByte h = some (0x20 ||| a, true)))
    (fuel : Nat) :
    ∀ (n : Nat), n ≤ 63 → ∀ (s : State) (addr : Int) (found : Nat) (s' : State),
      gpib_search_scan env fuel n s = some (addr, found, s') →
      (a < n → addr = (a : Int) ∧ found = a) ∧ (n ≤ a → addr = -1 ∧ found = 255) := by
  intro n
  induction n with
  | zero =>
    intro _ s addr found s' h
    simp only [gpib_search_scan, Option.some.injEq, Prod.mk.injEq] at h
    exact ⟨fun h0 => absurd h0 (by omega), fun _ => ⟨h.1.symm, h.2.1.symm⟩⟩
  | succ n ih =>
    intro hn s addr found s' h
    rw [gpib_search_scan] at h
    split at h
    · rename_i hskip
      have hna : n ≠ a := by
        intro heq
        subst heq
        have hbit : ∀ a < 31, a &&& 0x1f ≠ 0x1f := by decide
        exact hbit n (by omega) (by simpa using hskip)
      obtain ⟨h1, h2⟩ := ih (by omega) _ _ _ _ h
      exact ⟨fun hlt => h1 (by omega), fun hle => h2 (by omega)⟩
    · simp only at h
      split at h
      · exact absurd h (by simp)
      · rename_i t1 s1 h1
        obtain ⟨l, hl, hb, hs⟩ := gpib_cmd_LAG_settled _ _ _ _ _ _ _ h1
        have htr : (ATN_HIGH s1).trace = (timeout_start 500 s).trace ++ l := hl
        have hacc : accept_signature env (ATN_HIGH s1).trace = true ↔ n = a := by
          rw [htr, hdev _ hs, lastByte_append _ _ (by rw [hb]; exact lag_bytes_ne_nil n), hb]
          exact lag_bytes_last n a (by omega) (by omega)
        rw [accept_signature_eq] at h
        split at h
        · rename_i hyes
          have hna : n = a := hacc.mp hyes
          simp only [Option.some.injEq, Prod.mk.injEq] at h
          obtain ⟨rfl, rfl, -⟩ := h
          exact ⟨fun _ => ⟨by rw [hna], hna⟩, fun hle => absurd hle (by omega)⟩
        · rename_i hno
          have hna : n ≠ a := fun heq => hno (hacc.mpr heq)
          obtain ⟨h1', h2'⟩ := ih (by omega) _ _ _ _ h
          exact ⟨fun hlt => h1' (by omega), fun hle => h2' (by omega)⟩

/-- Against a device that shows the accept signature exactly after the
listen address of `a`, whatever `gpib_search` returns is `a`. -/
theorem gpib_search_finds (env : Env) (a : Nat) (ha : a ≤ 30)
    (hdev : ∀ h, settled h = true →
      (accept_signature env h = true ↔ lastByte h = some (0x20 ||| a, true)))
    (fuel : Nat) (s : State) (res : Nat) (s' : State)
    (h : gpib_search env fuel s = some (res, s')) : res = a := by
  unfold gpib_search at h
  simp only at h
  split at h
  · exact absurd h (by simp)
  rename_i t0 s1 h0
  split at h
  · exact absurd h (by simp)
  rename_i addr found s2 hscan
  obtain ⟨haddr, hfound⟩ :=
    (gpib_search_scan_finds env a ha hdev fuel _ (by omega) _ _ _ _ hscan).1 (by omega)
  subst haddr
  split at h
  · exact absurd h (by simp)
  rename_i t2 s3 h2
  have hbit : ∀ a < 31, a &&& 0x20 = 0 := by decide
  have hz : (int8_and (a : Int) 0x20 != 0) = false := by
    rw [int8_and_natCast a 0x20 (by omega), hbit a (by omega)]
    rfl
  simp only [hz, Bool.false_eq_true, if_false, Option.some.injEq, Prod.mk.injEq] at h
  rw [← h.1, hfound]

/-- The scan on a bus that never shows the accept signature: it runs through
all its candidates and puts the listen address of each on the bus. -/
theorem gpib_search_scan_none (env : Env)
    (hnone : ∀ h, settled h = true → accept_signature env h = false) (fuel : Nat) :
    ∀ (n : Nat) (s : State) (addr : Int) (found : Nat) (s' : State),
      gpib_search_scan env fuel n s = some (addr, found, s') →
      addr = -1 ∧ found = 255 ∧ ∃ l, s'.trace = s.trace ++ l ∧ busBytes l = scan_bytes n := by
  intro n
  induction n with
  | zero =>
    intro s addr found s' h
    simp only [gpib_search_scan, Option.some.injEq, Prod.mk.injEq] at h
    obtain ⟨rfl, rfl, rfl⟩ := h
    exact ⟨rfl, rfl, [], by simp, rfl⟩
  | succ n ih =>
    intro s addr found s' h
    rw [gpib_search_scan] at h
    split at h
    · rename_i hskip
      obtain ⟨h1, h2, l, hl, hb⟩ := ih _ _ _ _ h
      exact ⟨h1, h2, l, hl, by rw [hb, scan_bytes, if_pos hskip]; rfl⟩
    · rename_i hskip
      simp only at h
      split at h
      · exact absurd h (by simp)
      · rename_i t1 s1 h1
        obtain ⟨l1, hl1, hb1, hs1⟩ := gpib_cmd_LAG_settled _ _ _ _ _ _ _ h1
        have htr : (ATN_HIGH s1).trace = s.trace ++ l1 := hl1
        have hno : accept_signature env (ATN_HIGH s1).trace = false := by
          rw [htr]; exact hnone _ hs1
        rw [accept_signature_eq, hno] at h
        simp only [Bool.false_eq_true, if_false] at h
        obtain ⟨h1', h2', l, hl, hb⟩ := ih _ _ _ _ h
        refine ⟨h1', h2', l1 ++ l, ?_, ?_⟩
        · rw [hl, htr, List.append_assoc]
        · rw [busBytes_append, hb1, hb, scan_bytes, if_neg hskip]

/-- C12: for every address `a` from 0 to 30, when the lines show the accept
signature after a command byte exactly if the last byte on the bus is the
listen address of `a` (candidate `a` has just been addressed, with no
secondary address), `gpib_search` returns `a`; and when the lines never show
the accept signature after a command byte, `gpib_search` returns 255 after
it has put on the bus Un-Listen, the listen address of every candidate from
0x3E down to 0 whose low five bits are not 0x1F, and three more bytes 0x3F. -/
theorem search_finds_device (env : Env) (s : State) :
    (∀ a, a ≤ 30 →
      (∀ h, settled h = true →
        (accept_signature env h = true ↔ lastByte h = some (0x20 ||| a, true))) →
      ∃ s', Returns (fun fuel => gpib_search env fuel s) (a, s')) ∧
    ((∀ h, settled h = true → accept_signature env h = false) →
      ∃ s', Returns (fun fuel => gpib_search env fuel s) (255, s') ∧
        ∃ l, s'.trace = s.trace ++ l ∧
          busBytes l = (0x3F, true) ::
            (scan_bytes (0x3e + 1) ++ [(0x3F, true), (0x3F, true), (0x3F, true)])) ∧
    scan_bytes (0x3e + 1)
      = (((List.range (0x3e + 1)).reverse.filter (fun c => c &&& 0x1f != 0x1f)).map
          lag_bytes).flatten := by
  refine ⟨?_, ?_, by decide⟩
  · intro a ha hdev
    obtain ⟨⟨res, s'⟩, n, hn⟩ := gpib_search_returns env s
    have hres : res = a := gpib_search_finds env a ha hdev n s res s' (hn n le_rfl)
    subst hres
    exact ⟨s', n, hn⟩
  · intro hnone
    obtain ⟨⟨res, s'⟩, n, hn⟩ := gpib_search_returns env s
    have h := hn n le_rfl
    simp only at h
    unfold gpib_search at h
    simp only at h
    split at h
    · exact absurd h (by simp)
    rename_i t0 s1 h0
    obtain ⟨l0, hl0, hb0, -, -⟩ := gpib_tx_settled _ _ _ _ _ _ _ h0
    have hl0' : s1.trace = s.trace ++ l0 := hl0
    split at h
    · exact absurd h (by simp)
    rename_i addr found s2 hscan
    obtain ⟨haddr, hfound, l1, hl1, hb1⟩ := gpib_search_scan_none env hnone n _ _ _ _ _ hscan
    subst haddr
    subst hfound
    split at h
    · exact absurd h (by simp)
    rename_i t2 s3 h2
    obtain ⟨l2, hl2, hb2, -, -⟩ := gpib_tx_settled _ _ _ _ _ _ _ h2
    have hl2' : s3.trace = s2.trace ++ l2 := hl2
    have hz : (int8_and (-1) 0x20 != 0) = true := by decide
    have h1f : int8_and (-1) 0x1f = 31 := by decide
    simp only [hz, if_true, h1f] at h
    split at h
    · exact absurd h (by simp)
    rename_i t3 s4 h3
    obtain ⟨l3, hl3, hb3, hs3⟩ := gpib_cmd_LAG_settled _ _ _ _ _ _ _ h3
    have hno : accept_signature env (ATN_HIGH s4).trace = false := by
      rw [show (ATN_HIGH s4).trace = s4.trace from rfl, hl3]; exact hnone _ hs3
    rw [accept_signature_eq, hno] at h
    simp only [Bool.false_eq_true, if_false] at h
    split at h
    · exact absurd h (by simp)
    rename_i t4 s5 h4
    obtain ⟨l4, hl4, hb4, -, -⟩ := gpib_tx_settled _ _ _ _ _ _ _ h4
    have hl4' : s5.trace = s4.trace ++ l4 := hl4
    simp only [Option.some.injEq, Prod.mk.injEq] at h
    obtain ⟨rfl, rfl⟩ := h
    refine ⟨s5, ⟨n, hn⟩, l0 ++ (l1 ++ (l2 ++ (l3 ++ l4))), ?_, ?_⟩
    · rw [hl4', hl3, hl2', hl1, hl0']
      simp only [List.append_assoc]
    · have hl31 : lag_bytes 31 = [(0x3F, true)] := by decide
      simp only [busBytes_append, hb0, hb1, hb2, hb3, hb4, hl31]
      simp

theorem env_listener_accepts (a : Nat) (h : List Event) :
    accept_signature (env_listener a) h = true ↔ lastByte h = some (0x20 ||| a, true) := by
  by_cases hl : lastByte h = some (0x20 ||| a, true)
  · have h7 : ((0x7F : Nat) &&& 128 == 0) = true := by decide
    have hf : ((0xFF : Nat) &&& 64 != 0) = true := by decide
    simp only [accept_signature, env_listener, hl, beq_self_eq_true, if_true]
    exact ⟨fun _ => trivial, fun _ => by
      show ((0x7F : Nat) &&& 128 == 0 && (0xFF : Nat) &&& 64 != 0) = true
      rw [h7, hf]; rfl⟩
  · have hb : (lastByte h == some (0x20 ||| a, true)) = false := by simpa using hl
    have hF : ((0xFF : Nat) &&& 128 == 0) = false := by decide
    simp only [accept_signature, env_listener, hb, Bool.false_eq_true, if_false, hl, iff_false]
    show ¬ ((0xFF : Nat) &&& 128 == 0 && (0xFF : Nat) &&& 64 != 0) = true
    rw [hF]; simp

theorem env_high_never_accepts (h : List Event) : accept_signature env_high h = false := by
  have hF : ((0xFF : Nat) &&& 128 == 0) = false := by decide
  show ((0xFF : Nat) &&& 128 == 0 && (0xFF : Nat) &&& 64 != 0) = false
  rw [hF]; rfl

theorem search_finds_device_witness :
    12 ≤ 30 ∧
    (∀ h, settled h = true →
      (accept_signature (env_listener 12) h = true ↔ lastByte h = some (0x20 ||| 12, true))) ∧
    (∃ s', Returns (fun fuel => gpib_search (env_listener 12) fuel power_up) (12, s')) ∧
    (∀ h, settled h = true → accept_signature env_high h = false) ∧
    (∃ s', Returns (fun fuel => gpib_search env_high fuel power_up) (255, s') ∧
      ∃ l, s'.trace = power_up.trace ++ l ∧
        busBytes l = (0x3F, true) ::
          (scan_bytes (0x3e + 1) ++ [(0x3F, true), (0x3F, true), (0x3F, true)])) :=
  ⟨by decide, fun h _ => env_listener_accepts 12 h,
    (search_finds_device (env_listener 12) power_up).1 12 (by decide)
      (fun h _ => env_listener_accepts 12 h),
    fun h _ => env_high_never_accepts h,
    (search_finds_device env_high power_up).2.1 (fun h _ => env_high_never_accepts h)⟩

/-! ## The composite operations without the second address byte

Support for the reading of C13 to C16: what the composite operations do when
every step is one `gpib_tx` guarded by `if (!timedout)`, as they all are for
an address with `addr & 0xE0 == 0`. -/

theorem bytesAfterTimeout_polls (k : Nat) (l : List Event) :
    bytesAfterTimeout (List.replicate k (Event.poll false) ++ l) = bytesAfterTimeout l := by
  induction k with
  | zero => rfl
  | succ k ih => simpa [List.replicate_succ, bytesAfterTimeout] using ih

theorem bytesAfterTimeout_append (l l' : List Event) :
    bytesAfterTimeout (l ++ l')
      = if anyTimedOut l then bytesAfterTimeout l ++ busBytes l' else bytesAfterTimeout l' := by
  induction l with
  | nil => rfl
  | cons e l ih =>
    cases e with
    | poll t =>
      cases t with
      | true => simp [bytesAfterTimeout, anyTimedOut, busBytes_append]
      | false => simpa [bytesAfterTimeout, anyTimedOut] using ih
    | drive d a => simpa [bytesAfterTimeout, anyTimedOut] using ih
    | valid d a e => simpa [bytesAfterTimeout, anyTimedOut] using ih
    | release a => simpa [bytesAfterTimeout, anyTimedOut] using ih
    | accept c e => simpa [bytesAfterTimeout, anyTimedOut] using ih

/-- One guarded step `if (!timedout) timedout = gpib_tx(dat, true, ...)`. -/
theorem unless_tx_step (env : Env) (dat : Nat) (p : gpibtimeout_t)
    (fuel : Nat) (t : Bool) (s : State) (t' : Bool) (s' : State)
    (h : unless_timedout t (gpib_tx env dat true p fuel) s = some (t', s')) :
    ∃ l, s'.trace = s.trace ++ l ∧ acceptedByte l = none ∧
      busBytes l = (if t then [] else [(dat, true)]) ∧
      t' = (t || anyTimedOut l) ∧ bytesAfterTimeout l = [] ∧
      (t = true → s' = s ∧ l = []) ∧
      (t' = false →
        s'.s_gpib_transaction_active = s.s_gpib_transaction_active ∧
        s'.s_gpib_disconnect_counter = s.s_gpib_disconnect_counter ∧
        eoi_asserted s' = eoi_asserted s ∧ lines_idle s') ∧
      (t = false → t' = true → Recovered s') := by
  cases t with
  | true =>
    simp only [unless_timedout, Bool.not_true, Bool.false_eq_true, if_false,
      Option.some.injEq, Prod.mk.injEq] at h
    obtain ⟨rfl, rfl⟩ := h
    exact ⟨[], by simp, rfl, rfl, rfl, rfl, fun _ => ⟨rfl, rfl⟩, fun h => absurd h (by simp),
      fun h => absurd h (by simp)⟩
  | false =>
    simp only [unless_timedout, Bool.not_false, if_true] at h
    obtain ⟨⟨l, hl, hs⟩, hidle, -, -, hrec, hframe⟩ := gpib_tx_spec env dat true p fuel s t' s' h
    obtain ⟨l', hl', hb, hacc, hany⟩ := gpib_tx_flag env dat true p fuel s t' s' h
    have hll : l' = l := by
      rw [hl] at hl'
      exact (List.append_cancel_left hl').symm
    subst hll
    refine ⟨l', hl, hacc, by simpa using hb, by simp [hany], ?_, fun h => absurd h (by simp),
      fun ht => ?_, fun _ ht => hrec ht⟩
    · rcases hs with ⟨-, k, rfl⟩ | ⟨k1, k2, rfl⟩
      · simp [txTimedOut, bytesAfterTimeout, bytesAfterTimeout_polls, busBytes]
      · cases t' <;>
          simp [txValid, bytesAfterTimeout, bytesAfterTimeout_polls, busBytes]
    · obtain ⟨h1, h2, h3, -⟩ := hframe ht
      exact ⟨h1, h2, h3, hidle⟩

/-- A sequence of guarded steps: the bytes on the bus are the steps up to and
including the first that timed out, nothing is sent after a timeout, the flag
says whether a wait has timed out, a timeout leaves the bus in the state
Recovery establishes, and without a timeout the transaction flag, the
disconnect counter and end-or-identify are untouched. -/
theorem send_steps_spec (env : Env) (p : gpibtimeout_t) (fuel : Nat) :
    ∀ (steps : List Nat) (t : Bool) (s : State) (t' : Bool) (s' : State),
      send_steps env p fuel steps t s = some (t', s') →
      ∃ l, s'.trace = s.trace ++ l ∧ acceptedByte l = none ∧
        t' = (t || anyTimedOut l) ∧ bytesAfterTimeout l = [] ∧
        (∃ j, busBytes l = (steps.take j).map (fun d => (d, true)) ∧
          (t' = false → j = steps.length)) ∧
        (t = true → s' = s ∧ l = []) ∧
        (t' = false →
          s'.s_gpib_transaction_active = s.s_gpib_transaction_active ∧
          s'.s_gpib_disconnect_counter = s.s_gpib_disconnect_counter ∧
          eoi_asserted s' = eoi_asserted s ∧ (steps ≠ [] → lines_idle s')) ∧
        (t = false → t' = true → Recovered s') := by
  intro steps
  induction steps with
  | nil =>
    intro t s t' s' h
    simp only [send_steps, Option.some.injEq, Prod.mk.injEq] at h
    obtain ⟨rfl, rfl⟩ := h
    refine ⟨[], by simp, rfl, by simp [anyTimedOut], rfl, ⟨0, rfl, fun _ => rfl⟩,
      fun _ => ⟨rfl, rfl⟩, fun _ => ⟨rfl, rfl, rfl, fun h => absurd rfl h⟩, ?_⟩
    intro h1 h2
    rw [h1] at h2
    exact absurd h2 (by simp)
  | cons d rest ih =>
    intro t s t' s' h
    rw [send_steps] at h
    split at h
    · exact absurd h (by simp)
    rename_i t1 s1 h1
    obtain ⟨l1, hl1, ha1, hb1, ht1, hbat1, hskip1, hframe1, hrec1⟩ :=
      unless_tx_step env d p fuel t s t1 s1 h1
    obtain ⟨l2, hl2, ha2, ht2, hbat2, ⟨j2, hb2, hj2⟩, hskip2, hframe2, hrec2⟩ :=
      ih t1 s1 t' s' h
    have hany : t' = (t || anyTimedOut (l1 ++ l2)) := by
      rw [ht2, ht1, anyTimedOut_append, Bool.or_assoc]
    refine ⟨l1 ++ l2, ?_, ?_, hany, ?_, ?_, ?_, ?_, ?_⟩
    · rw [hl2, hl1, List.append_assoc]
    · rw [acceptedByte_append, ha1, ha2]; rfl
    · rw [bytesAfterTimeout_append]
      cases hc : anyTimedOut l1 with
      | false => simpa using hbat2
      | true =>
        have ht1' : t1 = true := by rw [ht1, hc]; simp
        simp [hbat1, (hskip2 ht1').2, busBytes]
    · cases t with
      | true =>
        have ht1' : t1 = true := by rw [ht1]; rfl
        refine ⟨0, ?_, fun hf => ?_⟩
        · simp [(hskip1 rfl).2, (hskip2 ht1').2, busBytes]
        · rw [hany] at hf; exact absurd hf (by simp)
      | false =>
        cases hc : t1 with
        | true =>
          refine ⟨1, ?_, fun hf => ?_⟩
          · rw [busBytes_append, hb1, (hskip2 hc).2]
            simp [busBytes]
          · rw [ht2, hc] at hf; exact absurd hf (by simp)
        | false =>
          refine ⟨j2 + 1, ?_, fun hf => ?_⟩
          · rw [busBytes_append, hb1, hb2]
            simp
          · rw [hj2 hf]; rfl
    · intro htt
      obtain ⟨rfl, rfl⟩ := hskip1 htt
      have ht1' : t1 = true := by rw [ht1, htt]; rfl
      obtain ⟨rfl, rfl⟩ := hskip2 ht1'
      exact ⟨rfl, rfl⟩
    · intro hf
      have ht1' : t1 = false := by
        rw [ht2] at hf
        simp only [Bool.or_eq_false_iff] at hf
        exact hf.1
      obtain ⟨f1, f2, f3, f4⟩ := hframe1 ht1'
      obtain ⟨g1, g2, g3, g4⟩ := hframe2 hf
      refine ⟨by rw [g1, f1], by rw [g2, f2], by rw [g3, f3], fun _ => ?_⟩
      cases rest with
      | nil =>
        simp only [send_steps, Option.some.injEq, Prod.mk.injEq] at h
        rw [← h.2]; exact f4
      | cons d' rest' => exact g4 (by simp)
    · intro htf htt
      cases hc : t1 with
      | true =>
        rw [(hskip2 hc).1]
        exact hrec1 htf hc
      | false => exact hrec2 hc htt

theorem unless_timedout_false (f : State → Option (Bool × State)) (s : State) :
    unless_timedout false f s = f s := rfl

theorem gpib_cmd_fixed_eq (env : Env) (p : gpibtimeout_t) (fuel : Nat) :
    gpib_cmd_UNL env p fuel = gpib_tx env 0x3F true p fuel ∧
    gpib_cmd_UNT env p fuel = gpib_tx env 0x5F true p fuel ∧
    gpib_cmd_LLO env p fuel = gpib_tx env 0x11 true p fuel ∧
    gpib_cmd_GTL env p fuel = gpib_tx env 0x01 true p fuel ∧
    gpib_cmd_SPE env p fuel = gpib_tx env 0x18 true p fuel ∧
    gpib_cmd_SPD env p fuel = gpib_tx env 0x19 true p fuel ∧
    gpib_cmd_GET env p fuel = gpib_tx env 0x08 true p fuel :=
  ⟨rfl, rfl, rfl, rfl, rfl, rfl, rfl⟩

/-- For an address without a bit above the low five, `gpib_cmd_LAG` is one
`gpib_tx`. -/
theorem gpib_cmd_LAG_primary (env : Env) (addr : Nat) (p : gpibtimeout_t) (fuel : Nat)
    (hprim : addr &&& 0xe0 = 0) :
    gpib_cmd_LAG env addr p fuel = gpib_tx env ((addr &&& 0x1f) ||| 0x20) true p fuel := by
  funext s
  unfold gpib_cmd_LAG
  cases gpib_tx env ((addr &&& 0x1f) ||| 0x20) true p fuel s with
  | none => rfl
  | some r => simp [hprim]

theorem gpib_cmd_TAG_primary (env : Env) (addr : Nat) (p : gpibtimeout_t) (fuel : Nat)
    (hprim : addr &&& 0xe0 = 0) :
    gpib_cmd_TAG env addr p fuel = gpib_tx env ((addr &&& 0x1f) ||| 0x40) true p fuel := by
  funext s
  unfold gpib_cmd_TAG
  cases gpib_tx env ((addr &&& 0x1f) ||| 0x40) true p fuel s with
  | none => rfl
  | some r => simp [hprim]

theorem gpib_untalk_unlisten_steps (env : Env) (p : gpibtimeout_t) (fuel : Nat) (s : State) :
    gpib_untalk_unlisten env p fuel s
      = (send_steps env p fuel [0x3F, 0x5F] false s).map (fun r =>
          (r.1, { (if r.1 then gpib_recover r.2 else r.2) with
                  s_gpib_transaction_active := false })) := by
  have hc := gpib_cmd_fixed_eq env p fuel
  simp only [gpib_untalk_unlisten, send_steps, gpib_cmd_UNL, hc.2.1, unless_timedout_false]
  cases gpib_tx env 0x3F true p fuel s with
  | none => rfl
  | some r1 =>
    obtain ⟨t1, s1⟩ := r1
    simp only
    cases unless_timedout t1 (gpib_tx env 0x5F true p fuel) s1 with
    | none => rfl
    | some r2 => rfl

theorem gpib_make_talker_steps (env : Env) (addr : Nat) (p : gpibtimeout_t) (fuel : Nat)
    (s : State) (hprim : addr &&& 0xe0 = 0) :
    gpib_make_talker env addr p fuel s
      = (send_steps env p fuel [0x3F, (addr &&& 0x1f) ||| 0x40] false
          { s with s_gpib_transaction_active := true }).map (fun r =>
          (r.1, if r.1 then gpib_recover (NDAC_LOW (ATN_HIGH r.2)) else NDAC_LOW (ATN_HIGH r.2))) := by
  have hc := gpib_cmd_fixed_eq env p fuel
  simp only [gpib_make_talker, send_steps, gpib_cmd_UNL, gpib_cmd_TAG_primary env addr p fuel hprim,
    unless_timedout_false]
  cases gpib_tx env 0x3F true p fuel { s with s_gpib_transaction_active := true } with
  | none => rfl
  | some r1 =>
    obtain ⟨t1, s1⟩ := r1
    simp only
    cases unless_timedout t1 (gpib_tx env ((addr &&& 0x1f) ||| 0x40) true p fuel) s1 with
    | none => rfl
    | some r2 => rfl

theorem gpib_make_listener_steps (env : Env) (addr : Nat) (p : gpibtimeout_t) (fuel : Nat)
    (s : State) (hprim : addr &&& 0xe0 = 0) :
    gpib_make_listener env addr p fuel s
      = (send_steps env p fuel [0x5F, 0x3F, (addr &&& 0x1f) ||| 0x20] false
          { s with s_gpib_transaction_active := true }).map (fun r =>
          (r.1, if r.1 then gpib_recover (ATN_HIGH r.2) else ATN_HIGH r.2)) := by
  have hc := gpib_cmd_fixed_eq env p fuel
  simp only [gpib_make_listener, send_steps, gpib_cmd_UNT, hc.1,
    gpib_cmd_LAG_primary env addr p fuel hprim, unless_timedout_false]
  cases gpib_tx env 0x5F true p fuel { s with s_gpib_transaction_active := true } with
  | none => rfl
  | some r1 =>
    obtain ⟨t1, s1⟩ := r1
    simp only
    cases unless_timedout t1 (gpib_tx env 0x3F true p fuel) s1 with
    | none => rfl
    | some r2 =>
      obtain ⟨t2, s2⟩ := r2
      simp only
      cases unless_timedout t2 (gpib_tx env ((addr &&& 0x1f) ||| 0x20) true p fuel) s2 with
      | none => rfl
      | some r3 => rfl

theorem gpib_trigger_steps (env : Env) (addr : Nat) (p : gpibtimeout_t) (fuel : Nat)
    (s : State) (hprim : addr &&& 0xe0 = 0) :
    gpib_trigger env addr p fuel s
      = (send_steps env p fuel [(addr &&& 0x1f) ||| 0x20, 0x08, 0x3F] false s).map (fun r =>
          (r.1, if r.1 then gpib_recover r.2 else r.2)) := by
  have hc := gpib_cmd_fixed_eq env p fuel
  simp only [gpib_trigger, send_steps, hc.1, hc.2.2.2.2.2.2,
    gpib_cmd_LAG_primary env addr p fuel hprim, unless_timedout_false]
  cases gpib_tx env ((addr &&& 0x1f) ||| 0x20) true p fuel s with
  | none => rfl
  | some r1 =>
    obtain ⟨t1, s1⟩ := r1
    simp only
    cases unless_timedout t1 (gpib_tx env 0x08 true p fuel) s1 with
    | none => rfl
    | some r2 =>
      obtain ⟨t2, s2⟩ := r2
      simp only
      cases unless_timedout t2 (gpib_tx env 0x3F true p fuel) s2 with
      | none => rfl
      | some r3 => rfl

theorem gpib_gotoLocal_steps (env : Env) (addr : Nat) (p : gpibtimeout_t) (fuel : Nat)
    (s : State) (hprim : addr &&& 0xe0 = 0) :
    gpib_gotoLocal env addr p fuel s
      = (send_steps env p fuel [(addr &&& 0x1f) ||| 0x20, 0x01, 0x3F] false s).map (fun r =>
          if r.1 then gpib_recover r.2 else r.2) := by
  have hc := gpib_cmd_fixed_eq env p fuel
  simp only [gpib_gotoLocal, send_steps, hc.1, hc.2.2.2.1,
    gpib_cmd_LAG_primary env addr p fuel hprim, unless_timedout_false]
  cases gpib_tx env ((addr &&& 0x1f) ||| 0x20) true p fuel s with
  | none => rfl
  | some r1 =>
    obtain ⟨t1, s1⟩ := r1
    simp only
    cases unless_timedout t1 (gpib_tx env 0x01 true p fuel) s1 with
    | none => rfl
    | some r2 =>
      obtain ⟨t2, s2⟩ := r2
      simp only
      cases unless_timedout t2 (gpib_tx env 0x3F true p fuel) s2 with
      | none => rfl
      | some r3 => rfl

theorem gpib_localLockout_steps (env : Env) (p : gpibtimeout_t) (fuel : Nat) (s : State) :
    gpib_localLockout env p fuel s
      = (send_steps env p fuel [0x11] false s).map (fun r =>
          (r.1, if r.1 then gpib_recover r.2 else r.2)) := by
  simp only [gpib_localLockout, send_steps, gpib_cmd_LLO, unless_timedout_false]
  cases gpib_tx env 0x11 true p fuel s with
  | none => rfl
  | some r1 => rfl

/-- A sequence of guarded steps started with `timedout = false`. -/
theorem send_steps_summary (env : Env) (p : gpibtimeout_t) (fuel : Nat) (steps : List Nat)
    (s : State) (t : Bool) (s' : State)
    (h : send_steps env p fuel steps false s = some (t, s')) :
    ∃ l, s'.trace = s.trace ++ l ∧
      (∃ j, busBytes l = (steps.take j).map (fun d => (d, true)) ∧
        (t = false → j = steps.length)) ∧
      bytesAfterTimeout l = [] ∧ t = anyTimedOut l ∧
      (t = true → Recovered s') ∧
      (t = false →
        s'.s_gpib_transaction_active = s.s_gpib_transaction_active ∧
        s'.s_gpib_disconnect_counter = s.s_gpib_disconnect_counter ∧
        eoi_asserted s' = eoi_asserted s ∧ (steps ≠ [] → lines_idle s')) := by
  obtain ⟨l, hl, -, ht, hbat, hj, -, hframe, hrec⟩ := send_steps_spec env p fuel steps false s t s' h
  exact ⟨l, hl, hj, hbat, by simpa using ht, hrec rfl, hframe⟩

theorem recover_if_trace (t : Bool) (s : State) (f : State → State)
    (hf : (f s).trace = s.trace) :
    (if t then gpib_recover (f s) else f s).trace = s.trace := by
  cases t with
  | false => exact hf
  | true =>
    simp only [if_true]
    rw [gpib_recover, (gpib_init_frame _).1, hf]

/-- `gpib_make_talker` for an address without a bit above the low five. -/
theorem gpib_make_talker_primary (env : Env) (addr : Nat) (p : gpibtimeout_t) (fuel : Nat)
    (s : State) (t : Bool) (s' : State) (hprim : addr &&& 0xe0 = 0)
    (h : gpib_make_talker env addr p fuel s = some (t, s')) :
    ∃ l, s'.trace = s.trace ++ l ∧
      (∃ j, busBytes l = ([0x3F, (addr &&& 0x1f) ||| 0x40].take j).map (fun d => (d, true)) ∧
        (t = false → j = 2)) ∧
      bytesAfterTimeout l = [] ∧ t = anyTimedOut l ∧
      (t = true → Recovered s') ∧
      (t = false → s'.s_gpib_transaction_active = true ∧ atn_asserted s' = false ∧
        ndac_asserted s' = true) := by
  rw [gpib_make_talker_steps env addr p fuel s hprim, Option.map_eq_some'] at h
  obtain ⟨⟨t1, s1⟩, hs, heq⟩ := h
  simp only [Prod.mk.injEq] at heq
  obtain ⟨rfl, rfl⟩ := heq
  obtain ⟨l, hl, hj, hbat, ht, hrec, hframe⟩ := send_steps_summary env p fuel _ _ _ _ hs
  refine ⟨l, ?_, hj, hbat, ht, fun htt => ?_, fun htf => ?_⟩
  · rw [recover_if_trace t1 s1 (fun s => NDAC_LOW (ATN_HIGH s)) rfl, hl]
  · rw [htt]; exact gpib_init_recovered _
  · obtain ⟨hact, -, -, -⟩ := hframe htf
    rw [htf]
    refine ⟨hact, ?_, ?_⟩
    · simp (disch := decide) [atn_asserted, NDAC_LOW, ATN_HIGH, cpl, and_and_eq_zero]
    · simp (disch := decide) [ndac_asserted, NDAC_LOW, ATN_HIGH, or_and_ne_zero]

/-- `gpib_make_listener` for an address without a bit above the low five. -/
theorem gpib_make_listener_primary (env : Env) (addr : Nat) (p : gpibtimeout_t) (fuel : Nat)
    (s : State) (t : Bool) (s' : State) (hprim : addr &&& 0xe0 = 0)
    (h : gpib_make_listener env addr p fuel s = some (t, s')) :
    ∃ l, s'.trace = s.trace ++ l ∧
      (∃ j, busBytes l = ([0x5F, 0x3F, (addr &&& 0x1f) ||| 0x20].take j).map
          (fun d => (d, true)) ∧ (t = false → j = 3)) ∧
      bytesAfterTimeout l = [] ∧ t = anyTimedOut l ∧
      (t = true → Recovered s') ∧
      (t = false → s'.s_gpib_transaction_active = true ∧ atn_asserted s' = false) := by
  rw [gpib_make_listener_steps env addr p fuel s hprim, Option.map_eq_some'] at h
  obtain ⟨⟨t1, s1⟩, hs, heq⟩ := h
  simp only [Prod.mk.injEq] at heq
  obtain ⟨rfl, rfl⟩ := heq
  obtain ⟨l, hl, hj, hbat, ht, hrec, hframe⟩ := send_steps_summary env p fuel _ _ _ _ hs
  refine ⟨l, ?_, hj, hbat, ht, fun htt => ?_, fun htf => ?_⟩
  · rw [recover_if_trace t1 s1 (fun s => ATN_HIGH s) rfl, hl]
  · rw [htt]; exact gpib_init_recovered _
  · obtain ⟨hact, -, -, -⟩ := hframe htf
    rw [htf]
    refine ⟨hact, ?_⟩
    simp (disch := decide) [atn_asserted, ATN_HIGH, cpl, and_and_eq_zero]

/-- `gpib_trigger` for an address without a bit above the low five. -/
theorem gpib_trigger_primary (env : Env) (addr : Nat) (p : gpibtimeout_t) (fuel : Nat)
    (s : State) (t : Bool) (s' : State) (hprim : addr &&& 0xe0 = 0)
    (h : gpib_trigger env addr p fuel s = some (t, s')) :
    ∃ l, s'.trace = s.trace ++ l ∧
      (∃ j, busBytes l = ([(addr &&& 0x1f) ||| 0x20, 0x08, 0x3F].take j).map
          (fun d => (d, true)) ∧ (t = false → j = 3)) ∧
      bytesAfterTimeout l = [] ∧ t = anyTimedOut l ∧ (t = true → Recovered s') := by
  rw [gpib_trigger_steps env addr p fuel s hprim, Option.map_eq_some'] at h
  obtain ⟨⟨t1, s1⟩, hs, heq⟩ := h
  simp only [Prod.mk.injEq] at heq
  obtain ⟨rfl, rfl⟩ := heq
  obtain ⟨l, hl, hj, hbat, ht, hrec, -⟩ := send_steps_summary env p fuel _ _ _ _ hs
  refine ⟨l, ?_, hj, hbat, ht, fun htt => ?_⟩
  · rw [recover_if_trace t1 s1 (fun s => s) rfl, hl]
  · rw [htt]; exact gpib_init_recovered _

/-- `gpib_gotoLocal` for an address without a bit above the low five; the
function hands no flag back. -/
theorem gpib_gotoLocal_primary (env : Env) (addr : Nat) (p : gpibtimeout_t) (fuel : Nat)
    (s : State) (s' : State) (hprim : addr &&& 0xe0 = 0)
    (h : gpib_gotoLocal env addr p fuel s = some s') :
    ∃ l, s'.trace = s.trace ++ l ∧
      (∃ j, busBytes l = ([(addr &&& 0x1f) ||| 0x20, 0x01, 0x3F].take j).map
          (fun d => (d, true)) ∧ (anyTimedOut l = false → j = 3)) ∧
      bytesAfterTimeout l = [] ∧ (anyTimedOut l = true → Recovered s') := by
  rw [gpib_gotoLocal_steps env addr p fuel s hprim, Option.map_eq_some'] at h
  obtain ⟨⟨t1, s1⟩, hs, heq⟩ := h
  simp only at heq
  subst heq
  obtain ⟨l, hl, ⟨j, hb, hj⟩, hbat, ht, hrec, -⟩ := send_steps_summary env p fuel _ _ _ _ hs
  refine ⟨l, ?_, ⟨j, hb, fun h0 => hj (by rw [ht, h0])⟩, hbat, fun htt => ?_⟩
  · rw [recover_if_trace t1 s1 (fun s => s) rfl, hl]
  · have : t1 = true := by rw [ht, htt]
    rw [this]; exact gpib_init_recovered _

/-- `gpib_untalk_unlisten`, which sends no address. -/
theorem gpib_untalk_unlisten_summary (env : Env) (p : gpibtimeout_t) (fuel : Nat)
    (s : State) (t : Bool) (s' : State)
    (h : gpib_untalk_unlisten env p fuel s = some (t, s')) :
    ∃ l, s'.trace = s.trace ++ l ∧
      (∃ j, busBytes l = ([0x3F, 0x5F].take j).map (fun d => (d, true)) ∧
        (t = false → j = 2)) ∧
      bytesAfterTimeout l = [] ∧ t = anyTimedOut l ∧ (t = true → Recovered s') := by
  rw [gpib_untalk_unlisten_steps env p fuel s, Option.map_eq_some'] at h
  obtain ⟨⟨t1, s1⟩, hs, heq⟩ := h
  simp only [Prod.mk.injEq] at heq
  obtain ⟨rfl, rfl⟩ := heq
  obtain ⟨l, hl, hj, hbat, ht, hrec, -⟩ := send_steps_summary env p fuel _ _ _ _ hs
  refine ⟨l, ?_, hj, hbat, ht, fun htt => ?_⟩
  · show (if t1 = true then gpib_recover s1 else s1).trace = s.trace ++ l
    rw [recover_if_trace t1 s1 (fun s => s) rfl, hl]
  · rw [htt]
    obtain ⟨h1, h2, -, h4⟩ := gpib_init_recovered s1
    exact ⟨h1, h2, rfl, h4⟩

/-- `gpib_localLockout`, which sends no address. -/
theorem gpib_localLockout_summary (env : Env) (p : gpibtimeout_t) (fuel : Nat)
    (s : State) (t : Bool) (s' : State)
    (h : gpib_localLockout env p fuel s = some (t, s')) :
    ∃ l, s'.trace = s.trace ++ l ∧ busBytes l = [(0x11, true)] ∧
      t = anyTimedOut l ∧ (t = true → Recovered s') := by
  rw [gpib_localLockout_steps env p fuel s, Option.map_eq_some'] at h
  obtain ⟨⟨t1, s1⟩, hs, heq⟩ := h
  simp only [Prod.mk.injEq] at heq
  obtain ⟨rfl, rfl⟩ := heq
  simp only [send_steps, unless_timedout_false] at hs
  split at hs
  · exact absurd hs (by simp)
  rename_i t2 s2 h2
  simp only [Option.some.injEq, Prod.mk.injEq] at hs
  obtain ⟨rfl, rfl⟩ := hs
  obtain ⟨l, hl, hb, -, hany⟩ := gpib_tx_flag env 0x11 true p fuel s t2 s2 h2
  refine ⟨l, ?_, hb, hany.symm, fun htt => ?_⟩
  · rw [recover_if_trace t2 s2 (fun s => s) rfl, hl]
  · rw [htt]; exact gpib_init_recovered _

theorem recovered_EOI_HIGH (s : State) (h : Recovered s) : Recovered (EOI_HIGH s) := by
  obtain ⟨⟨h1, h2, h3, h4, h5⟩, h6, h7, h8⟩ := h
  refine ⟨⟨?_, h2, h3, h4, h5⟩, ?_, h7, h8⟩
  · simpa (disch := decide) [dav_asserted, EOI_HIGH, cpl, and_and_keep] using h1
  · simp (disch := decide) [eoi_asserted, EOI_HIGH, cpl, and_and_eq_zero]

/-- `gpib_writedat`: the flag says whether a wait has timed out, and a
timeout leaves the bus in the state Recovery establishes. -/
theorem gpib_writedat_summary (env : Env) (dat : Nat) (Eoi : Bool) (p : gpibtimeout_t)
    (fuel : Nat) (s : State) (t : Bool) (s' : State)
    (h : gpib_writedat env dat Eoi p fuel s = some (t, s')) :
    ∃ l, s'.trace = s.trace ++ l ∧ busBytes l = [(dat, false)] ∧
      t = anyTimedOut l ∧ (t = true → Recovered s') := by
  unfold gpib_writedat gpib_dat at h
  simp only at h
  split at h
  · exact absurd h (by simp)
  rename_i t1 s1 h1
  simp only [Option.some.injEq, Prod.mk.injEq] at h
  obtain ⟨rfl, rfl⟩ := h
  obtain ⟨l, hl, hb, -, hany⟩ := gpib_tx_flag env dat false p fuel _ t1 s1 h1
  obtain ⟨-, -, -, -, hrec, -⟩ := gpib_tx_spec env dat false p fuel _ t1 s1 h1
  refine ⟨l, ?_, hb, hany.symm, fun htt => recovered_EOI_HIGH s1 (hrec htt)⟩
  rw [show (EOI_HIGH s1).trace = s1.trace from rfl, hl]
  cases Eoi <;> rfl

/-- `gpib_readdat`: the flag it stores says whether one of its waits has
timed out, it puts no byte on the bus, and a timeout leaves the bus in the
state Recovery establishes. -/
theorem gpib_readdat_summary (env : Env) (p : gpibtimeout_t) (fuel : Nat) (s : State)
    (r : ReadResult) (s' : State) (h : gpib_readdat env p fuel s = some (r, s')) :
    ∃ l, s'.trace = s.trace ++ l ∧ busBytes l = [] ∧ bytesAfterTimeout l = [] ∧
      r.timedout = anyTimedOut l ∧ (r.timedout = true → Recovered s') := by
  obtain ⟨l, hl, hs⟩ := gpib_readdat_trace env p fuel s r s' h
  have hrec : r.timedout = true → Recovered s' := by
    intro htt
    unfold gpib_readdat at h
    simp only at h
    split at h
    · exact absurd h (by simp)
    rename_i t1 s1 h1
    cases t1 with
    | true =>
      simp only [Bool.not_true, Bool.false_eq_true, if_false, Option.some.injEq,
        gpib_readdat_finish, if_true, Prod.mk.injEq] at h
      rw [← h.2]; exact gpib_init_recovered _
    | false =>
      simp only [Bool.not_false, if_true] at h
      split at h
      · exact absurd h (by simp)
      rename_i t2 s2 h2
      simp only [Option.some.injEq, gpib_readdat_finish, Prod.mk.injEq] at h
      obtain ⟨rfl, rfl⟩ := h
      have ht2 : t2 = true := htt
      rw [ht2]; exact gpib_init_recovered _
  refine ⟨l, hl, ?_, ?_, ?_, hrec⟩
  · rcases hs with ⟨k, rfl, -, -⟩ | ⟨e, k1, k2, rfl⟩
    · simp [rdTimedOut, busBytes, busBytes_polls]
    · simp [rdAccepted, busBytes, busBytes_polls]
  · rcases hs with ⟨k, rfl, -, -⟩ | ⟨e, k1, k2, rfl⟩
    · simp [rdTimedOut, bytesAfterTimeout, bytesAfterTimeout_polls, busBytes]
    · cases r.timedout <;>
        simp [rdAccepted, bytesAfterTimeout, bytesAfterTimeout_polls, busBytes]
  · rcases hs with ⟨k, rfl, -, ht⟩ | ⟨e, k1, k2, rfl⟩
    · simp [rdTimedOut, anyTimedOut, anyTimedOut_polls, ht]
    · simp [rdAccepted, anyTimedOut, anyTimedOut_polls]

/-- `gpib_cmd_LAG` and `gpib_cmd_TAG` for an address without a bit above the
low five: the flag says whether the wait for the one byte has timed out. -/
theorem gpib_cmd_address_primary (env : Env) (addr : Nat) (p : gpibtimeout_t) (fuel : Nat)
    (s : State) (t : Bool) (s' : State) (hprim : addr &&& 0xe0 = 0) :
    (gpib_cmd_LAG env addr p fuel s = some (t, s') →
      ∃ l, s'.trace = s.trace ++ l ∧ t = anyTimedOut l) ∧
    (gpib_cmd_TAG env addr p fuel s = some (t, s') →
      ∃ l, s'.trace = s.trace ++ l ∧ t = anyTimedOut l) := by
  constructor
  · intro h
    rw [gpib_cmd_LAG_primary env addr p fuel hprim] at h
    obtain ⟨l, hl, -, -, hany⟩ := gpib_tx_flag _ _ _ _ _ _ _ _ h
    exact ⟨l, hl, hany.symm⟩
  · intro h
    rw [gpib_cmd_TAG_primary env addr p fuel hprim] at h
    obtain ⟨l, hl, -, -, hany⟩ := gpib_tx_flag _ _ _ _ _ _ _ _ h
    exact ⟨l, hl, hany.symm⟩

/-- Two stretches of an operation one after the other, each skipped when the
flag is already set: the flag, the bytes after a timeout and the skipping
compose. -/
theorem guarded_append (t t1 t2 : Bool) (l1 l2 : List Event)
    (h1 : t1 = (t || anyTimedOut l1)) (b1 : bytesAfterTimeout l1 = [])
    (h2 : t2 = (t1 || anyTimedOut l2)) (b2 : bytesAfterTimeout l2 = [])
    (k2 : t1 = true → l2 = []) :
    t2 = (t || anyTimedOut (l1 ++ l2)) ∧ bytesAfterTimeout (l1 ++ l2) = [] := by
  refine ⟨by rw [h2, h1, anyTimedOut_append, Bool.or_assoc], ?_⟩
  rw [bytesAfterTimeout_append]
  cases hc : anyTimedOut l1 with
  | false => simpa using b2
  | true =>
    have ht1 : t1 = true := by rw [h1, hc]; simp
    simp [b1, k2 ht1, busBytes]

theorem status_bytes (a : Nat) (t1 t3 t4 : Bool) (m3 : t1 = true → t3 = true)
    (m4 : t3 = true → t4 = true) :
    (if false = true then ([] : List (Nat × Bool)) else [(0x18, true)])
        ++ (if t1 = true then [] else [(a, true)]) ++ []
        ++ (if t3 = true then [] else [(0x5F, true)])
        ++ (if t4 = true then [] else [(0x19, true)])
      = (List.take (1 + (bif t1 then 0 else 1) + (bif t3 then 0 else 1) + (bif t4 then 0 else 1))
          [0x18, a, 0x5F, 0x19]).map (fun d => (d, true)) := by
  cases t1 <;> cases t3 <;> cases t4 <;> simp at m3 m4 ⊢

/-- `gpib_readStatusByte` for an address without a bit above the low five:
the command bytes on the bus are the first of SPE, the talk address, UNT and
SPD, up to and including the first whose wait timed out (none after a timeout
of the read), nothing is sent after a timeout, and a timeout leaves the bus in
the state Recovery establishes. -/
theorem gpib_readStatusByte_primary (env : Env) (addr : Nat) (p : gpibtimeout_t) (fuel : Nat)
    (s : State) (status : Nat) (s' : State) (hprim : addr &&& 0xe0 = 0)
    (h : gpib_readStatusByte env addr p fuel s = some (status, s')) :
    ∃ l, s'.trace = s.trace ++ l ∧
      (∃ j, busBytes l = ([0x18, (addr &&& 0x1f) ||| 0x40, 0x5F, 0x19].take j).map
          (fun d => (d, true)) ∧ (anyTimedOut l = false → j = 4)) ∧
      bytesAfterTimeout l = [] ∧ (anyTimedOut l = true → Recovered s') := by
  unfold gpib_readStatusByte at h
  split at h
  · exact absurd h (by simp)
  rename_i t1 s1 h1
  obtain ⟨l1, hl1, -, hb1, ht1, hbat1, -, -, -⟩ := unless_tx_step env 0x18 p fuel false s t1 s1 h1
  split at h
  · exact absurd h (by simp)
  rename_i t2 s2 h2
  rw [gpib_cmd_TAG_primary env addr p fuel hprim] at h2
  obtain ⟨l2, hl2, -, hb2, ht2, hbat2, hk2, -, -⟩ := unless_tx_step env _ p fuel t1 s1 t2 s2 h2
  simp only at h
  split at h
  · exact absurd h (by simp)
  rename_i status' t3 s3 h3
  have h3' : ∃ l3, s3.trace = s2.trace ++ l3 ∧ busBytes l3 = [] ∧
      t3 = (t2 || anyTimedOut l3) ∧ bytesAfterTimeout l3 = [] ∧ (t2 = true → l3 = []) := by
    cases t2 with
    | false =>
      simp only [Bool.not_false, if_true, Option.map_eq_some'] at h3
      obtain ⟨⟨r, s3'⟩, hr, heq⟩ := h3
      simp only [Prod.mk.injEq] at heq
      obtain ⟨-, rfl, rfl⟩ := heq
      obtain ⟨l3, hl3, hb3, hbat3, ht3, -⟩ := gpib_readdat_summary env p fuel _ r s3' hr
      exact ⟨l3, hl3, hb3, by simpa using ht3, hbat3, fun h => absurd h (by simp)⟩
    | true =>
      simp only [Bool.not_true, Bool.false_eq_true, if_false, Option.some.injEq,
        Prod.mk.injEq] at h3
      obtain ⟨-, rfl, rfl⟩ := h3
      exact ⟨[], by simp [NDAC_LOW, ATN_HIGH], rfl, rfl, rfl, fun _ => rfl⟩
  obtain ⟨l3, hl3, hb3, ht3, hbat3, hk3⟩ := h3'
  split at h
  · exact absurd h (by simp)
  rename_i t4 s4 h4
  obtain ⟨l4, hl4, -, hb4, ht4, hbat4, hk4, -, -⟩ := unless_tx_step env 0x5F p fuel t3 s3 t4 s4 h4
  split at h
  · exact absurd h (by simp)
  rename_i t5 s5 h5
  obtain ⟨l5, hl5, -, hb5, ht5, hbat5, hk5, -, -⟩ := unless_tx_step env 0x19 p fuel t4 s4 t5 s5 h5
  simp only [Option.some.injEq, Prod.mk.injEq] at h
  obtain ⟨-, rfl⟩ := h
  obtain ⟨c2, d2⟩ := guarded_append false t1 t2 l1 l2 ht1 hbat1 ht2 hbat2 (fun h => (hk2 h).2)
  obtain ⟨c3, d3⟩ := guarded_append false t2 t3 (l1 ++ l2) l3 c2 d2 ht3 hbat3 hk3
  obtain ⟨c4, d4⟩ := guarded_append false t3 t4 (l1 ++ l2 ++ l3) l4 c3 d3 ht4 hbat4
    (fun h => (hk4 h).2)
  obtain ⟨c5, d5⟩ := guarded_append false t4 t5 (l1 ++ l2 ++ l3 ++ l4) l5 c4 d4 ht5 hbat5
    (fun h => (hk5 h).2)
  simp only [Bool.false_or] at c5
  refine ⟨l1 ++ l2 ++ l3 ++ l4 ++ l5, ?_, ?_, d5, fun hany => ?_⟩
  · rw [recover_if_trace t5 s5 (fun s => s) rfl, hl5, hl4, hl3, hl2, hl1]
    simp only [List.append_assoc]
  · refine ⟨1 + (bif t1 then 0 else 1) + (bif t3 then 0 else 1) + (bif t4 then 0 else 1), ?_, ?_⟩
    · have m3 : t1 = true → t3 = true := fun h => by rw [ht3, ht2, h]; rfl
      have m4 : t3 = true → t4 = true := fun h => by rw [ht4, h]; rfl
      rw [busBytes_append, busBytes_append, busBytes_append, busBytes_append,
        hb1, hb2, hb3, hb4, hb5]
      exact status_bytes _ t1 t3 t4 m3 m4
    · intro hany
      rw [← c5] at hany
      subst hany
      cases t4 with
      | true => simp at ht5
      | false =>
        cases t3 with
        | true => simp at ht4
        | false =>
          cases t2 with
          | true => simp at ht3
          | false =>
            cases t1 with
            | true => simp at ht2
            | false => rfl
  · have : t5 = true := by rw [c5, hany]
    rw [this]; exact gpib_init_recovered _

end UsbGpib
